import Mathlib

/-!
# x64dbg debugger core (`src/dbg/debugger.cpp`): shallow embedding

The debugger keeps its session in process-wide variables and talks to the
debugging engine, the breakpoint registry, the GUI and the plugins through
calls.  The embedding threads one explicit state value `Dbg` through every
function; each call to a collaborator is appended to `Dbg.events`, in program
order, and the collaborators whose answers the code branches on are part of the
state.  Machine integers are natural numbers; the exception codes and the
addresses are only compared, and pointer arithmetic is reduced modulo `2 ^ 64`
(the 64-bit build, `_WIN64`, is the one embedded).  A handler that blocks on
`wait(WAITID_RUN)` is followed through the block: the `wait` event marks it.
-/

namespace X64Dbg

/-! ## Ignored exception ranges -/

/-- Modelled from the spec: `ExceptionRange` is declared in `debugger.h`; a
closed interval `[start, end]` of unsigned 32-bit exception codes. -/
structure ExceptionRange where
  start : Nat
  «end» : Nat
  deriving DecidableEq, Repr

/-- The loop of `dbgisignoredexception` over the range vector, first element
first, with its early `return true`. -/
def ignoredLoop (exception : Nat) : List ExceptionRange → Bool
  | [] => false
  | r :: rest =>
    let curStart := r.start
    let curEnd := r.end
    if exception ≥ curStart ∧ exception ≤ curEnd then true
    else ignoredLoop exception rest

/-! ## Declarations the file takes from its headers -/

/-- Modelled from the spec: the two gates of the Synchronization Gate
(`threading.h`, section 4.1 of the spec). -/
inductive WAIT_ID
  | WAITID_RUN
  | WAITID_STOP
  deriving DecidableEq, Repr

/-- Modelled from the spec: the three breakpoint kinds (`breakpoint.h`):
software, hardware, memory. -/
inductive BP_TYPE
  | BPNORMAL
  | BPHARDWARE
  | BPMEMORY
  deriving DecidableEq, Repr

/-- Modelled from the spec: one registry entry (`breakpoint.h`), with the
attributes of section 3 of the spec: address, enabled flag, single-shot flag,
kind, kind-specific encoding (`titantype`), display name and owning module. -/
structure BREAKPOINT where
  addr : Nat
  enabled : Bool
  singleshoot : Bool
  type : BP_TYPE
  titantype : Nat
  name : String
  mod : String
  deriving DecidableEq, Repr

/-- Modelled from the spec: the states reported to the GUI (`bridgemain.h`). -/
inductive DBGSTATE
  | initialized
  | paused
  | running
  | stopped
  deriving DecidableEq, Repr

/-- Modelled from the spec: the plugin callback points (`_plugins.h`), one per
lifecycle point of section 6 of the spec. -/
inductive CBTYPE
  | CB_INITDEBUG
  | CB_STOPDEBUG
  | CB_CREATEPROCESS
  | CB_EXITPROCESS
  | CB_CREATETHREAD
  | CB_EXITTHREAD
  | CB_SYSTEMBREAKPOINT
  | CB_LOADDLL
  | CB_UNLOADDLL
  | CB_OUTPUTDEBUGSTRING
  | CB_EXCEPTION
  | CB_BREAKPOINT
  | CB_PAUSEDEBUG
  | CB_STEPPED
  | CB_ATTACH
  | CB_DETACH
  | CB_DEBUGEVENT
  deriving DecidableEq, Repr

/-- Modelled from the spec: `EXCEPTION_BREAKPOINT` (`winnt.h`), the exception
code of a breakpoint trap, at its Windows value. -/
def EXCEPTION_BREAKPOINT : Nat := 0x80000003

/-- Modelled from the spec: `MS_VC_EXCEPTION` (`debugger.h`), the exception code
of the thread-naming signal, at its Windows value. -/
def MS_VC_EXCEPTION : Nat := 0x406D1388

/-- Modelled from the spec: `DBG_CONTINUE` (`winnt.h`), continuation status
"handled". -/
def DBG_CONTINUE : Nat := 0x00010002

/-- Modelled from the spec: `DBG_EXCEPTION_NOT_HANDLED` (`winnt.h`), continuation
status "not handled". -/
def DBG_EXCEPTION_NOT_HANDLED : Nat := 0x80010001

/-- Modelled from the spec: `MAX_THREAD_NAME_SIZE` (`thread.h`), the size of the
buffer a thread name is read into. -/
def MAX_THREAD_NAME_SIZE : Nat := 256

/-- Modelled from the spec: `fhex` (`_global.h`), the pointer-width hexadecimal
conversion the log formats splice in (64-bit build). -/
def fhex : String := "%.16llX"

/-- Modelled from the spec: the trap styles, access modes and widths of the
kind-specific encoding (`TitanEngine.h`); the hit handlers only use them to
word the diagnostic. -/
def UE_BREAKPOINT_TYPE_LONG_INT3 : Nat := 0x20000000

/-- See `UE_BREAKPOINT_TYPE_LONG_INT3`. -/
def UE_BREAKPOINT_TYPE_UD2 : Nat := 0x30000000

/-- See `UE_BREAKPOINT_TYPE_LONG_INT3`. -/
def UE_MEMORY : Nat := 3

/-- See `UE_BREAKPOINT_TYPE_LONG_INT3`. -/
def UE_MEMORY_READ : Nat := 0

/-- See `UE_BREAKPOINT_TYPE_LONG_INT3`. -/
def UE_MEMORY_WRITE : Nat := 1

/-- See `UE_BREAKPOINT_TYPE_LONG_INT3`. -/
def UE_MEMORY_EXECUTE : Nat := 2

/-- See `UE_BREAKPOINT_TYPE_LONG_INT3`. -/
def UE_HARDWARE_EXECUTE : Nat := 4

/-- See `UE_BREAKPOINT_TYPE_LONG_INT3`. -/
def UE_HARDWARE_WRITE : Nat := 5

/-- See `UE_BREAKPOINT_TYPE_LONG_INT3`. -/
def UE_HARDWARE_READWRITE : Nat := 6

/-- See `UE_BREAKPOINT_TYPE_LONG_INT3`. -/
def UE_HARDWARE_SIZE_1 : Nat := 7

/-- See `UE_BREAKPOINT_TYPE_LONG_INT3`. -/
def UE_HARDWARE_SIZE_2 : Nat := 8

/-- See `UE_BREAKPOINT_TYPE_LONG_INT3`. -/
def UE_HARDWARE_SIZE_4 : Nat := 9

/-- See `UE_BREAKPOINT_TYPE_LONG_INT3`. -/
def UE_HARDWARE_SIZE_8 : Nat := 10

/-- Modelled from the spec: `TITANSETDRX` (`breakpoint.h`) stores the assigned
debug-register slot in the hardware encoding, above the access mode and the
width. -/
def TITANSETDRX (titantype drx : Nat) : Nat := (titantype &&& 0x0FF) ||| (drx <<< 8)

/-- Modelled from the spec: `TITANGETDRX` (`breakpoint.h`), the slot stored by
`TITANSETDRX`. -/
def TITANGETDRX (titantype : Nat) : Nat := (titantype >>> 8) &&& 0xF

/-- Modelled from the spec: `TITANGETTYPE` (`breakpoint.h`), the access mode of
a hardware encoding. -/
def TITANGETTYPE (titantype : Nat) : Nat := (titantype >>> 4) &&& 0xF

/-- Modelled from the spec: `TITANGETSIZE` (`breakpoint.h`), the width of a
hardware encoding. -/
def TITANGETSIZE (titantype : Nat) : Nat := titantype &&& 0xF

/-! ## Calls to collaborators -/

/-- An argument of a logged call: a number, a text, or a byte string that went
through `StringUtils::Escape`. -/
inductive Arg
  | num (n : Nat)
  | str (text : String)
  | escaped (bytes : List Nat)
  deriving DecidableEq, Repr

/-- The calls into the debugging engine (TitanEngine, an external library)
that install or remove a trap, detach, or schedule a step. -/
inductive TitanOp
  | SetBPX (addr titantype : Nat)
  | DeleteBPX (addr : Nat)
  | SetMemoryBPXEx (addr size titantype : Nat) (restore : Bool)
  | RemoveMemoryBPX (addr size : Nat)
  | SetHardwareBreakPoint (addr slot accessType size : Nat)
  | DeleteHardwareBreakPoint (slot : Nat)
  | DetachDebuggerEx (pid : Nat)
  deriving DecidableEq, Repr

/-- One observable action of the dispatcher thread, in program order.
`wait` also records the value `bSkipExceptions` has while the thread is
blocked; `plugincbcall` carries the breakpoint handed to `CB_BREAKPOINT`
(`none` for a null pointer and for every other callback); `call` is any other
call to the GUI or to a bookkeeping collaborator, by name. -/
inductive Event
  | lock (id : WAIT_ID)
  | unlock (id : WAIT_ID)
  | wait (id : WAIT_ID) (skipExceptions : Bool)
  | dputs (text : String)
  | dprintf (format : String) (args : List Arg)
  | plugincbcall (cbType : CBTYPE) (breakpoint : Option BREAKPOINT)
  | GuiSetDebugState (state : DBGSTATE)
  | DebugUpdateGui (disasmAddr : Nat) (stack : Bool)
  | BpDelete (addr : Nat) (type : BP_TYPE)
  | BpSetTitanType (addr : Nat) (type : BP_TYPE) (titantype : Nat)
  | BpEnable (addr : Nat) (type : BP_TYPE) (enable : Bool)
  | titan (op : TitanOp) (ok : Bool)
  | cmddirectexec (format : String) (args : List Arg)
  | call (name : String) (args : List Arg)
  deriving DecidableEq, Repr

/-! ## The state -/

/-- Modelled from the spec: what the code reads and writes in the debugging
engine (TitanEngine, an external library): the four debug-register slots
(`none` is a free slot), the installed software and memory traps, the
continuation status of the pending notification, whether the engine has
detached, and `refused`, the calls the engine will decline. -/
structure Titan where
  dr0 : Option (Nat × Nat × Nat)
  dr1 : Option (Nat × Nat × Nat)
  dr2 : Option (Nat × Nat × Nat)
  dr3 : Option (Nat × Nat × Nat)
  bpx : List (Nat × Nat)
  membpx : List (Nat × Nat × Nat × Bool)
  continueStatus : Nat
  detached : Bool
  refused : List TitanOp
  deriving DecidableEq, Repr

/-- Modelled from the spec: what the engine reads from an executable file on
disk: preferred image base (`UE_IMAGEBASE`), entry-point offset (`UE_OEP`),
the number of TLS callbacks and their addresses (`none` when they cannot be
fetched). -/
structure PE32 where
  imageBase : Nat
  oep : Nat
  tlsCount : Nat
  tlsCallbacks : Option (List Nat)
  deriving DecidableEq, Repr

/-- The process-wide variables of `debugger.cpp` (first block of fields, under
their own names), the two gates, the breakpoint registry, the engine, the
answers of the read-only collaborators, and the calls made so far. -/
structure Dbg where
  szFileName : String
  bFileIsDll : Bool
  pDebuggedBase : Nat
  pCreateProcessBase : Nat
  pDebuggedEntry : Nat
  isStepping : Bool
  isPausedByUser : Bool
  isDetachedByUser : Bool
  bIsAttached : Bool
  bSkipExceptions : Bool
  bBreakOnNextDll : Bool
  ignoredExceptionRange : List ExceptionRange
  lastDebugText : List Nat
  cachePrivateUsage : Nat
  hActiveThread : Nat
  /-- Gate `RUN` is locked. -/
  runLocked : Bool
  /-- Gate `STOP` is locked. -/
  stopLocked : Bool
  /-- The breakpoint registry (`breakpoint.cpp`). -/
  breakpoints : List BREAKPOINT
  titan : Titan
  /-- Thread id of the notification being handled (`GetDebugData()`). -/
  dwThreadId : Nat
  /-- Process id of the target (`fdProcessInfo->dwProcessId`). -/
  dwProcessId : Nat
  /-- Private memory usage `GetProcessMemoryInfo` reports for the target;
  `none` when the query fails. -/
  privateUsage : Option Nat
  /-- Thread table (`thread.cpp`): thread id and handle. -/
  threads : List (Nat × Nat)
  /-- Instruction pointer of each thread, by handle (`UE_CIP`). -/
  cip : List (Nat × Nat)
  /-- The configuration keys that are switched on, as (section, name). -/
  settings : List (String × String)
  /-- Symbol table: address and symbolic name. -/
  symbolicNames : List (Nat × String)
  /-- Exception-name table of `exception.cpp`: code and name. -/
  exceptionNames : List (Nat × String)
  /-- Readable bytes of the target, by address. -/
  memory : List (Nat × Nat)
  /-- Memory map of the target: base and size of each region. -/
  regions : List (Nat × Nat)
  /-- Module table (`module.cpp`): base, size and name of each loaded module. -/
  modules : List (Nat × Nat × String)
  /-- Path of the file behind each file handle. -/
  fileNames : List (Nat × String)
  /-- Image size and image name the symbol handler reports for a module base. -/
  moduleInfo : List (Nat × Nat × String)
  /-- The executable files on disk, by path. -/
  peFiles : List (String × PE32)
  events : List Event
  deriving DecidableEq, Repr

/-! ## Collaborators -/

/-- Appends one call to the record of calls. -/
def emit (e : Event) (s : Dbg) : Dbg :=
  { s with events := s.events ++ [e] }

/-- Modelled from the spec: `lock(id)` (`threading.cpp`) locks the gate. -/
def lock (id : WAIT_ID) (s : Dbg) : Dbg :=
  match id with
  | .WAITID_RUN => emit (.lock id) { s with runLocked := true }
  | .WAITID_STOP => emit (.lock id) { s with stopLocked := true }

/-- Modelled from the spec: `unlock(id)` (`threading.cpp`) unlocks the gate. -/
def unlock (id : WAIT_ID) (s : Dbg) : Dbg :=
  match id with
  | .WAITID_RUN => emit (.unlock id) { s with runLocked := false }
  | .WAITID_STOP => emit (.unlock id) { s with stopLocked := false }

/-- Modelled from the spec: `wait(id)` (`threading.cpp`) blocks the calling
thread until the gate is unlocked by another thread.  The event keeps the
value of `bSkipExceptions` during the block; when the call returns the gate is
unlocked. -/
def wait (id : WAIT_ID) (s : Dbg) : Dbg :=
  match id with
  | .WAITID_RUN => emit (.wait id s.bSkipExceptions) { s with runLocked := false }
  | .WAITID_STOP => emit (.wait id s.bSkipExceptions) { s with stopLocked := false }

/-- Modelled from the spec: `dputs` (`console.cpp`) logs one diagnostic line. -/
def dputs (text : String) (s : Dbg) : Dbg :=
  emit (.dputs text) s

/-- Modelled from the spec: `dprintf` (`console.cpp`) logs one formatted
diagnostic line; the format and its arguments are kept apart. -/
def dprintf (format : String) (args : List Arg) (s : Dbg) : Dbg :=
  emit (.dprintf format args) s

/-- Modelled from the spec: `plugincbcall` (`plugin_loader.cpp`), the
fire-and-forget plugin callback dispatch. -/
def plugincbcall (cbType : CBTYPE) (breakpoint : Option BREAKPOINT) (s : Dbg) : Dbg :=
  emit (.plugincbcall cbType breakpoint) s

/-- Modelled from the spec: `GuiSetDebugState` (bridge), the one-way
notification of the session state to the GUI. -/
def GuiSetDebugState (state : DBGSTATE) (s : Dbg) : Dbg :=
  emit (.GuiSetDebugState state) s

/-- Modelled from the spec: `ThreadGetHandle` (`thread.cpp`),
`threadHandleFor(id) -> handle`; 0 for an unknown thread. -/
def ThreadGetHandle (dwThreadId : Nat) (s : Dbg) : Nat :=
  (s.threads.lookup dwThreadId).getD 0

/-- Modelled from the spec: `ThreadIsValid` (`thread.cpp`), whether the thread
table knows the id. -/
def ThreadIsValid (dwThreadId : Nat) (s : Dbg) : Bool :=
  (s.threads.lookup dwThreadId).isSome

/-- Modelled from the spec: `ThreadCreate` (`thread.cpp`), `threadCreated(info)`:
the thread of the notification enters the thread table with its handle. -/
def ThreadCreate (hThread : Nat) (s : Dbg) : Dbg :=
  emit (.call "ThreadCreate" [.num s.dwThreadId, .num hThread])
    { s with threads := (s.dwThreadId, hThread) :: s.threads }

/-- Modelled from the spec: `ThreadExit` (`thread.cpp`), `threadExited(id)`:
the thread leaves the thread table. -/
def ThreadExit (dwThreadId : Nat) (s : Dbg) : Dbg :=
  emit (.call "ThreadExit" [.num dwThreadId])
    { s with threads := s.threads.filter (fun t => t.1 ≠ dwThreadId) }

/-- Modelled from the spec: the engine call `GetContextDataEx(hThread, UE_CIP)`,
the current instruction pointer of a thread. -/
def GetContextDataEx (hThread : Nat) (s : Dbg) : Nat :=
  (s.cip.lookup hThread).getD 0

/-- Modelled from the spec: the engine call
`SetContextDataEx(hThread, UE_CIP, value)`. -/
def SetContextDataEx (hThread value : Nat) (s : Dbg) : Dbg :=
  { s with cip := (hThread, value) :: s.cip.filter (fun c => c.1 ≠ hThread) }

/-- Modelled from the spec: the engine call `SetNextDbgContinueStatus`, which
sets the continuation status of the pending notification. -/
def SetNextDbgContinueStatus (status : Nat) (s : Dbg) : Dbg :=
  { s with titan := { s.titan with continueStatus := status } }

/-- Modelled from the spec: `settingboolget` (`x64_dbg.cpp`), the flat
boolean configuration store. -/
def settingboolget (sect name : String) (s : Dbg) : Bool :=
  decide ((sect, name) ∈ s.settings)

/-- Modelled from the spec: `SymGetSymbolicName` (`symbolinfo.cpp`),
`resolveSymbolicName(addr) -> string?`. -/
def SymGetSymbolicName (addr : Nat) (s : Dbg) : Option String :=
  s.symbolicNames.lookup addr

/-- Modelled from the spec: `ExceptionCodeToName` (`exception.cpp`), the name of
a well-known exception code, if any. -/
def ExceptionCodeToName (code : Nat) (s : Dbg) : Option String :=
  s.exceptionNames.lookup code

/-- Modelled from the spec: `MemRead` (`memory.cpp`): the `size` bytes at
`addr`, or failure when one of them is not readable. -/
def MemRead (addr size : Nat) (s : Dbg) : Option (List Nat) :=
  (List.range size).mapM (fun i => s.memory.lookup (addr + i))

/-- Modelled from the spec: the C string held by a zero-filled buffer
(`Memory<char*>`, `dynamicmem.h`) after `bytes` were read into its start: the
bytes before the first zero. -/
def cString (bytes : List Nat) : List Nat :=
  bytes.takeWhile (fun b => b ≠ 0)

/-- Modelled from the spec: `MemFindBaseAddr` (`memory.cpp`), the base and the
size of the region containing `addr` (address-space introspection); base 0 for
an address in no region, and the size is then left as the caller set it, which
is 0 where the callers read it. -/
def MemFindBaseAddr (addr : Nat) (s : Dbg) : Nat × Nat :=
  (s.regions.find? (fun r => r.1 ≤ addr ∧ addr < r.1 + r.2)).getD (0, 0)

/-- Modelled from the spec: `MemFindBaseAddr` (`memory.cpp`) called with a size
variable that holds `size` before the call: an address in no region leaves that
value in the variable. -/
def MemFindBaseAddrInto (addr size : Nat) (s : Dbg) : Nat × Nat :=
  (s.regions.find? (fun r => r.1 ≤ addr ∧ addr < r.1 + r.2)).getD (0, size)

/-- Modelled from the spec: `ModNameFromAddr` (`module.cpp`),
`resolveModuleNameFromAddress(addr) -> string?`. -/
def ModNameFromAddr (addr : Nat) (s : Dbg) : Option String :=
  (s.modules.find? (fun m => m.1 ≤ addr ∧ addr < m.1 + m.2.1)).map (fun m => m.2.2)

/-- Modelled from the spec: `ModUnload` (`module.cpp`), `moduleUnloaded(base)`. -/
def ModUnload (base : Nat) (s : Dbg) : Dbg :=
  emit (.call "ModUnload" [.num base])
    { s with modules := s.modules.filter (fun m => m.1 ≠ base) }

/-- Modelled from the spec: `ModLoad` (`module.cpp`),
`moduleLoaded(base, size, name)`. -/
def ModLoad (base size : Nat) (name : String) (s : Dbg) : Dbg :=
  emit (.call "ModLoad" [.num base, .num size, .str name])
    { s with modules := (base, size, name) :: s.modules }

/-- Modelled from the spec: `MemIsValidReadPtr` (`memory.cpp`), whether the byte
at `addr` is readable. -/
def MemIsValidReadPtr (addr : Nat) (s : Dbg) : Bool :=
  (s.memory.lookup addr).isSome

/-- Modelled from the spec: the engine call `GetFileNameFromHandle`, the path of
an open file. -/
def GetFileNameFromHandle (hFile : Nat) (s : Dbg) : Option String :=
  s.fileNames.lookup hFile

/-- Modelled from the spec: `SafeSymGetModuleInfo64` (`dbghelp_safe.cpp`), image
size and image name of the module at `base`. -/
def SafeSymGetModuleInfo64 (base : Nat) (s : Dbg) : Option (Nat × String) :=
  s.moduleInfo.lookup base

/-- Modelled from the spec: the engine calls `GetPE32Data` / `GetPE32DataW` with
`UE_OEP`; 0 for a file that cannot be read. -/
def GetPE32Data_OEP (szFile : String) (s : Dbg) : Nat :=
  ((s.peFiles.lookup szFile).map (fun f => f.oep)).getD 0

/-- Modelled from the spec: the engine call `GetPE32DataW` with `UE_IMAGEBASE`. -/
def GetPE32Data_IMAGEBASE (szFile : String) (s : Dbg) : Nat :=
  ((s.peFiles.lookup szFile).map (fun f => f.imageBase)).getD 0

/-- Modelled from the spec: the engine call `TLSGrabCallBackDataW(file, 0, &n)`,
the number of TLS callbacks; 0 for a file that cannot be read. -/
def TLSGrabCallBackCount (szFile : String) (s : Dbg) : Nat :=
  ((s.peFiles.lookup szFile).map (fun f => f.tlsCount)).getD 0

/-- Modelled from the spec: the engine call
`TLSGrabCallBackDataW(file, array, &n)`, the callback addresses, or failure. -/
def TLSGrabCallBackDataW (szFile : String) (s : Dbg) : Option (List Nat) :=
  (s.peFiles.lookup szFile).bind (fun f => f.tlsCallbacks)

/-- Modelled from the spec: addition on `duint` (`_global.h`), the unsigned
pointer-width integer of the 64-bit build. -/
def duintAdd (a b : Nat) : Nat := (a + b) % 2 ^ 64

/-- Modelled from the spec: subtraction on `duint` (`_global.h`), the unsigned
pointer-width integer of the 64-bit build. -/
def duintSub (a b : Nat) : Nat := (a + 2 ^ 64 - b % 2 ^ 64) % 2 ^ 64

/-- Modelled from the spec: `cmddirectexec` (`command.cpp`).  The command
interpreter is an external collaborator: the command handed to it is recorded
as format and arguments, its execution is not part of this file. -/
def cmddirectexec (format : String) (args : List Arg) (s : Dbg) : Dbg :=
  emit (.cmddirectexec format args) s

/-! ### Breakpoint registry -/

/-- Modelled from the spec: `BpGet` (`breakpoint.cpp`),
`get(addr, kind) -> Breakpoint?`: the registry entry with this address and
kind. -/
def BpGet (addr : Nat) (type : BP_TYPE) (s : Dbg) : Option BREAKPOINT :=
  s.breakpoints.find? (fun b => b.addr = addr ∧ b.type = type)

/-- Modelled from the spec: `BpDelete` (`breakpoint.cpp`), `delete`: removes the
entry with this address and kind; false when there is none. -/
def BpDelete (addr : Nat) (type : BP_TYPE) (s : Dbg) : Bool × Dbg :=
  ((BpGet addr type s).isSome,
   emit (.BpDelete addr type)
     { s with breakpoints := s.breakpoints.filter (fun b => ¬ (b.addr = addr ∧ b.type = type)) })

/-- Modelled from the spec: `BpSetTitanType` (`breakpoint.cpp`),
`setKindSpecificEncoding`; false when there is no such entry. -/
def BpSetTitanType (addr : Nat) (type : BP_TYPE) (titantype : Nat) (s : Dbg) : Bool × Dbg :=
  ((BpGet addr type s).isSome,
   emit (.BpSetTitanType addr type titantype)
     { s with breakpoints := s.breakpoints.map (fun b =>
         if b.addr = addr ∧ b.type = type then { b with titantype := titantype } else b) })

/-- Modelled from the spec: `BpEnable` (`breakpoint.cpp`), `setEnabled`; false
when there is no such entry. -/
def BpEnable (addr : Nat) (type : BP_TYPE) (enable : Bool) (s : Dbg) : Bool × Dbg :=
  ((BpGet addr type s).isSome,
   emit (.BpEnable addr type enable)
     { s with breakpoints := s.breakpoints.map (fun b =>
         if b.addr = addr ∧ b.type = type then { b with enabled := enable } else b) })

/-- Modelled from the spec: `BpEnumAll` (`breakpoint.cpp`),
`enumerate(moduleFilter)`: runs the callback on a copy of every registry entry
whose owning module matches, in registry order, continues past a callback that
fails and reports whether all succeeded. -/
def BpEnumAll (EnumCallback : BREAKPOINT → Dbg → Bool × Dbg) (Module : String) (s : Dbg) :
    Bool × Dbg :=
  (s.breakpoints.filter (fun b => b.mod = Module)).foldl
    (fun acc b => ((EnumCallback b acc.2).1 && acc.1, (EnumCallback b acc.2).2)) (true, s)

/-! ### Debugging engine -/

/-- Modelled from the spec: one engine call that can fail.  A call listed in
`refused` fails and changes nothing; any other call succeeds and has its
effect.  Either way the call and its result are recorded. -/
def titanCall (op : TitanOp) (effect : Titan → Titan) (s : Dbg) : Bool × Dbg :=
  if op ∈ s.titan.refused then (false, emit (.titan op false) s)
  else (true, emit (.titan op true) { s with titan := effect s.titan })

/-- Modelled from the spec: `install` of a software breakpoint. -/
def SetBPX (addr titantype : Nat) (s : Dbg) : Bool × Dbg :=
  titanCall (.SetBPX addr titantype) (fun t => { t with bpx := (addr, titantype) :: t.bpx }) s

/-- Modelled from the spec: `remove` of a software breakpoint. -/
def DeleteBPX (addr : Nat) (s : Dbg) : Bool × Dbg :=
  titanCall (.DeleteBPX addr) (fun t => { t with bpx := t.bpx.filter (fun b => b.1 ≠ addr) }) s

/-- Modelled from the spec: `install` of a memory breakpoint on the region of
`size` bytes at `addr`. -/
def SetMemoryBPXEx (addr size titantype : Nat) (restore : Bool) (s : Dbg) : Bool × Dbg :=
  titanCall (.SetMemoryBPXEx addr size titantype restore)
    (fun t => { t with membpx := (addr, size, titantype, restore) :: t.membpx }) s

/-- Modelled from the spec: `remove` of a memory breakpoint. -/
def RemoveMemoryBPX (addr size : Nat) (s : Dbg) : Bool × Dbg :=
  titanCall (.RemoveMemoryBPX addr size)
    (fun t => { t with membpx := t.membpx.filter (fun b => b.1 ≠ addr) }) s

/-- Modelled from the spec: hardware slot allocation is "first free slot" of
the four; `none` when all four are taken. -/
def GetUnusedHardwareBreakPointRegister (s : Dbg) : Option Nat :=
  if s.titan.dr0.isNone then some 0
  else if s.titan.dr1.isNone then some 1
  else if s.titan.dr2.isNone then some 2
  else if s.titan.dr3.isNone then some 3
  else none

/-- Modelled from the spec: writing one of the four debug-register slots; a
slot number above 3 names no register. -/
def Titan.setSlot (t : Titan) (slot : Nat) (v : Option (Nat × Nat × Nat)) : Titan :=
  match slot with
  | 0 => { t with dr0 := v }
  | 1 => { t with dr1 := v }
  | 2 => { t with dr2 := v }
  | 3 => { t with dr3 := v }
  | _ => t

/-- Modelled from the spec: `install` of a hardware breakpoint: programs the
given debug-register slot. -/
def SetHardwareBreakPoint (addr slot accessType size : Nat) (s : Dbg) : Bool × Dbg :=
  titanCall (.SetHardwareBreakPoint addr slot accessType size)
    (fun t => t.setSlot slot (some (addr, accessType, size))) s

/-- Modelled from the spec: `remove` of a hardware breakpoint: releases the
slot. -/
def DeleteHardwareBreakPoint (slot : Nat) (s : Dbg) : Bool × Dbg :=
  titanCall (.DeleteHardwareBreakPoint slot) (fun t => t.setSlot slot none) s

/-- Modelled from the spec: the engine call `DetachDebuggerEx`, the detach
action. -/
def DetachDebuggerEx (pid : Nat) (s : Dbg) : Bool × Dbg :=
  titanCall (.DetachDebuggerEx pid) (fun t => { t with detached := true }) s

/-! ## `debugger.cpp` -/

/-- Function `dbgsetskipexceptions`. -/
def dbgsetskipexceptions (skip : Bool) (s : Dbg) : Dbg :=
  { s with bSkipExceptions := skip }

/-- Function `dbgsetstepping`. -/
def dbgsetstepping (stepping : Bool) (s : Dbg) : Dbg :=
  { s with isStepping := stepping }

/-- Function `dbgsetispausedbyuser`. -/
def dbgsetispausedbyuser (b : Bool) (s : Dbg) : Dbg :=
  { s with isPausedByUser := b }

/-- Function `dbgsetisdetachedbyuser`. -/
def dbgsetisdetachedbyuser (b : Bool) (s : Dbg) : Dbg :=
  { s with isDetachedByUser := b }

/-- Function `dbgclearignoredexceptions`. -/
def dbgclearignoredexceptions (s : Dbg) : Dbg :=
  { s with ignoredExceptionRange := [] }

/-- Function `dbgaddignoredexception`: `push_back` on the range vector. -/
def dbgaddignoredexception (range : ExceptionRange) (s : Dbg) : Dbg :=
  { s with ignoredExceptionRange := s.ignoredExceptionRange ++ [range] }

/-- Function `dbgisignoredexception`. -/
def dbgisignoredexception (exception : Nat) (s : Dbg) : Bool :=
  ignoredLoop exception s.ignoredExceptionRange

/-- Function `dbggetprivateusage(hProcess, update)`: the private memory usage of the
target, 0 when the query fails; with `update` the cache is refreshed. -/
def dbggetprivateusage (update : Bool) (s : Dbg) : Nat × Dbg :=
  match s.privateUsage with
  | none => (0, s)
  | some PrivateUsage =>
    (PrivateUsage, if update then { s with cachePrivateUsage := PrivateUsage } else s)

/-- Function `DebugUpdateGui(disasm_addr, stack)` is kept as one call: its body reads
the target and drives the GUI (source line, disassembly, stack dump, call
stack, window title, view refresh) and writes no variable but its own
function-local cache. -/
def DebugUpdateGui (disasm_addr : Nat) (stack : Bool) (s : Dbg) : Dbg :=
  emit (.DebugUpdateGui disasm_addr stack) s

/-! ### Breakpoint hit handlers

The local `BREAKPOINT bp` of a hit handler is not initialised; `BpGet` fills it
only when it finds the entry.  `uninit` is the content the local has
otherwise. -/

/-- Handler `cbUserBreakpoint`: a software breakpoint was hit. -/
def cbUserBreakpoint (uninit : BREAKPOINT) (s : Dbg) : Dbg :=
  let s := { s with hActiveThread := ThreadGetHandle s.dwThreadId s }
  let found := BpGet (GetContextDataEx s.hActiveThread s) .BPNORMAL s
  let bp := found.getD uninit
  let r : Dbg × Option BREAKPOINT :=
    if found.isNone ∧ bp.enabled then
      (dputs "Breakpoint reached not in list!" s, none)
    else
      let titantype := bp.titantype
      let bptype :=
        if titantype &&& UE_BREAKPOINT_TYPE_UD2 = UE_BREAKPOINT_TYPE_UD2 then "UD2"
        else if titantype &&& UE_BREAKPOINT_TYPE_LONG_INT3 = UE_BREAKPOINT_TYPE_LONG_INT3 then
          "LONG INT3"
        else "INT3"
      let s :=
        match SymGetSymbolicName bp.addr s with
        | some symbolicname =>
          if bp.name ≠ "" then
            dprintf ("%s breakpoint \"%s\" at %s (" ++ fhex ++ ")!\n")
              [.str bptype, .str bp.name, .str symbolicname, .num bp.addr] s
          else
            dprintf ("%s breakpoint at %s (" ++ fhex ++ ")!\n")
              [.str bptype, .str symbolicname, .num bp.addr] s
        | none =>
          if bp.name ≠ "" then
            dprintf ("%s breakpoint \"%s\" at " ++ fhex ++ "!\n")
              [.str bptype, .str bp.name, .num bp.addr] s
          else
            dprintf ("%s breakpoint at " ++ fhex ++ "!\n") [.str bptype, .num bp.addr] s
      let s := if bp.singleshoot then (BpDelete bp.addr .BPNORMAL s).2 else s
      (s, some bp)
  let s := r.1
  let bpInfo := r.2
  let s := GuiSetDebugState .paused s
  let s := DebugUpdateGui (GetContextDataEx s.hActiveThread s) true s
  let s := lock .WAITID_RUN s
  let s := emit (.call "SetForegroundWindow" []) s
  let s := { s with bSkipExceptions := false }
  let s := plugincbcall .CB_PAUSEDEBUG none s
  let s := plugincbcall .CB_BREAKPOINT bpInfo s
  wait .WAITID_RUN s

/-- Handler `cbHardwareBreakpoint`: a hardware breakpoint was hit at
`ExceptionAddress`. -/
def cbHardwareBreakpoint (ExceptionAddress : Nat) (uninit : BREAKPOINT) (s : Dbg) : Dbg :=
  let s := { s with hActiveThread := ThreadGetHandle s.dwThreadId s }
  let cip := GetContextDataEx s.hActiveThread s
  let found := BpGet ExceptionAddress .BPHARDWARE s
  let bp := found.getD uninit
  let r : Dbg × Option BREAKPOINT :=
    if found.isNone then
      (dputs "Hardware breakpoint reached not in list!" s, none)
    else
      let bpsize :=
        if TITANGETSIZE bp.titantype = UE_HARDWARE_SIZE_1 then "byte, "
        else if TITANGETSIZE bp.titantype = UE_HARDWARE_SIZE_2 then "word, "
        else if TITANGETSIZE bp.titantype = UE_HARDWARE_SIZE_4 then "dword, "
        else if TITANGETSIZE bp.titantype = UE_HARDWARE_SIZE_8 then "qword, "
        else ""
      let bptype :=
        if TITANGETTYPE bp.titantype = UE_HARDWARE_EXECUTE then "execute"
        else if TITANGETTYPE bp.titantype = UE_HARDWARE_READWRITE then "read/write"
        else if TITANGETTYPE bp.titantype = UE_HARDWARE_WRITE then "write"
        else ""
      let bpsize := if TITANGETTYPE bp.titantype = UE_HARDWARE_EXECUTE then "" else bpsize
      let s :=
        match SymGetSymbolicName bp.addr s with
        | some symbolicname =>
          if bp.name ≠ "" then
            dprintf ("Hardware breakpoint (%s%s) \"%s\" at %s (" ++ fhex ++ ")!\n")
              [.str bpsize, .str bptype, .str bp.name, .str symbolicname, .num bp.addr] s
          else
            dprintf ("Hardware breakpoint (%s%s) at %s (" ++ fhex ++ ")!\n")
              [.str bpsize, .str bptype, .str symbolicname, .num bp.addr] s
        | none =>
          if bp.name ≠ "" then
            dprintf ("Hardware breakpoint (%s%s) \"%s\" at " ++ fhex ++ "!\n")
              [.str bpsize, .str bptype, .str bp.name, .num bp.addr] s
          else
            dprintf ("Hardware breakpoint (%s%s) at " ++ fhex ++ "!\n")
              [.str bpsize, .str bptype, .num bp.addr] s
      (s, some bp)
  let s := r.1
  let bpInfo := r.2
  let s := GuiSetDebugState .paused s
  let s := DebugUpdateGui cip true s
  let s := lock .WAITID_RUN s
  let s := emit (.call "SetForegroundWindow" []) s
  let s := { s with bSkipExceptions := false }
  let s := plugincbcall .CB_PAUSEDEBUG none s
  let s := plugincbcall .CB_BREAKPOINT bpInfo s
  wait .WAITID_RUN s

/-- Handler `cbMemoryBreakpoint`: a memory breakpoint was hit at `ExceptionAddress`. -/
def cbMemoryBreakpoint (ExceptionAddress : Nat) (uninit : BREAKPOINT) (s : Dbg) : Dbg :=
  let s := { s with hActiveThread := ThreadGetHandle s.dwThreadId s }
  let cip := GetContextDataEx s.hActiveThread s
  let base := (MemFindBaseAddr ExceptionAddress s).1
  let found := BpGet base .BPMEMORY s
  let bp := found.getD uninit
  let r : Dbg × Option BREAKPOINT :=
    if found.isNone then
      (dputs "Memory breakpoint reached not in list!" s, none)
    else
      let bptype :=
        if bp.titantype = UE_MEMORY_READ then " (read)"
        else if bp.titantype = UE_MEMORY_WRITE then " (write)"
        else if bp.titantype = UE_MEMORY_EXECUTE then " (execute)"
        else if bp.titantype = UE_MEMORY then " (read/write/execute)"
        else ""
      let s :=
        match SymGetSymbolicName bp.addr s with
        | some symbolicname =>
          if bp.name ≠ "" then
            dprintf ("Memory breakpoint%s \"%s\" at %s (" ++ fhex ++ ", " ++ fhex ++ ")!\n")
              [.str bptype, .str bp.name, .str symbolicname, .num bp.addr, .num ExceptionAddress] s
          else
            dprintf ("Memory breakpoint%s at %s (" ++ fhex ++ ", " ++ fhex ++ ")!\n")
              [.str bptype, .str symbolicname, .num bp.addr, .num ExceptionAddress] s
        | none =>
          if bp.name ≠ "" then
            dprintf ("Memory breakpoint%s \"%s\" at " ++ fhex ++ " (" ++ fhex ++ ")!\n")
              [.str bptype, .str bp.name, .num bp.addr, .num ExceptionAddress] s
          else
            dprintf ("Memory breakpoint%s at " ++ fhex ++ " (" ++ fhex ++ ")!\n")
              [.str bptype, .num bp.addr, .num ExceptionAddress] s
      (s, some bp)
  let s := r.1
  let bpInfo := r.2
  let s := if bp.singleshoot then (BpDelete bp.addr .BPMEMORY s).2 else s
  let s := GuiSetDebugState .paused s
  let s := DebugUpdateGui cip true s
  let s := lock .WAITID_RUN s
  let s := emit (.call "SetForegroundWindow" []) s
  let s := { s with bSkipExceptions := false }
  let s := plugincbcall .CB_PAUSEDEBUG none s
  let s := plugincbcall .CB_BREAKPOINT bpInfo s
  wait .WAITID_RUN s

/-- Handler `cbLibrarianBreakpoint`. -/
def cbLibrarianBreakpoint (s : Dbg) : Dbg :=
  { s with bBreakOnNextDll := true }

/-! ### Installing and removing the breakpoints of a module -/

/-- Handler `cbSetModuleBreakpoints`: install the trap of one registry entry. -/
def cbSetModuleBreakpoints (bp : BREAKPOINT) (s : Dbg) : Bool × Dbg :=
  if !bp.enabled then (true, s)
  else
    match bp.type with
    | .BPNORMAL =>
      let r := SetBPX bp.addr bp.titantype s
      let s := if !r.1 then
          dprintf ("Could not set breakpoint " ++ fhex ++ "! (SetBPX)\n") [.num bp.addr] r.2
        else r.2
      (true, s)
    | .BPMEMORY =>
      let size := (MemFindBaseAddr bp.addr s).2
      let r := SetMemoryBPXEx bp.addr size bp.titantype (!bp.singleshoot) s
      let s := if !r.1 then
          dprintf ("Could not set memory breakpoint " ++ fhex ++ "! (SetMemoryBPXEx)\n")
            [.num bp.addr] r.2
        else r.2
      (true, s)
    | .BPHARDWARE =>
      match GetUnusedHardwareBreakPointRegister s with
      | none => (false, dputs "You can only set 4 hardware breakpoints" s)
      | some drx =>
        let titantype := TITANSETDRX bp.titantype drx
        let s := (BpSetTitanType bp.addr .BPHARDWARE titantype s).2
        let r := SetHardwareBreakPoint bp.addr drx (TITANGETTYPE bp.titantype)
          (TITANGETSIZE bp.titantype) s
        let s := if !r.1 then
            dprintf ("Could not set hardware breakpoint " ++ fhex ++ "! (SetHardwareBreakPoint)\n")
              [.num bp.addr] r.2
          else r.2
        (true, s)

/-- Handler `cbRemoveModuleBreakpoints`: remove the trap of one registry entry. -/
def cbRemoveModuleBreakpoints (bp : BREAKPOINT) (s : Dbg) : Bool × Dbg :=
  if !bp.enabled then (true, s)
  else
    match bp.type with
    | .BPNORMAL =>
      let r := DeleteBPX bp.addr s
      let s := if !r.1 then
          dprintf ("Could not delete breakpoint " ++ fhex ++ "! (DeleteBPX)\n") [.num bp.addr] r.2
        else r.2
      (true, s)
    | .BPMEMORY =>
      let r := RemoveMemoryBPX bp.addr 0 s
      let s := if !r.1 then
          dprintf ("Could not delete memory breakpoint " ++ fhex ++ "! (RemoveMemoryBPX)\n")
            [.num bp.addr] r.2
        else r.2
      (true, s)
    | .BPHARDWARE =>
      let r := DeleteHardwareBreakPoint (TITANGETDRX bp.titantype) s
      let s := if !r.1 then
          dprintf
            ("Could not delete hardware breakpoint " ++ fhex ++ "! (DeleteHardwareBreakPoint)\n")
            [.num bp.addr] r.2
        else r.2
      (true, s)

/-! ### Stepping -/

/-- Handler `cbStep`: a single step completed. -/
def cbStep (s : Dbg) : Dbg :=
  let s := { s with hActiveThread := ThreadGetHandle s.dwThreadId s }
  let s := { s with isStepping := false }
  let s := GuiSetDebugState .paused s
  let s := DebugUpdateGui (GetContextDataEx s.hActiveThread s) true s
  let s := lock .WAITID_RUN s
  let s := emit (.call "SetForegroundWindow" []) s
  let s := { s with bSkipExceptions := false }
  let s := plugincbcall .CB_PAUSEDEBUG none s
  let s := plugincbcall .CB_STEPPED none s
  wait .WAITID_RUN s

/-- Handler `cbRtrFinalStep`: run-to-return reached a return instruction. -/
def cbRtrFinalStep (s : Dbg) : Dbg :=
  let s := { s with hActiveThread := ThreadGetHandle s.dwThreadId s }
  let s := GuiSetDebugState .paused s
  let s := DebugUpdateGui (GetContextDataEx s.hActiveThread s) true s
  let s := lock .WAITID_RUN s
  let s := emit (.call "SetForegroundWindow" []) s
  let s := { s with bSkipExceptions := false }
  let s := plugincbcall .CB_PAUSEDEBUG none s
  wait .WAITID_RUN s

/-- Modelled from the spec: the engine call `StepOver(callback)`, which
schedules one step over the current instruction and names the handler to call
when the step is done. -/
def StepOver (callback : String) (s : Dbg) : Dbg :=
  emit (.call "StepOver" [.str callback]) s

/-- Function `getCIPch`: the byte at the instruction pointer of the active
thread, `0x90` when it cannot be read.  The result is an `unsigned char`. -/
def getCIPch (s : Dbg) : Nat :=
  let ch := 0x90
  let cip := GetContextDataEx s.hActiveThread s
  match MemRead cip 1 s with
  | some bytes => bytes.headD ch % 2 ^ 8
  | none => ch

/-- Handler `cbRtrStep`: one step of run-to-return is done. -/
def cbRtrStep (s : Dbg) : Dbg :=
  let cipch := getCIPch s
  if cipch = 0xC3 ∨ cipch = 0xC2 then cbRtrFinalStep s
  else StepOver "cbRtrStep" s

/-! ### Thread notifications -/

/-- Modelled from the spec: the fields of `CREATE_THREAD_DEBUG_INFO`
(`winbase.h`) the handler reads. -/
structure CREATE_THREAD_DEBUG_INFO where
  hThread : Nat
  lpStartAddress : Nat
  deriving DecidableEq, Repr

/-- Handler `cbCreateThread`. -/
def cbCreateThread (CreateThread : CREATE_THREAD_DEBUG_INFO) (s : Dbg) : Dbg :=
  let s := ThreadCreate CreateThread.hThread s
  let dwThreadId := s.dwThreadId
  let s := { s with hActiveThread := ThreadGetHandle dwThreadId s }
  let s :=
    if settingboolget "Events" "ThreadEntry" s then
      cmddirectexec ("bp " ++ fhex ++ ",\"Thread %X\",ss")
        [.num CreateThread.lpStartAddress, .num dwThreadId] s
    else s
  let s := plugincbcall .CB_CREATETHREAD none s
  let s := dprintf "Thread %X created\n" [.num dwThreadId] s
  if settingboolget "Events" "ThreadStart" s then
    let s := (dbggetprivateusage true s).2
    let s := emit (.call "MemUpdateMap" []) s
    let s := GuiSetDebugState .paused s
    let s := DebugUpdateGui (GetContextDataEx s.hActiveThread s) true s
    let s := lock .WAITID_RUN s
    let s := emit (.call "SetForegroundWindow" []) s
    let s := plugincbcall .CB_PAUSEDEBUG none s
    wait .WAITID_RUN s
  else s

/-- Handler `cbExitThread`. -/
def cbExitThread (s : Dbg) : Dbg :=
  let s := { s with hActiveThread := ThreadGetHandle s.dwThreadId s }
  let dwThreadId := s.dwThreadId
  let s := plugincbcall .CB_EXITTHREAD none s
  let s := ThreadExit dwThreadId s
  let s := dprintf "Thread %X exit\n" [.num dwThreadId] s
  if settingboolget "Events" "ThreadEnd" s then
    let s := GuiSetDebugState .paused s
    let s := DebugUpdateGui (GetContextDataEx s.hActiveThread s) true s
    let s := lock .WAITID_RUN s
    let s := emit (.call "SetForegroundWindow" []) s
    let s := plugincbcall .CB_PAUSEDEBUG none s
    wait .WAITID_RUN s
  else s

/-! ### System breakpoint -/

/-- Handler `cbSystemBreakpoint`: the trap that marks process or attach entry. -/
def cbSystemBreakpoint (s : Dbg) : Dbg :=
  let s := { s with hActiveThread := ThreadGetHandle s.dwThreadId s }
  let cip := GetContextDataEx s.hActiveThread s
  let s := emit (.call "GuiDumpAt" [.num (MemFindBaseAddr cip s).1]) s
  let s := if s.bIsAttached then dputs "Attach breakpoint reached!" s
    else dputs "System breakpoint reached!" s
  let s := { s with bSkipExceptions := false }
  let s := plugincbcall .CB_SYSTEMBREAKPOINT none s
  if (if s.bIsAttached then settingboolget "Events" "AttachBreakpoint" s
      else settingboolget "Events" "SystemBreakpoint" s) then
    let s := GuiSetDebugState .paused s
    let s := DebugUpdateGui cip true s
    let s := lock .WAITID_RUN s
    let s := emit (.call "SetForegroundWindow" []) s
    let s := plugincbcall .CB_PAUSEDEBUG none s
    wait .WAITID_RUN s
  else s

/-! ### Module load -/

/-- Modelled from the spec: the fields of `LOAD_DLL_DEBUG_INFO` (`winbase.h`) the
handler reads. -/
structure LOAD_DLL_DEBUG_INFO where
  hFile : Nat
  lpBaseOfDll : Nat
  deriving DecidableEq, Repr

/-- The `for` loop of `cbLoadDll` over the TLS callbacks: one `bp` command per
readable callback address, and the count of the unreadable ones. -/
def tlsCallbackLoop (bIsDebuggingThis : Bool) (modname : String) (ImageBase base : Nat) :
    Nat → List Nat → Dbg × Nat → Dbg × Nat
  | _, [], acc => acc
  | i, callback :: rest, (s, invalidCount) =>
    let callbackVA := duintAdd (duintSub callback ImageBase) base
    if MemIsValidReadPtr callbackVA s then
      let s :=
        if bIsDebuggingThis then
          cmddirectexec ("bp " ++ fhex ++ ",\"TLS Callback %d\",ss")
            [.num callbackVA, .num (i + 1)] s
        else
          cmddirectexec ("bp " ++ fhex ++ ",\"TLS Callback %d (%s)\",ss")
            [.num callbackVA, .num (i + 1), .str modname] s
      tlsCallbackLoop bIsDebuggingThis modname ImageBase base (i + 1) rest (s, invalidCount)
    else
      tlsCallbackLoop bIsDebuggingThis modname ImageBase base (i + 1) rest (s, invalidCount + 1)

/-- Handler `cbLoadDll`.  `_stricmp` is equality up to letter case.

Line 935 hands the `int invalidCount` to the `%s` conversion of `dprintf`
(`cbCreateProcess` has `%d` in the same line), so `dprintf` takes the count,
a number from 1 up to the number of callbacks, for the address of a string and
reads from it: the handler faults there.  The result is `.error` with the
state reached at line 935 when that happens, and `.ok` with the state the
handler returns otherwise. -/
def cbLoadDll (LoadDll : LOAD_DLL_DEBUG_INFO) (s : Dbg) : Except Dbg Dbg :=
  let s := { s with hActiveThread := ThreadGetHandle s.dwThreadId s }
  let base := LoadDll.lpBaseOfDll
  let DLLDebugFileName :=
    (GetFileNameFromHandle LoadDll.hFile s).getD "??? (GetFileNameFromHandle failed!)"
  let s := emit (.call "SafeSymLoadModuleEx" [.str DLLDebugFileName, .num base]) s
  let s :=
    match SafeSymGetModuleInfo64 base s with
    | some modInfo => ModLoad base modInfo.1 modInfo.2 s
    | none => s
  let s := (dbggetprivateusage true s).2
  let s := emit (.call "MemUpdateMap" []) s
  let s := emit (.call "GuiUpdateMemoryView" []) s
  let found := ModNameFromAddr base s
  let modname := found.getD ""
  let s := if found.isSome then (BpEnumAll cbSetModuleBreakpoints modname s).2 else s
  let s := emit (.call "GuiUpdateBreakpointsView" []) s
  let bIsDebuggingThis : Bool :=
    s.bFileIsDll && decide (DLLDebugFileName.toLower = s.szFileName.toLower) && !s.bIsAttached
  let s := if bIsDebuggingThis then { s with pDebuggedBase := base } else s
  let bAlreadySetEntry : Bool := bIsDebuggingThis && settingboolget "Events" "EntryBreakpoint" s
  let s :=
    if bAlreadySetEntry then
      cmddirectexec ("bp " ++ fhex ++ ",\"entry breakpoint\",ss")
        [.num (duintAdd s.pDebuggedBase s.pDebuggedEntry)] s
    else s
  let s := emit (.call "GuiUpdateBreakpointsView" []) s
  let tls : Except Dbg Dbg :=
    if settingboolget "Events" "TlsCallbacks" s then
      let NumberOfCallBacks := TLSGrabCallBackCount DLLDebugFileName s
      if NumberOfCallBacks ≠ 0 then
        let s := dprintf "TLS Callbacks: %d\n" [.num NumberOfCallBacks] s
        match TLSGrabCallBackDataW DLLDebugFileName s with
        | none => .ok (dputs "Failed to get TLS callback addresses!" s)
        | some TLSCallBacks =>
          let ImageBase := GetPE32Data_IMAGEBASE DLLDebugFileName s
          let r := tlsCallbackLoop bIsDebuggingThis modname ImageBase base 0 TLSCallBacks (s, 0)
          if r.2 ≠ 0 then .error r.1
          else .ok r.1
      else .ok s
    else .ok s
  match tls with
  | .error s => .error s
  | .ok s =>
    let s :=
      if (s.bBreakOnNextDll ∨ settingboolget "Events" "DllEntry" s) ∧ ¬ bAlreadySetEntry then
        let oep := GetPE32Data_OEP DLLDebugFileName s
        if oep ≠ 0 then
          cmddirectexec ("bp " ++ fhex ++ ",\"DllMain (%s)\",ss")
            [.num (duintAdd oep base), .str modname] s
        else s
      else s
    let s := dprintf ("DLL Loaded: " ++ fhex ++ " %s\n") [.num base, .str DLLDebugFileName] s
    let s := plugincbcall .CB_LOADDLL none s
    .ok (
      if s.bBreakOnNextDll ∨ settingboolget "Events" "DllLoad" s then
        let s := { s with bBreakOnNextDll := false }
        let s := GuiSetDebugState .paused s
        let s := DebugUpdateGui (GetContextDataEx s.hActiveThread s) true s
        let s := lock .WAITID_RUN s
        let s := emit (.call "SetForegroundWindow" []) s
        let s := plugincbcall .CB_PAUSEDEBUG none s
        wait .WAITID_RUN s
      else s)

/-! ### Module unload -/

/-- Handler `cbUnloadDll`, for the module at `lpBaseOfDll`. -/
def cbUnloadDll (lpBaseOfDll : Nat) (s : Dbg) : Dbg :=
  let s := { s with hActiveThread := ThreadGetHandle s.dwThreadId s }
  let s := plugincbcall .CB_UNLOADDLL none s
  let base := lpBaseOfDll
  let found := ModNameFromAddr base s
  let modname := found.getD "???"
  let s := if found.isSome then (BpEnumAll cbRemoveModuleBreakpoints modname s).2 else s
  let s := emit (.call "GuiUpdateBreakpointsView" []) s
  let s := emit (.call "SafeSymUnloadModule64" [.num base]) s
  let s := dprintf ("DLL Unloaded: " ++ fhex ++ " %s\n") [.num base, .str modname] s
  let s :=
    if s.bBreakOnNextDll ∨ settingboolget "Events" "DllUnload" s then
      let s := { s with bBreakOnNextDll := false }
      let s := GuiSetDebugState .paused s
      let s := DebugUpdateGui (GetContextDataEx s.hActiveThread s) true s
      let s := lock .WAITID_RUN s
      let s := emit (.call "SetForegroundWindow" []) s
      let s := plugincbcall .CB_PAUSEDEBUG none s
      wait .WAITID_RUN s
    else s
  let s := ModUnload base s
  let s := (dbggetprivateusage true s).2
  let s := emit (.call "MemUpdateMap" []) s
  emit (.call "GuiUpdateMemoryView" []) s

/-! ### Debug strings -/

/-- Modelled from the spec: the fields of `OUTPUT_DEBUG_STRING_INFO`
(`winbase.h`). -/
structure OUTPUT_DEBUG_STRING_INFO where
  lpDebugStringData : Nat
  fUnicode : Nat
  nDebugStringLength : Nat
  deriving DecidableEq, Repr

/-- Handler `cbOutputDebugString`.  Texts are byte strings; `"\n"` is the single byte
10. -/
def cbOutputDebugString (DebugString : OUTPUT_DEBUG_STRING_INFO) (s : Dbg) : Dbg :=
  let s := { s with hActiveThread := ThreadGetHandle s.dwThreadId s }
  let s := plugincbcall .CB_OUTPUTDEBUGSTRING none s
  let s :=
    if DebugString.fUnicode = 0 then
      match MemRead DebugString.lpDebugStringData DebugString.nDebugStringLength s with
      | some DebugText =>
        let str := cString DebugText
        if str ≠ s.lastDebugText then
          let s := if str ≠ [10] then dprintf "DebugString: \"%s\"\n" [.escaped str] s else s
          { s with lastDebugText := str }
        else { s with lastDebugText := [] }
      | none => s
    else s
  if settingboolget "Events" "DebugStrings" s then
    let s := GuiSetDebugState .paused s
    let s := DebugUpdateGui (GetContextDataEx s.hActiveThread s) true s
    let s := lock .WAITID_RUN s
    let s := emit (.call "SetForegroundWindow" []) s
    let s := plugincbcall .CB_PAUSEDEBUG none s
    wait .WAITID_RUN s
  else s

/-! ### Exceptions -/

/-- Modelled from the spec: the thread-naming payload (`THREADNAME_INFO`,
`debugger.h`) as it lies in the information words of the exception record. -/
structure THREADNAME_INFO where
  dwType : Nat
  szName : Nat
  dwThreadID : Nat
  dwFlags : Nat
  deriving DecidableEq, Repr

/-- Modelled from the spec: the fields of `EXCEPTION_DEBUG_INFO` (`winbase.h`)
the handler reads: code, address and information words of the exception
record, and the first-chance indicator (non-zero on first delivery). -/
structure EXCEPTION_DEBUG_INFO where
  ExceptionCode : Nat
  ExceptionAddress : Nat
  ExceptionInformation : THREADNAME_INFO
  dwFirstChance : Nat
  deriving DecidableEq, Repr

/-- The last statements of `cbException`, from `GuiSetDebugState(paused)` to
`wait(WAITID_RUN)`. -/
def cbExceptionPause (s : Dbg) : Dbg :=
  let s := GuiSetDebugState .paused s
  let s := DebugUpdateGui (GetContextDataEx s.hActiveThread s) true s
  let s := lock .WAITID_RUN s
  let s := emit (.call "SetForegroundWindow" []) s
  let s := { s with bSkipExceptions := false }
  let s := plugincbcall .CB_PAUSEDEBUG none s
  let s := plugincbcall .CB_EXCEPTION none s
  wait .WAITID_RUN s

/-- The part of `cbException` after the `if` / `else if` on the exception code
(from `ExceptionCodeToName` to the end of the function). -/
def cbExceptionRest (ExceptionData : EXCEPTION_DEBUG_INFO) (addr : Nat) (s : Dbg) : Dbg :=
  let ExceptionCode := ExceptionData.ExceptionCode
  let exceptionName := ExceptionCodeToName ExceptionCode s
  if ExceptionData.dwFirstChance ≠ 0 then
    let s :=
      match exceptionName with
      | some name =>
        dprintf ("First chance exception on " ++ fhex ++ " (%.8X, %s)!\n")
          [.num addr, .num ExceptionCode, .str name] s
      | none =>
        dprintf ("First chance exception on " ++ fhex ++ " (%.8X)!\n")
          [.num addr, .num ExceptionCode] s
    let s := SetNextDbgContinueStatus DBG_EXCEPTION_NOT_HANDLED s
    if s.bSkipExceptions ∨ dbgisignoredexception ExceptionCode s then s
    else cbExceptionPause s
  else
    let s :=
      match exceptionName with
      | some name =>
        dprintf ("Last chance exception on " ++ fhex ++ " (%.8X, %s)!\n")
          [.num addr, .num ExceptionCode, .str name] s
      | none =>
        dprintf ("Last chance exception on " ++ fhex ++ " (%.8X)!\n")
          [.num addr, .num ExceptionCode] s
    let s := SetNextDbgContinueStatus DBG_CONTINUE s
    cbExceptionPause s

/-- The body of the `else if` branch of `cbException` for the thread-naming
signal: decode the name payload and hand it to the thread table.  `-1` as a
thread id is the all-ones 32-bit value. -/
def cbExceptionThreadName (ExceptionData : EXCEPTION_DEBUG_INFO) (s : Dbg) : Dbg :=
  let nameInfo := ExceptionData.ExceptionInformation
  let nameInfo :=
    if nameInfo.dwThreadID = 0xFFFFFFFF then { nameInfo with dwThreadID := s.dwThreadId }
    else nameInfo
  if nameInfo.dwType = 0x1000 ∧ nameInfo.dwFlags = 0 ∧ ThreadIsValid nameInfo.dwThreadID s then
    match MemRead nameInfo.szName (MAX_THREAD_NAME_SIZE - 1) s with
    | some ThreadName =>
      let s := dprintf "SetThreadName(%X, \"%s\")\n"
        [.num nameInfo.dwThreadID, .escaped (cString ThreadName)] s
      emit (.call "ThreadSetName" [.num nameInfo.dwThreadID, .escaped (cString ThreadName)]) s
    | none => s
  else s

/-- Handler `cbException`: an exception of the target was delivered. -/
def cbException (ExceptionData : EXCEPTION_DEBUG_INFO) (s : Dbg) : Dbg :=
  let s := { s with hActiveThread := ThreadGetHandle s.dwThreadId s }
  let ExceptionCode := ExceptionData.ExceptionCode
  let s := emit (.call "GuiSetLastException" [.num ExceptionCode]) s
  let addr := ExceptionData.ExceptionAddress
  if ExceptionData.ExceptionCode = EXCEPTION_BREAKPOINT then
    if s.isDetachedByUser then
      let s := plugincbcall .CB_DETACH none s
      let r := DetachDebuggerEx s.dwProcessId s
      let s := if !r.1 then dputs "DetachDebuggerEx failed..." r.2 else dputs "Detached!" r.2
      { s with isDetachedByUser := false }
    else if s.isPausedByUser then
      let s := dputs "paused!" s
      let s := SetNextDbgContinueStatus DBG_CONTINUE s
      let s := GuiSetDebugState .paused s
      let s := (dbggetprivateusage true s).2
      let s := emit (.call "MemUpdateMap" []) s
      let s := DebugUpdateGui (GetContextDataEx s.hActiveThread s) true s
      let s := lock .WAITID_RUN s
      let s := emit (.call "SetForegroundWindow" []) s
      let s := { s with bSkipExceptions := false }
      let s := plugincbcall .CB_PAUSEDEBUG none s
      let s := plugincbcall .CB_EXCEPTION none s
      wait .WAITID_RUN s
    else
      let s := SetContextDataEx s.hActiveThread ExceptionData.ExceptionAddress s
      cbExceptionRest ExceptionData addr s
  else if ExceptionData.ExceptionCode = MS_VC_EXCEPTION then
    let s := cbExceptionThreadName ExceptionData s
    cbExceptionRest ExceptionData addr s
  else
    cbExceptionRest ExceptionData addr s

/-! ### Enabling, disabling and deleting all breakpoints of a kind -/

/-- Handler `cbDeleteAllBreakpoints`: delete one software entry and its trap. -/
def cbDeleteAllBreakpoints (bp : BREAKPOINT) (s : Dbg) : Bool × Dbg :=
  let r := BpDelete bp.addr .BPNORMAL s
  if !r.1 then
    (false, dprintf ("Delete breakpoint failed (BpDelete): " ++ fhex ++ "\n") [.num bp.addr] r.2)
  else if !bp.enabled then (true, r.2)
  else
    let d := DeleteBPX bp.addr r.2
    if d.1 then (true, d.2)
    else
      (false, dprintf ("Delete breakpoint failed (DeleteBPX): " ++ fhex ++ "\n") [.num bp.addr] d.2)

/-- Handler `cbEnableAllBreakpoints`: enable one software entry and install its
trap. -/
def cbEnableAllBreakpoints (bp : BREAKPOINT) (s : Dbg) : Bool × Dbg :=
  if bp.type ≠ .BPNORMAL ∨ bp.enabled then (true, s)
  else
    let r := BpEnable bp.addr .BPNORMAL true s
    if !r.1 then
      (false, dprintf ("Could not enable breakpoint " ++ fhex ++ " (BpEnable)\n") [.num bp.addr] r.2)
    else
      let e := SetBPX bp.addr bp.titantype r.2
      if !e.1 then
        (false, dprintf ("Could not enable breakpoint " ++ fhex ++ " (SetBPX)\n") [.num bp.addr] e.2)
      else (true, e.2)

/-- Handler `cbDisableAllBreakpoints`: disable one software entry and remove its
trap. -/
def cbDisableAllBreakpoints (bp : BREAKPOINT) (s : Dbg) : Bool × Dbg :=
  if bp.type ≠ .BPNORMAL ∨ !bp.enabled then (true, s)
  else
    let r := BpEnable bp.addr .BPNORMAL false s
    if !r.1 then
      (false, dprintf ("Could not disable breakpoint " ++ fhex ++ " (BpEnable)\n") [.num bp.addr] r.2)
    else
      let e := DeleteBPX bp.addr r.2
      if !e.1 then
        (false,
          dprintf ("Could not disable breakpoint " ++ fhex ++ " (DeleteBPX)\n") [.num bp.addr] e.2)
      else (true, e.2)

/-- Handler `cbEnableAllHardwareBreakpoints`: enable one hardware entry and
install it in a free debug-register slot. -/
def cbEnableAllHardwareBreakpoints (bp : BREAKPOINT) (s : Dbg) : Bool × Dbg :=
  if bp.type ≠ .BPHARDWARE ∨ bp.enabled then (true, s)
  else
    match GetUnusedHardwareBreakPointRegister s with
    | none =>
      (true, dprintf ("Did not enable hardware breakpoint " ++ fhex ++ " (all slots full)\n")
        [.num bp.addr] s)
    | some drx =>
      let titantype := TITANSETDRX bp.titantype drx
      let s := (BpSetTitanType bp.addr .BPHARDWARE titantype s).2
      let r := BpEnable bp.addr .BPHARDWARE true s
      if !r.1 then
        (false, dprintf ("Could not enable hardware breakpoint " ++ fhex ++ " (BpEnable)\n")
          [.num bp.addr] r.2)
      else
        let e := SetHardwareBreakPoint bp.addr drx (TITANGETTYPE bp.titantype)
          (TITANGETSIZE bp.titantype) r.2
        if !e.1 then
          (false,
            dprintf ("Could not enable hardware breakpoint " ++ fhex ++ " (SetHardwareBreakPoint)\n")
              [.num bp.addr] e.2)
        else (true, e.2)

/-- Handler `cbDisableAllHardwareBreakpoints`: disable one hardware entry and
release its debug-register slot. -/
def cbDisableAllHardwareBreakpoints (bp : BREAKPOINT) (s : Dbg) : Bool × Dbg :=
  if bp.type ≠ .BPHARDWARE ∨ !bp.enabled then (true, s)
  else
    let r := BpEnable bp.addr .BPHARDWARE false s
    if !r.1 then
      (false, dprintf ("Could not disable hardware breakpoint " ++ fhex ++ " (BpEnable)\n")
        [.num bp.addr] r.2)
    else
      let e := DeleteHardwareBreakPoint (TITANGETDRX bp.titantype) r.2
      if !e.1 then
        (false,
          dprintf
            ("Could not disable hardware breakpoint " ++ fhex ++ " (DeleteHardwareBreakPoint)\n")
            [.num bp.addr] e.2)
      else (true, e.2)

/-- Handler `cbEnableAllMemoryBreakpoints`: enable one memory entry and install
its trap on the region of the address. -/
def cbEnableAllMemoryBreakpoints (bp : BREAKPOINT) (s : Dbg) : Bool × Dbg :=
  if bp.type ≠ .BPMEMORY ∨ bp.enabled then (true, s)
  else
    let size := (MemFindBaseAddr bp.addr s).2
    let r := BpEnable bp.addr .BPMEMORY true s
    if !r.1 then
      (false, dprintf ("Could not enable memory breakpoint " ++ fhex ++ " (BpEnable)\n")
        [.num bp.addr] r.2)
    else
      let e := SetMemoryBPXEx bp.addr size bp.titantype (!bp.singleshoot) r.2
      if !e.1 then
        (false, dprintf ("Could not enable memory breakpoint " ++ fhex ++ " (SetMemoryBPXEx)\n")
          [.num bp.addr] e.2)
      else (true, e.2)

/-- Handler `cbDisableAllMemoryBreakpoints`: disable one memory entry and
remove its trap. -/
def cbDisableAllMemoryBreakpoints (bp : BREAKPOINT) (s : Dbg) : Bool × Dbg :=
  if bp.type ≠ .BPMEMORY ∨ !bp.enabled then (true, s)
  else
    let r := BpEnable bp.addr .BPMEMORY false s
    if !r.1 then
      (false, dprintf ("Could not disable memory breakpoint " ++ fhex ++ " (BpEnable)\n")
        [.num bp.addr] r.2)
    else
      let e := RemoveMemoryBPX bp.addr 0 r.2
      if !e.1 then
        (false, dprintf ("Could not disable memory breakpoint " ++ fhex ++ " (RemoveMemoryBPX)\n")
          [.num bp.addr] e.2)
      else (true, e.2)

/-- Handler `cbDeleteAllMemoryBreakpoints`: delete one enabled memory entry and
its trap.  The local `size` is declared without an initialiser; `uninit` is what
it holds before `MemFindBaseAddr` is called. -/
def cbDeleteAllMemoryBreakpoints (uninit : Nat) (bp : BREAKPOINT) (s : Dbg) : Bool × Dbg :=
  if !bp.enabled then (true, s)
  else
    let size := (MemFindBaseAddrInto bp.addr uninit s).2
    let r := BpDelete bp.addr .BPMEMORY s
    if !r.1 then
      (false, dprintf ("Delete memory breakpoint failed (BpDelete): " ++ fhex ++ "\n")
        [.num bp.addr] r.2)
    else
      let e := RemoveMemoryBPX bp.addr size r.2
      if !e.1 then
        (false, dprintf ("Delete memory breakpoint failed (RemoveMemoryBPX): " ++ fhex ++ "\n")
          [.num bp.addr] e.2)
      else (true, e.2)

/-- Handler `cbDeleteAllHardwareBreakpoints`: delete one enabled hardware entry
and release its debug-register slot. -/
def cbDeleteAllHardwareBreakpoints (bp : BREAKPOINT) (s : Dbg) : Bool × Dbg :=
  if !bp.enabled then (true, s)
  else
    let r := BpDelete bp.addr .BPHARDWARE s
    if !r.1 then
      (false, dprintf ("Delete hardware breakpoint failed (BpDelete): " ++ fhex ++ "\n")
        [.num bp.addr] r.2)
    else
      let e := DeleteHardwareBreakPoint (TITANGETDRX bp.titantype) r.2
      if !e.1 then
        (false,
          dprintf ("Delete hardware breakpoint failed (DeleteHardwareBreakPoint): " ++ fhex ++ "\n")
            [.num bp.addr] e.2)
      else (true, e.2)

/-! ### Process notifications -/

/-- Modelled from the spec: the fields of `CREATE_PROCESS_DEBUG_INFO`
(`winbase.h`) the handler reads. -/
structure CREATE_PROCESS_DEBUG_INFO where
  hFile : Nat
  hThread : Nat
  lpBaseOfImage : Nat
  lpThreadLocalBase : Nat
  lpStartAddress : Nat
  deriving DecidableEq, Repr

/-- Modelled from the spec: `PAGE_SIZE` (`memory.h`), the size of a page. -/
def PAGE_SIZE : Nat := 0x1000

/-- The loop `while(sz[len] != '\\' && len) len--`, entered with `len`: the
greatest index from 1 to `len` at which `sz` has a backslash, 0 when there is
none.  The index past the end of the string holds the terminator. -/
def lastBackslash (sz : List Char) : Nat → Nat
  | 0 => 0
  | len + 1 =>
    if sz.getD (len + 1) (Char.ofNat 0) = Char.ofNat 92 then len + 1
    else lastBackslash sz len

/-- The file name part of a path as `threadDebugLoop`, `threadAttachLoop` and
`cbCreateProcess` cut it: what follows the backslash found by the loop, the
whole path when the loop ends at index 0. -/
def baseFileName (path : String) : String :=
  let len := lastBackslash path.toList path.length
  if len ≠ 0 then String.mk (path.toList.drop (len + 1)) else path

/-- Modelled from the spec: `strrchr(sz, '\\')` followed by `*pathEnd = '\0'`:
the path cut at its last backslash, the whole path when it has none. -/
def fileDir (path : String) : String :=
  match ((path.toList.enum.filter (fun c => c.2 = Char.ofNat 92)).map (fun c => c.1)).getLast? with
  | some pathEnd => String.mk (path.toList.take pathEnd)
  | none => path

/-- Handler `cbCreateProcess`, 64-bit build.  `GetContextData(UE_CIP)` is the
instruction pointer of the thread of the notification, whose handle is
`CreateProcessInfo->hThread`.  The database file and the symbol handler are
outside this file: `DBSetPath`, `DBLoad` and the `SafeSym` calls are recorded as
calls.  The `for` loop over the TLS callbacks is the loop of `cbLoadDll` for the
debugged file, with the base `pDebuggedBase`. -/
def cbCreateProcess (CreateProcessInfo : CREATE_PROCESS_DEBUG_INFO) (s : Dbg) : Dbg :=
  let base := CreateProcessInfo.lpBaseOfImage
  let DebugFileName :=
    (GetFileNameFromHandle CreateProcessInfo.hFile s).getD "??? (GetFileNameFromHandle failed!)"
  let s := dprintf ("Process Started: " ++ fhex ++ " %s\n") [.num base, .str DebugFileName] s
  let s := (dbggetprivateusage true s).2
  let s := emit (.call "MemUpdateMap" []) s
  let s := emit (.call "GuiUpdateMemoryView" []) s
  let s := emit (.call "GuiDumpAt"
    [.num (duintAdd (MemFindBaseAddr (GetContextDataEx CreateProcessInfo.hThread s) s).1
      PAGE_SIZE)]) s
  let sqlitedb := baseFileName s.szFileName ++ ".dd64"
  let s :=
    if settingboolget "Engine" "SaveDatabaseInProgramDirectory" s then
      emit (.call "DBSetPath" [.str (fileDir s.szFileName ++ "\\" ++ sqlitedb)]) s
    else emit (.call "DBSetPath" [.str sqlitedb]) s
  let s := emit (.call "DBLoad" []) s
  let s := emit (.call "SafeSymSetOptions" []) s
  let s := emit (.call "GuiSymbolLogClear" []) s
  let s := emit (.call "SafeSymInitializeW" []) s
  let s := emit (.call "SafeSymRegisterCallback64" [.str "SymRegisterCallbackProc64"]) s
  let s := emit (.call "SafeSymLoadModuleEx" [.str DebugFileName, .num base]) s
  let s :=
    match SafeSymGetModuleInfo64 base s with
    | some modInfo => ModLoad base modInfo.1 modInfo.2 s
    | none => s
  let found := ModNameFromAddr base s
  let modname := found.getD ""
  let s := if found.isSome then (BpEnumAll cbSetModuleBreakpoints modname s).2 else s
  let s := emit (.call "GuiUpdateBreakpointsView" []) s
  let s := { s with pCreateProcessBase := CreateProcessInfo.lpBaseOfImage }
  let s :=
    if !s.bFileIsDll && !s.bIsAttached then
      let s := { s with pDebuggedBase := s.pCreateProcessBase }
      let s :=
        if settingboolget "Events" "TlsCallbacks" s then
          let NumberOfCallBacks := TLSGrabCallBackCount DebugFileName s
          if NumberOfCallBacks ≠ 0 then
            let s := dprintf "TLS Callbacks: %d\n" [.num NumberOfCallBacks] s
            match TLSGrabCallBackDataW DebugFileName s with
            | none => dputs "Failed to get TLS callback addresses!" s
            | some TLSCallBacks =>
              let ImageBase := GetPE32Data_IMAGEBASE DebugFileName s
              let r := tlsCallbackLoop true "" ImageBase s.pDebuggedBase 0 TLSCallBacks (s, 0)
              if r.2 ≠ 0 then dprintf "%d invalid TLS callback addresses...\n" [.num r.2] r.1
              else r.1
          else s
        else s
      if settingboolget "Events" "EntryBreakpoint" s then
        cmddirectexec ("bp " ++ fhex ++ ",\"entry breakpoint\",ss")
          [.num CreateProcessInfo.lpStartAddress] s
      else s
    else s
  let s := emit (.call "GuiUpdateBreakpointsView" []) s
  let s := plugincbcall .CB_CREATEPROCESS none s
  ThreadCreate CreateProcessInfo.hThread s

/-- Handler `cbExitProcess`, for the exit code of the notification. -/
def cbExitProcess (dwExitCode : Nat) (s : Dbg) : Dbg :=
  let s := dprintf "Process stopped with exit code 0x%X\n" [.num dwExitCode] s
  let s := plugincbcall .CB_EXITPROCESS none s
  emit (.call "SafeSymUnloadModule64" [.num s.pCreateProcessBase]) s

/-- Handler `cbDebugEvent`. -/
def cbDebugEvent (s : Dbg) : Dbg :=
  plugincbcall .CB_DEBUGEVENT none s

/-! ### The session threads -/

/-- Modelled from the spec: `INIT_STRUCT` (`debugger.h`), the parameter of
`threadDebugLoop`. -/
structure INIT_STRUCT where
  exe : String
  commandline : String
  currentfolder : String
  deriving DecidableEq, Repr

/-- Modelled from the spec: what the engine and the operating system answer
while a session is being established: whether the file is a DLL (`IsFileDLLW`),
the process handle and id of the created target (`InitDebugW` or
`InitDLLDebugW`; `none` is the null pointer of a failed launch), and the
bitness of the target and of the debugger as `IsWow64Process` reports them
(`none` when the call fails). -/
structure SessionAnswers where
  fileIsDll : Bool
  process : Option (Nat × Nat)
  wow64 : Option Bool
  mewow64 : Option Bool
  deriving DecidableEq, Repr

/-- Modelled from the spec: the engine call `SetCustomHandler`, which registers
the handler of one kind of notification. -/
def SetCustomHandler (kind handler : String) (s : Dbg) : Dbg :=
  emit (.call "SetCustomHandler" [.str kind, .str handler]) s

/-- Modelled from the spec: `varset` (`variable.cpp`), which sets a variable of
the command interpreter. -/
def varset (name : String) (value : Nat) (s : Dbg) : Dbg :=
  emit (.call "varset" [.str name, .num value]) s

/-- Modelled from the spec: the engine call
`RemoveAllBreakPoints(UE_OPTION_REMOVEALL)`, which removes every installed
trap. -/
def RemoveAllBreakPoints (s : Dbg) : Dbg :=
  emit (.call "RemoveAllBreakPoints" [.str "UE_OPTION_REMOVEALL"])
    { s with titan := { s.titan with
        dr0 := none, dr1 := none, dr2 := none, dr3 := none, bpx := [], membpx := [] } }

/-- Modelled from the spec: `DBClose` (`database.cpp`), which saves the program
database and clears the breakpoint bookkeeping. -/
def DBClose (s : Dbg) : Dbg :=
  emit (.call "DBClose" []) { s with breakpoints := [] }

/-- Modelled from the spec: `ModClear` (`module.cpp`), which clears the module
table. -/
def ModClear (s : Dbg) : Dbg :=
  emit (.call "ModClear" []) { s with modules := [] }

/-- Modelled from the spec: `ThreadClear` (`thread.cpp`), which clears the
thread table. -/
def ThreadClear (s : Dbg) : Dbg :=
  emit (.call "ThreadClear" []) { s with threads := [] }

/-- The ten `SetCustomHandler` calls of `threadDebugLoop` and of
`threadAttachLoop`, in their order. -/
def customHandlers : List (String × String) :=
  [("UE_CH_CREATEPROCESS", "cbCreateProcess"), ("UE_CH_EXITPROCESS", "cbExitProcess"),
   ("UE_CH_CREATETHREAD", "cbCreateThread"), ("UE_CH_EXITTHREAD", "cbExitThread"),
   ("UE_CH_SYSTEMBREAKPOINT", "cbSystemBreakpoint"), ("UE_CH_LOADDLL", "cbLoadDll"),
   ("UE_CH_UNLOADDLL", "cbUnloadDll"), ("UE_CH_OUTPUTDEBUGSTRING", "cbOutputDebugString"),
   ("UE_CH_UNHANDLEDEXCEPTION", "cbException"), ("UE_CH_DEBUGEVENT", "cbDebugEvent")]

/-- Function `threadDebugLoop`, lines 1157 to 1226 of the 64-bit build: from
`lock(WAITID_STOP)` to the call of `DebugLoop`.  The result says whether the
debug loop is reached (`true`, with the state in which it is called) or the
function has returned (`false`, with the state at the `return`).  After a
failed launch `fdProcessInfo` points to `g_pi`, whose fields are zero.  The
handles `hProcess` and `hEvent`, the counter `ecount` and the title buffer
`szBaseFileName` are not part of the state; the title is handed to the GUI. -/
def threadDebugLoopInit (init : INIT_STRUCT) (os : SessionAnswers) (s : Dbg) : Bool × Dbg :=
  let s := lock .WAITID_STOP s
  let s := { s with bIsAttached := false }
  let s := { s with bSkipExceptions := false }
  let s := { s with bBreakOnNextDll := false }
  let s := { s with bFileIsDll := os.fileIsDll }
  let s := { s with pDebuggedEntry := GetPE32Data_OEP init.exe s }
  let s := { s with szFileName := init.exe }
  let s :=
    if s.bFileIsDll then
      emit (.call "InitDLLDebugW" [.str init.exe, .str init.commandline, .str init.currentfolder]) s
    else
      emit (.call "InitDebugW" [.str init.exe, .str init.commandline, .str init.currentfolder]) s
  match os.process with
  | none =>
    let s := { s with dwProcessId := 0 }
    let s := dputs "Error starting process (invalid pe?)!" s
    (false, unlock .WAITID_STOP s)
  | some fdProcessInfo =>
    let s := { s with dwProcessId := fdProcessInfo.2 }
    match os.wow64.bind (fun wow64 => os.mewow64.map (fun mewow64 => (wow64, mewow64))) with
    | none =>
      let s := dputs "IsWow64Process failed!" s
      let s := emit (.call "StopDebug" []) s
      (false, unlock .WAITID_STOP s)
    | some (wow64, mewow64) =>
      if (mewow64 && !wow64) || (!mewow64 && wow64) then
        let s := dputs "Use x32dbg to debug this process!" s
        (false, unlock .WAITID_STOP s)
      else
        let s := emit (.call "GuiAddRecentFile" [.str s.szFileName]) s
        let s := varset "$hp" fdProcessInfo.1 s
        let s := varset "$pid" fdProcessInfo.2 s
        let s := { s with cachePrivateUsage := 0 }
        let s := customHandlers.foldl (fun s h => SetCustomHandler h.1 h.2 s) s
        let s := GuiSetDebugState .initialized s
        let s := emit (.call "GuiUpdateWindowTitle" [.str (baseFileName s.szFileName)]) s
        let s := plugincbcall .CB_INITDEBUG none s
        (true, s)

/-- Function `threadDebugLoop`, lines 1228 to 1249: what follows the return of
`DebugLoop`. -/
def threadDebugLoopExit (s : Dbg) : Dbg :=
  let s := { s with isDetachedByUser := false }
  let s := plugincbcall .CB_STOPDEBUG none s
  let s := emit (.call "SafeSymRegisterCallback64" []) s
  let s := emit (.call "SafeSymCleanup" []) s
  let s := RemoveAllBreakPoints s
  let s := DBClose s
  let s := ModClear s
  let s := ThreadClear s
  let s := GuiSetDebugState .stopped s
  let s := dputs "Debugging stopped!" s
  let s := varset "$hp" 0 s
  let s := varset "$pid" 0 s
  let s := unlock .WAITID_STOP s
  let s := { s with pDebuggedEntry := 0 }
  let s := { s with pDebuggedBase := 0 }
  { s with pCreateProcessBase := 0 }

/-- Function `threadDebugLoop`.  `DebugLoop` is the loop of the engine
(modelled from the spec: it delivers the notifications of the target to the
registered handlers and returns when debugging has stopped); its call is
recorded before it runs. -/
def threadDebugLoop (init : INIT_STRUCT) (os : SessionAnswers) (DebugLoop : Dbg → Dbg)
    (s : Dbg) : Dbg :=
  let r := threadDebugLoopInit init os s
  if r.1 then threadDebugLoopExit (DebugLoop (emit (.call "DebugLoop" []) r.2))
  else r.2

/-- Function `cbAttachDebugger`.  The handles `hEvent` and `hProcess` are not part
of the state; `hp` is the process handle of the target. -/
def cbAttachDebugger (hp : Nat) (s : Dbg) : Dbg :=
  let s := varset "$hp" hp s
  varset "$pid" s.dwProcessId s

/-- Function `threadAttachLoop`, lines 1453 to 1492: from `lock(WAITID_STOP)` to
the call of `AttachDebugger`; `fileIsDll` is the answer of
`IsFileDLL(szFileName, 0)`.  The record `pi_attached` is filled by the engine,
and the process id travels in the argument of `CB_ATTACH`, which the record of
calls does not keep. -/
def threadAttachLoopInit (fileIsDll : Bool) (s : Dbg) : Dbg :=
  let s := lock .WAITID_STOP s
  let s := { s with bIsAttached := true }
  let s := { s with bSkipExceptions := false }
  let s := { s with bFileIsDll := fileIsDll }
  let s := emit (.call "GuiAddRecentFile" [.str s.szFileName]) s
  let s := { s with cachePrivateUsage := 0 }
  let s := customHandlers.foldl (fun s h => SetCustomHandler h.1 h.2 s) s
  let s := GuiSetDebugState .initialized s
  let s := emit (.call "GuiUpdateWindowTitle" [.str (baseFileName s.szFileName)]) s
  let s := plugincbcall .CB_INITDEBUG none s
  plugincbcall .CB_ATTACH none s

/-- Function `threadAttachLoop`, lines 1495 to 1513: what follows the return of
`AttachDebugger`. -/
def threadAttachLoopExit (s : Dbg) : Dbg :=
  let s := { s with isDetachedByUser := false }
  let s := plugincbcall .CB_STOPDEBUG none s
  let s := emit (.call "SafeSymRegisterCallback64" []) s
  let s := emit (.call "SafeSymCleanup" []) s
  let s := RemoveAllBreakPoints s
  let s := DBClose s
  let s := ModClear s
  let s := ThreadClear s
  let s := GuiSetDebugState .stopped s
  let s := dputs "debugging stopped!" s
  let s := varset "$hp" 0 s
  let s := varset "$pid" 0 s
  unlock .WAITID_STOP s

/-- Function `threadAttachLoop`.  `AttachDebugger` is the engine call that
attaches to the process and runs the loop of the engine (modelled from the
spec, as `DebugLoop` in `threadDebugLoop`); its call is recorded before it
runs. -/
def threadAttachLoop (pid : Nat) (fileIsDll : Bool) (AttachDebugger : Dbg → Dbg) (s : Dbg) :
    Dbg :=
  let s := threadAttachLoopInit fileIsDll s
  threadAttachLoopExit (AttachDebugger (emit (.call "AttachDebugger" [.num pid]) s))

/-! ## Observations -/

/-- The handler returned: it did not fault. -/
def returned : Except Dbg Dbg → Bool
  | .ok _ => true
  | .error _ => false

/-- The state a handler that can fault ends in: the state it returns with, or
the state it had reached when it faulted. -/
def reached : Except Dbg Dbg → Dbg
  | .ok s => s
  | .error s => s

/-- The calls made between state `s` and a later state `t`. -/
def emitted (s t : Dbg) : List Event :=
  t.events.drop s.events.length

/-- The call is `lock(WAITID_RUN)`. -/
def Event.isLockRun : Event → Bool
  | .lock id => (match id with
    | .WAITID_RUN => true
    | .WAITID_STOP => false)
  | _ => false

/-- The call is `wait(WAITID_RUN)`. -/
def Event.isWaitRun : Event → Bool
  | .wait id _ => (match id with
    | .WAITID_RUN => true
    | .WAITID_STOP => false)
  | _ => false

/-- The dispatcher locked gate `RUN` and later blocked on `wait(RUN)` in this
run of calls: the session paused. -/
def pausesIn : List Event → Bool
  | [] => false
  | e :: rest => (e.isLockRun && rest.any Event.isWaitRun) || pausesIn rest

/-- No call in this run touches gate `RUN`: it is neither locked nor waited
on. -/
def runUntouched (evs : List Event) : Bool :=
  evs.all (fun e => !e.isLockRun && !e.isWaitRun)

/-- The values `bSkipExceptions` had at each block on `wait(RUN)` of this run
of calls. -/
def skipAtWait : List Event → List Bool
  | [] => []
  | .wait .WAITID_RUN b :: rest => b :: skipAtWait rest
  | _ :: rest => skipAtWait rest

/-- The registry deletions in this run of calls. -/
def deletions : List Event → List (Nat × BP_TYPE)
  | [] => []
  | .BpDelete addr type :: rest => (addr, type) :: deletions rest
  | _ :: rest => deletions rest

/-- The line `cbException` logs for an exception: first or last chance, with
the name of the code when it has one. -/
def exceptionLogLine (e : EXCEPTION_DEBUG_INFO) (addr : Nat) (s : Dbg) : Event :=
  if e.dwFirstChance ≠ 0 then
    match ExceptionCodeToName e.ExceptionCode s with
    | some name =>
      .dprintf ("First chance exception on " ++ fhex ++ " (%.8X, %s)!\n")
        [.num addr, .num e.ExceptionCode, .str name]
    | none =>
      .dprintf ("First chance exception on " ++ fhex ++ " (%.8X)!\n")
        [.num addr, .num e.ExceptionCode]
  else
    match ExceptionCodeToName e.ExceptionCode s with
    | some name =>
      .dprintf ("Last chance exception on " ++ fhex ++ " (%.8X, %s)!\n")
        [.num addr, .num e.ExceptionCode, .str name]
    | none =>
      .dprintf ("Last chance exception on " ++ fhex ++ " (%.8X)!\n")
        [.num addr, .num e.ExceptionCode]

/-- The calls of the pause sequence that ends `cbException`. -/
def exceptionPauseCalls (s : Dbg) : List Event :=
  [.GuiSetDebugState .paused, .DebugUpdateGui (GetContextDataEx s.hActiveThread s) true,
   .lock .WAITID_RUN, .call "SetForegroundWindow" [], .plugincbcall .CB_PAUSEDEBUG none,
   .plugincbcall .CB_EXCEPTION none, .wait .WAITID_RUN false]

/-- The engine calls in this run of calls, each with its result. -/
def engineCalls : List Event → List (TitanOp × Bool)
  | [] => []
  | .titan op ok :: rest => (op, ok) :: engineCalls rest
  | _ :: rest => engineCalls rest

/-- The registry has an entry of this address and kind and the entry is marked
enabled. -/
def registryEnabled (addr : Nat) (type : BP_TYPE) (s : Dbg) : Bool :=
  match BpGet addr type s with
  | some b => b.enabled
  | none => false

/-- The engine holds a trap of this kind at this address: a software trap, a
memory trap, or a debug-register slot programmed with the address. -/
def trapInstalled (addr : Nat) (type : BP_TYPE) (s : Dbg) : Bool :=
  match type with
  | .BPNORMAL => s.titan.bpx.any (fun b => b.1 = addr)
  | .BPMEMORY => s.titan.membpx.any (fun b => b.1 = addr)
  | .BPHARDWARE =>
    [s.titan.dr0, s.titan.dr1, s.titan.dr2, s.titan.dr3].any (fun d =>
      match d with
      | some v => v.1 = addr
      | none => false)

/-- Every field of a registry entry except its engine encoding. -/
def BREAKPOINT.identity (b : BREAKPOINT) : Nat × BP_TYPE × Bool × Bool × String × String :=
  (b.addr, b.type, b.enabled, b.singleshoot, b.name, b.mod)

/-- The number of "DebugString" lines logged in this run of calls. -/
def debugStringLines : List Event → Nat
  | [] => 0
  | .dprintf format _ :: rest =>
    (if format = "DebugString: \"%s\"\n" then 1 else 0) + debugStringLines rest
  | _ :: rest => debugStringLines rest

/-- The engine call that installs the trap of a registry entry in state `s`:
the call of its kind, and for a hardware entry the call on the first free
debug-register slot, none when all four are taken. -/
def installRequest (bp : BREAKPOINT) (s : Dbg) : Option TitanOp :=
  match bp.type with
  | .BPNORMAL => some (.SetBPX bp.addr bp.titantype)
  | .BPMEMORY =>
    some (.SetMemoryBPXEx bp.addr (MemFindBaseAddr bp.addr s).2 bp.titantype (!bp.singleshoot))
  | .BPHARDWARE =>
    (GetUnusedHardwareBreakPointRegister s).map (fun drx =>
      .SetHardwareBreakPoint bp.addr drx (TITANGETTYPE bp.titantype) (TITANGETSIZE bp.titantype))

/-- The calls on gate `STOP` in this run of calls, in order: `true` for a
`lock(WAITID_STOP)`, `false` for an `unlock(WAITID_STOP)`. -/
def stopTrace : List Event → List Bool
  | [] => []
  | .lock .WAITID_STOP :: rest => true :: stopTrace rest
  | .unlock .WAITID_STOP :: rest => false :: stopTrace rest
  | _ :: rest => stopTrace rest

/-- The call with which `threadDebugLoop` asks the engine to create the target
process. -/
def launchCall (init : INIT_STRUCT) (os : SessionAnswers) : Event :=
  if os.fileIsDll then
    .call "InitDLLDebugW" [.str init.exe, .str init.commandline, .str init.currentfolder]
  else .call "InitDebugW" [.str init.exe, .str init.commandline, .str init.currentfolder]

/-- This run of calls has nothing of a running session in it: no handler is
registered, the debug loop is not entered, the GUI is not told that the session
is initialized, no registry or engine call and no command is made, and gate
`RUN` is neither locked nor waited on. -/
def sessionNeverRan (evs : List Event) : Bool :=
  evs.all (fun e =>
    match e with
    | .call name _ => name ≠ "SetCustomHandler" && name ≠ "DebugLoop"
    | .GuiSetDebugState state => state ≠ .initialized
    | .titan _ _ => false
    | .BpDelete _ _ => false
    | .BpSetTitanType _ _ _ => false
    | .BpEnable _ _ _ => false
    | .cmddirectexec _ _ => false
    | .lock id => id ≠ .WAITID_RUN
    | .wait _ _ => false
    | _ => true)

/-- The lines logged in this run of calls (`dputs` and `dprintf`), in order. -/
def logged (evs : List Event) : List Event :=
  evs.filter (fun e =>
    match e with
    | .dputs _ => true
    | .dprintf _ _ => true
    | _ => false)

/-- The pause option that `cbSystemBreakpoint` consults: `Events/AttachBreakpoint`
in an attached session, `Events/SystemBreakpoint` in a launched one. -/
def entryPauseOption (s : Dbg) : Bool :=
  if s.bIsAttached then settingboolget "Events" "AttachBreakpoint" s
  else settingboolget "Events" "SystemBreakpoint" s

/-- The call is a log line, an engine call or the update of an engine
encoding in the registry: the calls that installing the traps of a module can
make. -/
def Event.isInstallCall : Event → Bool
  | .dputs _ => true
  | .dprintf _ _ => true
  | .titan _ _ => true
  | .BpSetTitanType _ _ _ => true
  | _ => false

/-- State `t` is reached from state `s` by calls that all satisfy `ok`, with
the settings, the "break on next module" flag and the two flags that tell the
kind of session as they were in `s`. -/
def framed (ok : Event → Bool) (s t : Dbg) : Prop :=
  ∃ P : List Event, t.events = s.events ++ P ∧ P.all ok = true ∧
    t.bBreakOnNextDll = s.bBreakOnNextDll ∧ t.settings = s.settings ∧
    t.bFileIsDll = s.bFileIsDll ∧ t.bIsAttached = s.bIsAttached

/-- The call hands the command interpreter the "entry breakpoint" command of
`cbCreateProcess` and `cbLoadDll`: a single-shot (`ss`) software breakpoint
(`bp`) named "entry breakpoint". -/
def Event.isEntryBreakpointCommand : Event → Bool
  | .cmddirectexec format _ => format = "bp " ++ fhex ++ ",\"entry breakpoint\",ss"
  | _ => false

/-- The call is not an "entry breakpoint" command. -/
def Event.noEntryBreakpoint (e : Event) : Bool :=
  !e.isEntryBreakpointCommand

/-- The arguments of the "entry breakpoint" commands in this run of calls. -/
def entryBreakpoints (evs : List Event) : List (List Arg) :=
  evs.filterMap (fun e =>
    match e with
    | .cmddirectexec format args =>
      if format = "bp " ++ fhex ++ ",\"entry breakpoint\",ss" then some args else none
    | _ => none)

/-- The breakpoints handed to the plugin callback `CB_BREAKPOINT` in this run of
calls, `none` for a null pointer. -/
def pluginBreakpoints (evs : List Event) : List (Option BREAKPOINT) :=
  evs.filterMap (fun e =>
    match e with
    | .plugincbcall .CB_BREAKPOINT breakpoint => some breakpoint
    | _ => none)

/-- The state at program start: every process-wide variable at its
initialiser, both gates unlocked, an empty registry, all four debug-register
slots free, one thread (id `0x1c4`, handle `0x90`) stopped at `0x401000`, one
mapped region, and the seven bytes of the C string `"hello\n"` readable at
`0x500000`. -/
def startup : Dbg where
  szFileName := "C:\\work\\main.exe"
  bFileIsDll := false
  pDebuggedBase := 0
  pCreateProcessBase := 0
  pDebuggedEntry := 0
  isStepping := false
  isPausedByUser := false
  isDetachedByUser := false
  bIsAttached := false
  bSkipExceptions := false
  bBreakOnNextDll := false
  ignoredExceptionRange := []
  lastDebugText := []
  cachePrivateUsage := 0
  hActiveThread := 0
  runLocked := false
  stopLocked := false
  breakpoints := []
  titan :=
    { dr0 := none, dr1 := none, dr2 := none, dr3 := none, bpx := [], membpx := [],
      continueStatus := DBG_CONTINUE, detached := false, refused := [] }
  dwThreadId := 0x1c4
  dwProcessId := 0x7d0
  privateUsage := some 0x200000
  threads := [(0x1c4, 0x90)]
  cip := [(0x90, 0x401000)]
  settings := []
  symbolicNames := []
  exceptionNames := []
  memory := [(0x500000, 104), (0x500001, 101), (0x500002, 108), (0x500003, 108),
    (0x500004, 111), (0x500005, 10), (0x500006, 0)]
  regions := [(0x401000, 0x1000)]
  modules := []
  fileNames := []
  moduleInfo := []
  peFiles := []
  events := []

/-- An exception record with the given code and first-chance indicator, raised
at `0x401000`. -/
def exceptionAt (code firstChance : Nat) : EXCEPTION_DEBUG_INFO :=
  { ExceptionCode := code, ExceptionAddress := 0x401000,
    ExceptionInformation := { dwType := 0, szName := 0, dwThreadID := 0, dwFlags := 0 },
    dwFirstChance := firstChance }

/-- The session with the single ignored range `[A, B]`. -/
def withRange (A B : Nat) (s : Dbg) : Dbg :=
  dbgaddignoredexception { start := A, «end» := B } (dbgclearignoredexceptions s)

/-- A session in which the operator asked to skip first-chance exceptions and
switched on the pause options of the thread, module and debug-string
notifications. -/
def skippingSession : Dbg :=
  { dbgsetskipexceptions true startup with
    settings := [("Events", "ThreadStart"), ("Events", "ThreadEnd"), ("Events", "DllLoad"),
      ("Events", "DllUnload"), ("Events", "DebugStrings")] }

/-- A registry entry at `0x401000` of the given kind and single-shot flag,
enabled, with the execute / one-byte hardware encoding `0x47`. -/
def entryAt (type : BP_TYPE) (singleshoot : Bool) : BREAKPOINT :=
  { addr := 0x401000, enabled := true, singleshoot := singleshoot, type := type,
    titantype := 0x47, name := "", mod := "main.exe" }

/-- The session at program start with one registry entry. -/
def withEntry (bp : BREAKPOINT) : Dbg :=
  { startup with breakpoints := [bp] }

/-- An enabled hardware entry at `addr` in debug-register slot `slot`. -/
def hardwareEntry (addr slot : Nat) : BREAKPOINT :=
  { addr := addr, enabled := true, singleshoot := false, type := .BPHARDWARE,
    titantype := TITANSETDRX 0x47 slot, name := "", mod := "main.exe" }

/-- A session with four hardware breakpoints installed, one per debug-register
slot, and a fifth enabled hardware entry at `0x401040` in the registry. -/
def fourSlotsTaken : Dbg :=
  { startup with
    breakpoints := [hardwareEntry 0x401000 0, hardwareEntry 0x401010 1, hardwareEntry 0x401020 2,
      hardwareEntry 0x401030 3, hardwareEntry 0x401040 0]
    titan := { startup.titan with
      dr0 := some (0x401000, 4, 7), dr1 := some (0x401010, 4, 7),
      dr2 := some (0x401020, 4, 7), dr3 := some (0x401030, 4, 7) } }

/-- A thread-created notification: handle `0x94`, start address `0x402000`. -/
def sampleThread : CREATE_THREAD_DEBUG_INFO :=
  { hThread := 0x94, lpStartAddress := 0x402000 }

/-- A module-loaded notification: file handle `0x98`, base `0x10000000`. -/
def sampleLoadDll : LOAD_DLL_DEBUG_INFO :=
  { hFile := 0x98, lpBaseOfDll := 0x10000000 }

/-- The ASCII debug string at `0x500000`, terminator included. -/
def sampleDebugString : OUTPUT_DEBUG_STRING_INFO :=
  { lpDebugStringData := 0x500000, fUnicode := 0, nDebugStringLength := 7 }

/-- A disabled registry entry at `0x401000` of the given kind. -/
def disabledEntryAt (type : BP_TYPE) : BREAKPOINT :=
  { entryAt type false with enabled := false }

/-- The session in which the engine refuses the listed calls. -/
def refusing (ops : List TitanOp) (s : Dbg) : Dbg :=
  { s with titan := { s.titan with refused := ops } }

/-- A session whose module `main.exe` owns five enabled hardware entries while
all four debug-register slots are free, as when the module is loaded again. -/
def fiveHardwareEntries : Dbg :=
  { fourSlotsTaken with titan := startup.titan }

/-- The ASCII debug string that is empty: its terminator alone, at `0x500006`. -/
def emptyDebugString : OUTPUT_DEBUG_STRING_INFO :=
  { lpDebugStringData := 0x500006, fUnicode := 0, nDebugStringLength := 1 }

/-- The session with the enabled software entry at `0x401000` and its trap
installed, in which the engine refuses to remove that trap. -/
def softwareInstalled : Dbg :=
  refusing [.DeleteBPX 0x401000]
    { withEntry (entryAt .BPNORMAL false) with
      titan := { startup.titan with bpx := [(0x401000, 0x47)] } }

/-- What a bulk callback leaves behind when the engine refuses its call: the
callback reports failure, the engine state is as before the callback, the
enabled flag of the registry entry is `flag` (`none`: the entry is gone), and
the last call logs the diagnostic `line` with the address. -/
def refusedOutcome (r : Bool × Dbg) (s : Dbg) (addr : Nat) (type : BP_TYPE)
    (flag : Option Bool) (line : String) : Prop :=
  r.1 = false ∧ r.2.titan = s.titan ∧
  (BpGet addr type r.2).map (fun b => b.enabled) = flag ∧
  (emitted s r.2).getLast? = some (.dprintf line [.num addr])

/-- The launch parameters of `C:\\work\\main.exe`. -/
def sampleInit : INIT_STRUCT :=
  { exe := "C:\\work\\main.exe", commandline := "", currentfolder := "C:\\work" }

/-- A launch that succeeds: the file is an executable, the process is created
with handle `0x88` and id `0x7d0`, and target and debugger are both 64-bit. -/
def launchOk : SessionAnswers :=
  { fileIsDll := false, process := some (0x88, 0x7d0), wow64 := some false,
    mewow64 := some false }

/-- A launch that fails: the engine cannot create the process. -/
def launchFails : SessionAnswers :=
  { launchOk with process := none }

/-- A launch of a 32-bit target under the 64-bit debugger. -/
def launchOtherBitness : SessionAnswers :=
  { launchOk with wow64 := some true }

/-- A process-created notification: image base `0x400000`, main thread handle
`0x90`, start address `0x401000`. -/
def sampleProcess : CREATE_PROCESS_DEBUG_INFO :=
  { hFile := 0x84, hThread := 0x90, lpBaseOfImage := 0x400000, lpThreadLocalBase := 0x7ffde000,
    lpStartAddress := 0x401000 }

/-- A debug loop in which the process-created notification arrives and then the
process exits with code 0. -/
def sampleLoop (s : Dbg) : Dbg :=
  cbExitProcess 0 (cbDebugEvent (cbCreateProcess sampleProcess (cbDebugEvent s)))

/-- A session left behind by an earlier one: the range `[0xC0000005, 0xC0000005]`
is ignored. -/
def afterEarlierSession : Dbg :=
  dbgaddignoredexception { start := 0xC0000005, «end» := 0xC0000005 } startup

/-- A debug loop in which the process exits at once with code 0. -/
def exitLoop (s : Dbg) : Dbg :=
  cbExitProcess 0 (cbDebugEvent s)

/-- An attached session with the given options switched on. -/
def attachedWith (settings : List (String × String)) : Dbg :=
  { startup with bIsAttached := true, settings := settings }


/-- A launched session of an executable whose file has its entry point at
offset `0x1000`, with the entry-breakpoint option on. -/
def entryOptionOn : Dbg :=
  { startup with settings := [("Events", "EntryBreakpoint")], pDebuggedEntry := 0x1000 }

/-- A process-created notification for the image at `0x400000` whose main thread
starts at `0x401500`. -/
def lateStart : CREATE_PROCESS_DEBUG_INFO :=
  { sampleProcess with lpStartAddress := 0x401500 }

/-- A content the local record of a hit handler can have when `BpGet` does not
fill it: the fields of an entry of the given kind at `0x402000`, disabled and
single-shot. -/
def staleLocal (type : BP_TYPE) : BREAKPOINT :=
  { addr := 0x402000, enabled := false, singleshoot := true, type := type,
    titantype := 0x47, name := "", mod := "main.exe" }

/-- The session at program start with one enabled registry entry of the given
kind at `0x402000`; the thread is stopped at `0x401000`, where the registry has
no entry. -/
def entryElsewhere (type : BP_TYPE) : Dbg :=
  withEntry { entryAt type false with addr := 0x402000 }

/-- The session at program start with the thread `0x90` active and the byte
`0xC3`, a near return, at its instruction pointer `0x401000`. -/
def atReturn : Dbg :=
  { startup with hActiveThread := 0x90, memory := (0x401000, 0xC3) :: startup.memory }

/-- A session with the option `Events/TlsCallbacks` on in which the files
behind the handles `0x84` (the executable) and `0x98` (a module) have one TLS
callback each, at an address that is not readable in the debuggee. -/
def unreadableTls : Dbg :=
  { startup with
    settings := [("Events", "TlsCallbacks")],
    fileNames := [(0x84, "C:\\work\\main.exe"), (0x98, "C:\\work\\lib.dll")],
    peFiles :=
      [("C:\\work\\main.exe",
          { imageBase := 0x400000, oep := 0x1000, tlsCount := 1, tlsCallbacks := some [0x402000] }),
        ("C:\\work\\lib.dll",
          { imageBase := 0x10000000, oep := 0x1000, tlsCount := 1,
            tlsCallbacks := some [0x10002000] })] }

/-! ## Ignored exception ranges: results -/

theorem ignoredLoop_iff (c : Nat) (l : List ExceptionRange) :
    ignoredLoop c l = true ↔ ∃ r ∈ l, r.start ≤ c ∧ c ≤ r.end := by
  induction l with
  | nil => simp [ignoredLoop]
  | cons r rest ih =>
    simp only [ignoredLoop, List.mem_cons, exists_eq_or_imp]
    by_cases h : c ≥ r.start ∧ c ≤ r.end
    · simp [h]
    · rw [if_neg h, ih]
      constructor
      · intro hx
        exact Or.inr hx
      · intro hx
        rcases hx with hx | hx
        · exact absurd hx h
        · exact hx

theorem ignoredRanges_build (s : Dbg) (ranges : List ExceptionRange) :
    (ranges.foldl (fun t r => dbgaddignoredexception r t) s).ignoredExceptionRange
      = s.ignoredExceptionRange ++ ranges := by
  induction ranges generalizing s with
  | nil => simp
  | cons r rest ih =>
    simp only [List.foldl_cons]
    rw [ih]
    simp [dbgaddignoredexception]

/-- C1: after `dbgclearignoredexceptions` and any sequence of
`dbgaddignoredexception` calls, `dbgisignoredexception c` is true exactly when
one of the added ranges has `start <= c <= end`, both ends included. -/
theorem C1_ignored_iff_in_some_range (s : Dbg) (ranges : List ExceptionRange) (c : Nat) :
    dbgisignoredexception c
        (ranges.foldl (fun t r => dbgaddignoredexception r t) (dbgclearignoredexceptions s)) = true
      ↔ ∃ r ∈ ranges, r.start ≤ c ∧ c ≤ r.end := by
  unfold dbgisignoredexception
  rw [ignoredRanges_build, ignoredLoop_iff]
  simp [dbgclearignoredexceptions]

/-! ## Exceptions: results -/

/-- Function `dbggetprivateusage` writes the usage cache and nothing else. -/
theorem dbggetprivateusage_eq (update : Bool) (s : Dbg) :
    (dbggetprivateusage update s).2 =
      { s with cachePrivateUsage :=
          match s.privateUsage with
          | some PrivateUsage => if update then PrivateUsage else s.cachePrivateUsage
          | none => s.cachePrivateUsage } := by
  cases h : s.privateUsage <;> cases update <;> simp [dbggetprivateusage, h] <;>
  (cases s; simp_all)

theorem emitted_of_append (s t : Dbg) (L : List Event) (h : t.events = s.events ++ L) :
    emitted s t = L := by
  simp [emitted, h]

theorem pausesIn_append_untouched (P L : List Event) (h : runUntouched P = true) :
    pausesIn (P ++ L) = pausesIn L := by
  induction P with
  | nil => rfl
  | cons e P ih =>
    simp only [runUntouched, List.all_cons, Bool.and_eq_true, Bool.not_eq_true'] at h
    have ih2 := ih (by simpa [runUntouched] using h.2)
    simp [pausesIn, h.1.1, ih2]

theorem cbExceptionPause_events (s : Dbg) :
    (cbExceptionPause s).events = s.events ++ exceptionPauseCalls s := by
  simp [cbExceptionPause, emit, plugincbcall, GuiSetDebugState, DebugUpdateGui, lock, wait,
    GetContextDataEx, exceptionPauseCalls]

theorem cbExceptionPause_status (s : Dbg) :
    (cbExceptionPause s).titan.continueStatus = s.titan.continueStatus := by
  simp [cbExceptionPause, emit, plugincbcall, GuiSetDebugState, DebugUpdateGui, lock, wait]

theorem cbExceptionRest_status (e : EXCEPTION_DEBUG_INFO) (a : Nat) (s : Dbg) :
    (cbExceptionRest e a s).titan.continueStatus =
      if e.dwFirstChance ≠ 0 then DBG_EXCEPTION_NOT_HANDLED else DBG_CONTINUE := by
  unfold cbExceptionRest
  by_cases hf : e.dwFirstChance ≠ 0
  · simp only [if_pos hf]
    split
    · cases ExceptionCodeToName e.ExceptionCode s <;>
        simp [SetNextDbgContinueStatus, dprintf, emit]
    · rw [cbExceptionPause_status]
      cases ExceptionCodeToName e.ExceptionCode s <;>
        simp [SetNextDbgContinueStatus, dprintf, emit]
  · simp only [if_neg hf]
    rw [cbExceptionPause_status]
    cases ExceptionCodeToName e.ExceptionCode s <;>
      simp [SetNextDbgContinueStatus, dprintf, emit]

theorem cbExceptionRest_events (e : EXCEPTION_DEBUG_INFO) (a : Nat) (s : Dbg) :
    (cbExceptionRest e a s).events = s.events ++ exceptionLogLine e a s ::
      (if e.dwFirstChance ≠ 0 ∧
          (s.bSkipExceptions = true ∨ dbgisignoredexception e.ExceptionCode s = true) then []
       else exceptionPauseCalls s) := by
  by_cases hf : e.dwFirstChance ≠ 0 <;>
  cases hn : ExceptionCodeToName e.ExceptionCode s <;>
  cases hsk : s.bSkipExceptions <;>
  cases hig : ignoredLoop e.ExceptionCode s.ignoredExceptionRange <;>
  simp only [cbExceptionRest, if_pos hf, if_neg hf, hn] <;>
  simp [dbgisignoredexception, SetNextDbgContinueStatus, dprintf, emit, hsk, hig,
    GetContextDataEx, hf, exceptionLogLine, exceptionPauseCalls, hn, cbExceptionPause_events]

theorem cbExceptionRest_pauses (e : EXCEPTION_DEBUG_INFO) (a : Nat) (s0 s : Dbg) (P : List Event)
    (hP : s.events = s0.events ++ P) (hU : runUntouched P = true) :
    pausesIn (emitted s0 (cbExceptionRest e a s)) =
      (decide (e.dwFirstChance = 0) ||
        (!s.bSkipExceptions && !dbgisignoredexception e.ExceptionCode s)) := by
  rw [emitted_of_append s0 _ _ (by rw [cbExceptionRest_events, hP, List.append_assoc]),
    pausesIn_append_untouched P _ hU]
  by_cases hf : e.dwFirstChance = 0 <;>
  cases hsk : s.bSkipExceptions <;>
  cases hig : dbgisignoredexception e.ExceptionCode s <;>
  simp [pausesIn, exceptionPauseCalls, exceptionLogLine, Event.isLockRun, Event.isWaitRun, hf]

/-- The state in which `cbException` reaches the code after its `if` /
`else if`, for a code that is neither the breakpoint trap nor the thread-naming
signal. -/
theorem cbException_other (e : EXCEPTION_DEBUG_INFO) (s : Dbg)
    (hbp : e.ExceptionCode ≠ EXCEPTION_BREAKPOINT) (hms : e.ExceptionCode ≠ MS_VC_EXCEPTION) :
    cbException e s = cbExceptionRest e e.ExceptionAddress
      (emit (.call "GuiSetLastException" [.num e.ExceptionCode])
        { s with hActiveThread := ThreadGetHandle s.dwThreadId s }) := by
  simp only [cbException, if_neg hbp, if_neg hms]

/-- A breakpoint trap with no operator detach and no operator pause pending
reaches the code after the `if` / `else if` with the instruction pointer set
back to the exception address. -/
theorem cbException_trap (e : EXCEPTION_DEBUG_INFO) (s : Dbg)
    (hbp : e.ExceptionCode = EXCEPTION_BREAKPOINT) (hd : s.isDetachedByUser = false)
    (hp : s.isPausedByUser = false) :
    cbException e s = cbExceptionRest e e.ExceptionAddress
      (SetContextDataEx (ThreadGetHandle s.dwThreadId s) e.ExceptionAddress
        (emit (.call "GuiSetLastException" [.num e.ExceptionCode])
          { s with hActiveThread := ThreadGetHandle s.dwThreadId s })) := by
  simp [cbException, hbp, hd, hp, emit]

/-- Decoding a thread name changes no session flag and makes no call on gate
`RUN`. -/
theorem cbExceptionThreadName_frame (e : EXCEPTION_DEBUG_INFO) (s : Dbg) :
    ∃ P : List Event, (cbExceptionThreadName e s).events = s.events ++ P ∧
      runUntouched P = true ∧
      (cbExceptionThreadName e s).bSkipExceptions = s.bSkipExceptions ∧
      (cbExceptionThreadName e s).ignoredExceptionRange = s.ignoredExceptionRange := by
  refine ⟨emitted s (cbExceptionThreadName e s), ?_, ?_, ?_, ?_⟩ <;>
  simp only [cbExceptionThreadName, emitted] <;>
  split_ifs <;>
  (try cases MemRead e.ExceptionInformation.szName (MAX_THREAD_NAME_SIZE - 1) s) <;>
  simp [emit, dprintf, runUntouched, Event.isLockRun, Event.isWaitRun]

/-- The thread-naming signal goes on to the code after the `if` / `else if`. -/
theorem cbException_threadName (e : EXCEPTION_DEBUG_INFO) (s : Dbg)
    (hms : e.ExceptionCode = MS_VC_EXCEPTION) :
    cbException e s = cbExceptionRest e e.ExceptionAddress
      (cbExceptionThreadName e
        (emit (.call "GuiSetLastException" [.num e.ExceptionCode])
          { s with hActiveThread := ThreadGetHandle s.dwThreadId s })) := by
  have hne : e.ExceptionCode ≠ EXCEPTION_BREAKPOINT := by
    rw [hms]; decide
  simp only [cbException, if_neg hne, if_pos hms]

theorem ignored_frame (c : Nat) (s t : Dbg) (h : t.ignoredExceptionRange = s.ignoredExceptionRange) :
    dbgisignoredexception c t = dbgisignoredexception c s := by
  simp [dbgisignoredexception, h]

/-- Unless it is a breakpoint trap with an operator detach or pause pending,
an exception pauses exactly when it is last-chance, or first-chance with the
skip flag clear and the code in no ignored range. -/
theorem cbException_pauses_generic (e : EXCEPTION_DEBUG_INFO) (s : Dbg)
    (h : e.ExceptionCode = EXCEPTION_BREAKPOINT →
      s.isDetachedByUser = false ∧ s.isPausedByUser = false) :
    pausesIn (emitted s (cbException e s)) =
      (decide (e.dwFirstChance = 0) ||
        (!s.bSkipExceptions && !dbgisignoredexception e.ExceptionCode s)) := by
  by_cases hbp : e.ExceptionCode = EXCEPTION_BREAKPOINT
  · rw [cbException_trap e s hbp (h hbp).1 (h hbp).2,
      cbExceptionRest_pauses e _ s _ [.call "GuiSetLastException" [.num e.ExceptionCode]]
        (by simp [SetContextDataEx, emit]) (by rfl)]
    simp [SetContextDataEx, emit, dbgisignoredexception]
  · by_cases hms : e.ExceptionCode = MS_VC_EXCEPTION
    · obtain ⟨P, hP, hU, hsk, hig⟩ := cbExceptionThreadName_frame e
        (emit (.call "GuiSetLastException" [.num e.ExceptionCode])
          { s with hActiveThread := ThreadGetHandle s.dwThreadId s })
      rw [cbException_threadName e s hms,
        cbExceptionRest_pauses e _ s _ (.call "GuiSetLastException" [.num e.ExceptionCode] :: P)
          (by rw [hP]; simp [emit])
          (by simpa [runUntouched, Event.isLockRun, Event.isWaitRun] using hU),
        hsk, ignored_frame _ _ _ hig]
      simp [emit, dbgisignoredexception]
    · rw [cbException_other e s hbp hms,
        cbExceptionRest_pauses e _ s _ [.call "GuiSetLastException" [.num e.ExceptionCode]]
          (by simp [emit]) (by rfl)]
      simp [emit, dbgisignoredexception]

/-- Unless it is a breakpoint trap with an operator detach or pause pending,
the continuation status is "not handled" for a first-chance exception and
"handled" for a last-chance one. -/
theorem cbException_status_generic (e : EXCEPTION_DEBUG_INFO) (s : Dbg)
    (h : e.ExceptionCode = EXCEPTION_BREAKPOINT →
      s.isDetachedByUser = false ∧ s.isPausedByUser = false) :
    (cbException e s).titan.continueStatus =
      if e.dwFirstChance ≠ 0 then DBG_EXCEPTION_NOT_HANDLED else DBG_CONTINUE := by
  by_cases hbp : e.ExceptionCode = EXCEPTION_BREAKPOINT
  · rw [cbException_trap e s hbp (h hbp).1 (h hbp).2, cbExceptionRest_status]
  · by_cases hms : e.ExceptionCode = MS_VC_EXCEPTION
    · rw [cbException_threadName e s hms, cbExceptionRest_status]
    · rw [cbException_other e s hbp hms, cbExceptionRest_status]

/-- The calls of `cbException` on the operator-pause path. -/
theorem cbException_userPause_events (e : EXCEPTION_DEBUG_INFO) (s : Dbg)
    (hbp : e.ExceptionCode = EXCEPTION_BREAKPOINT) (hd : s.isDetachedByUser = false)
    (hp : s.isPausedByUser = true) :
    emitted s (cbException e s) =
      [.call "GuiSetLastException" [.num e.ExceptionCode], .dputs "paused!",
       .GuiSetDebugState .paused, .call "MemUpdateMap" [],
       .DebugUpdateGui (GetContextDataEx (ThreadGetHandle s.dwThreadId s) s) true,
       .lock .WAITID_RUN, .call "SetForegroundWindow" [], .plugincbcall .CB_PAUSEDEBUG none,
       .plugincbcall .CB_EXCEPTION none, .wait .WAITID_RUN false] := by
  apply emitted_of_append
  simp [cbException, hbp, hd, hp, emit, plugincbcall, dputs, SetNextDbgContinueStatus,
    GuiSetDebugState, dbggetprivateusage_eq, DebugUpdateGui, lock, wait, GetContextDataEx]

/-- The calls of `cbException` on the operator-detach path. -/
theorem cbException_detach_events (e : EXCEPTION_DEBUG_INFO) (s : Dbg)
    (hbp : e.ExceptionCode = EXCEPTION_BREAKPOINT) (hd : s.isDetachedByUser = true) :
    emitted s (cbException e s) =
      [.call "GuiSetLastException" [.num e.ExceptionCode],
       .plugincbcall .CB_DETACH none,
       .titan (.DetachDebuggerEx s.dwProcessId)
         (decide (TitanOp.DetachDebuggerEx s.dwProcessId ∉ s.titan.refused)),
       .dputs (if TitanOp.DetachDebuggerEx s.dwProcessId ∉ s.titan.refused then "Detached!"
         else "DetachDebuggerEx failed...")] := by
  apply emitted_of_append
  by_cases hr : TitanOp.DetachDebuggerEx s.dwProcessId ∈ s.titan.refused <;>
  simp [cbException, hbp, hd, emit, plugincbcall, DetachDebuggerEx, titanCall, dputs, hr]

/-- C2 (amended): with the single ignored range `[A, B]`, `A <= B`, the skip
flag clear and, for a breakpoint trap, no operator detach or pause pending, a
first-chance exception of code `C` pauses the session if and only if `C` is
outside `[A, B]`. -/
theorem C2_first_chance_pauses_iff_outside_range (A B : Nat) (e : EXCEPTION_DEBUG_INFO)
    (s : Dbg) (hAB : A ≤ B) (hr : s.ignoredExceptionRange = [{ start := A, «end» := B }])
    (hf : e.dwFirstChance ≠ 0) (hsk : s.bSkipExceptions = false)
    (hop : e.ExceptionCode = EXCEPTION_BREAKPOINT →
      s.isDetachedByUser = false ∧ s.isPausedByUser = false) :
    pausesIn (emitted s (cbException e s)) = true ↔
      ¬ (A ≤ e.ExceptionCode ∧ e.ExceptionCode ≤ B) := by
  have _ := hAB
  rw [cbException_pauses_generic e s hop]
  simp [hf, hsk, dbgisignoredexception, hr, ignoredLoop]
  omega

/-- C2 (witness): the access-violation code `0xC0000005` is outside
`[0x10, 0x20]`. -/
theorem C2_first_chance_pauses_iff_outside_range_witness :
    (0x10 ≤ 0x20) ∧
    (withRange 0x10 0x20 startup).ignoredExceptionRange = [{ start := 0x10, «end» := 0x20 }] ∧
    (exceptionAt 0xC0000005 1).dwFirstChance ≠ 0 ∧
    (withRange 0x10 0x20 startup).bSkipExceptions = false ∧
    (pausesIn (emitted (withRange 0x10 0x20 startup)
        (cbException (exceptionAt 0xC0000005 1) (withRange 0x10 0x20 startup))) = true ↔
      ¬ (0x10 ≤ (exceptionAt 0xC0000005 1).ExceptionCode ∧
        (exceptionAt 0xC0000005 1).ExceptionCode ≤ 0x20)) :=
  ⟨by decide, rfl, by decide, rfl,
    C2_first_chance_pauses_iff_outside_range 0x10 0x20 (exceptionAt 0xC0000005 1)
      (withRange 0x10 0x20 startup) (by decide) rfl (by decide) rfl
      (fun h => absurd h (by decide))⟩

/-- C2 (counterexample): the claim fails without its added conditions.  With
the skip flag set, code `0x30` is outside `[0x10, 0x20]` and does not pause;
with a detach pending, the breakpoint trap is outside `[0x10, 0x20]` and does
not pause; with an operator pause pending, the breakpoint trap is inside
`[0x80000000, 0x80000010]` and pauses. -/
theorem C2_counterexample :
    (pausesIn (emitted (dbgsetskipexceptions true (withRange 0x10 0x20 startup))
        (cbException (exceptionAt 0x30 1)
          (dbgsetskipexceptions true (withRange 0x10 0x20 startup)))) = false ∧
      ¬ (0x10 ≤ 0x30 ∧ 0x30 ≤ 0x20)) ∧
    (pausesIn (emitted (dbgsetisdetachedbyuser true (withRange 0x10 0x20 startup))
        (cbException (exceptionAt EXCEPTION_BREAKPOINT 1)
          (dbgsetisdetachedbyuser true (withRange 0x10 0x20 startup)))) = false ∧
      ¬ (0x10 ≤ EXCEPTION_BREAKPOINT ∧ EXCEPTION_BREAKPOINT ≤ 0x20)) ∧
    (pausesIn (emitted (dbgsetispausedbyuser true (withRange 0x80000000 0x80000010 startup))
        (cbException (exceptionAt EXCEPTION_BREAKPOINT 1)
          (dbgsetispausedbyuser true (withRange 0x80000000 0x80000010 startup)))) = true ∧
      (0x80000000 ≤ EXCEPTION_BREAKPOINT ∧ EXCEPTION_BREAKPOINT ≤ 0x80000010)) := by
  decide

/-- C3 (amended): a last-chance exception pauses the session for every code,
every set of ignored ranges and every value of the skip flag, unless it is a
breakpoint trap received while an operator detach is pending. -/
theorem C3_last_chance_pauses_unless_detaching (e : EXCEPTION_DEBUG_INFO) (s : Dbg)
    (hl : e.dwFirstChance = 0)
    (hnd : ¬ (e.ExceptionCode = EXCEPTION_BREAKPOINT ∧ s.isDetachedByUser = true)) :
    pausesIn (emitted s (cbException e s)) = true := by
  by_cases hbp : e.ExceptionCode = EXCEPTION_BREAKPOINT
  · have hd : s.isDetachedByUser = false := by
      cases h : s.isDetachedByUser
      · rfl
      · exact absurd ⟨hbp, h⟩ hnd
    cases hp : s.isPausedByUser
    · rw [cbException_pauses_generic e s (fun _ => ⟨hd, hp⟩)]
      simp [hl]
    · rw [cbException_userPause_events e s hbp hd hp]
      rfl
  · rw [cbException_pauses_generic e s (fun h => absurd h hbp)]
    simp [hl]

/-- C3 (witness): a last-chance access violation with the skip flag set and
its code inside an ignored range. -/
theorem C3_last_chance_pauses_unless_detaching_witness :
    (exceptionAt 0xC0000005 0).dwFirstChance = 0 ∧
    ¬ ((exceptionAt 0xC0000005 0).ExceptionCode = EXCEPTION_BREAKPOINT ∧
        (dbgsetskipexceptions true (withRange 0xC0000000 0xC0000010 startup)).isDetachedByUser
          = true) ∧
    pausesIn (emitted (dbgsetskipexceptions true (withRange 0xC0000000 0xC0000010 startup))
      (cbException (exceptionAt 0xC0000005 0)
        (dbgsetskipexceptions true (withRange 0xC0000000 0xC0000010 startup)))) = true :=
  ⟨rfl, by decide,
    C3_last_chance_pauses_unless_detaching (exceptionAt 0xC0000005 0)
      (dbgsetskipexceptions true (withRange 0xC0000000 0xC0000010 startup)) rfl (by decide)⟩

/-- C3 (counterexample): a last-chance breakpoint trap received while an
operator detach is pending does not pause: gate `RUN` is never touched. -/
theorem C3_counterexample :
    (exceptionAt EXCEPTION_BREAKPOINT 0).dwFirstChance = 0 ∧
    pausesIn (emitted (dbgsetisdetachedbyuser true startup)
      (cbException (exceptionAt EXCEPTION_BREAKPOINT 0)
        (dbgsetisdetachedbyuser true startup))) = false ∧
    runUntouched (emitted (dbgsetisdetachedbyuser true startup)
      (cbException (exceptionAt EXCEPTION_BREAKPOINT 0)
        (dbgsetisdetachedbyuser true startup))) = true := by
  decide

/-! ## The skip flag at a pause: results -/

/-- Handler `cbStep` blocks once, with the skip flag cleared. -/
theorem cbStep_skipAtWait (s : Dbg) : skipAtWait (emitted s (cbStep s)) = [false] := by
  simp [cbStep, emitted, emit, plugincbcall, GuiSetDebugState, DebugUpdateGui, lock, wait,
    skipAtWait]

/-- Handler `cbRtrFinalStep` blocks once, with the skip flag cleared. -/
theorem cbRtrFinalStep_skipAtWait (s : Dbg) :
    skipAtWait (emitted s (cbRtrFinalStep s)) = [false] := by
  simp [cbRtrFinalStep, emitted, emit, plugincbcall, GuiSetDebugState, DebugUpdateGui, lock, wait,
    skipAtWait]

/-- Handler `cbSystemBreakpoint` clears the skip flag before it decides whether to
pause. -/
theorem cbSystemBreakpoint_skipAtWait (s : Dbg) :
    ∀ b ∈ skipAtWait (emitted s (cbSystemBreakpoint s)), b = false := by
  simp only [cbSystemBreakpoint, emitted, settingboolget, GetContextDataEx, ThreadGetHandle,
    MemFindBaseAddr]
  cases hat : s.bIsAttached <;>
  by_cases h1 : ("Events", "AttachBreakpoint") ∈ s.settings <;>
  by_cases h2 : ("Events", "SystemBreakpoint") ∈ s.settings <;>
  simp [emit, plugincbcall, dputs, GuiSetDebugState, DebugUpdateGui, lock, wait, skipAtWait, hat,
    h1, h2]

/-- The hardware hit handler blocks once, with the skip flag cleared. -/
theorem cbHardwareBreakpoint_skipAtWait (ExceptionAddress : Nat) (uninit : BREAKPOINT) (s : Dbg) :
    skipAtWait (emitted s (cbHardwareBreakpoint ExceptionAddress uninit s)) = [false] := by
  rcases Option.eq_none_or_eq_some (BpGet ExceptionAddress .BPHARDWARE s) with hget | ⟨bp, hget⟩
  · simp only [BpGet] at hget
    simp only [cbHardwareBreakpoint, BpGet, GetContextDataEx, ThreadGetHandle, emitted,
      SymGetSymbolicName, hget]
    simp [emit, plugincbcall, dputs, GuiSetDebugState, DebugUpdateGui, lock, wait, skipAtWait]
  · simp only [BpGet] at hget
    simp only [cbHardwareBreakpoint, BpGet, GetContextDataEx, ThreadGetHandle, emitted,
      SymGetSymbolicName, hget]
    cases hsym : s.symbolicNames.lookup bp.addr <;>
    by_cases hname : bp.name = "" <;>
    simp [hname, emit, plugincbcall, dputs, dprintf, GuiSetDebugState, DebugUpdateGui, lock, wait,
      skipAtWait, hsym]

/-- The software hit handler blocks once, with the skip flag cleared. -/
theorem cbUserBreakpoint_skipAtWait (uninit : BREAKPOINT) (s : Dbg) :
    skipAtWait (emitted s (cbUserBreakpoint uninit s)) = [false] := by
  rcases Option.eq_none_or_eq_some
    (BpGet (GetContextDataEx (ThreadGetHandle s.dwThreadId s) s) .BPNORMAL s) with
    hget | ⟨bp, hget⟩
  · simp only [BpGet, GetContextDataEx, ThreadGetHandle] at hget
    simp only [cbUserBreakpoint, BpGet, GetContextDataEx, ThreadGetHandle, emitted,
      SymGetSymbolicName, hget]
    cases hen : uninit.enabled <;>
    cases hsym : s.symbolicNames.lookup uninit.addr <;>
    cases hss : uninit.singleshoot <;>
    by_cases hname : uninit.name = "" <;>
    simp [hname, emit, plugincbcall, dputs, dprintf, GuiSetDebugState, DebugUpdateGui, lock, wait,
      BpDelete, skipAtWait, hsym, hss, hen]
  · simp only [BpGet, GetContextDataEx, ThreadGetHandle] at hget
    simp only [cbUserBreakpoint, BpGet, GetContextDataEx, ThreadGetHandle, emitted,
      SymGetSymbolicName, hget]
    cases hsym : s.symbolicNames.lookup bp.addr <;>
    cases hss : bp.singleshoot <;>
    by_cases hname : bp.name = "" <;>
    simp [hname, emit, plugincbcall, dputs, dprintf, GuiSetDebugState, DebugUpdateGui, lock, wait,
      BpDelete, skipAtWait, hsym, hss]

/-- The memory hit handler blocks once, with the skip flag cleared. -/
theorem cbMemoryBreakpoint_skipAtWait (ExceptionAddress : Nat) (uninit : BREAKPOINT) (s : Dbg) :
    skipAtWait (emitted s (cbMemoryBreakpoint ExceptionAddress uninit s)) = [false] := by
  rcases Option.eq_none_or_eq_some
    (BpGet (MemFindBaseAddr ExceptionAddress s).1 .BPMEMORY s) with hget | ⟨bp, hget⟩
  · simp only [BpGet, MemFindBaseAddr] at hget
    simp only [cbMemoryBreakpoint, BpGet, MemFindBaseAddr, GetContextDataEx, ThreadGetHandle,
      emitted, SymGetSymbolicName, hget]
    cases hss : uninit.singleshoot <;>
    simp [emit, plugincbcall, dputs, dprintf, GuiSetDebugState, DebugUpdateGui, lock, wait,
      BpDelete, skipAtWait, hss]
  · simp only [BpGet, MemFindBaseAddr] at hget
    simp only [cbMemoryBreakpoint, BpGet, MemFindBaseAddr, GetContextDataEx, ThreadGetHandle,
      emitted, SymGetSymbolicName, hget]
    cases hsym : s.symbolicNames.lookup bp.addr <;>
    cases hss : bp.singleshoot <;>
    by_cases hname : bp.name = "" <;>
    simp [hname, emit, plugincbcall, dputs, dprintf, GuiSetDebugState, DebugUpdateGui, lock, wait,
      BpDelete, skipAtWait, hsym, hss]

theorem skipAtWait_append_untouched (P L : List Event) (h : runUntouched P = true) :
    skipAtWait (P ++ L) = skipAtWait L := by
  induction P with
  | nil => rfl
  | cons e P ih =>
    simp only [runUntouched, List.all_cons, Bool.and_eq_true, Bool.not_eq_true'] at h
    have ih2 := ih (by simpa [runUntouched] using h.2)
    have hw := h.1.2
    cases e with
    | wait id b =>
      cases id
      · simp [Event.isWaitRun] at hw
      · simpa [skipAtWait] using ih2
    | _ => simpa [skipAtWait] using ih2

theorem cbExceptionRest_skipAtWait (e : EXCEPTION_DEBUG_INFO) (a : Nat) (s0 s : Dbg)
    (P : List Event) (hP : s.events = s0.events ++ P) (hU : runUntouched P = true) :
    ∀ b ∈ skipAtWait (emitted s0 (cbExceptionRest e a s)), b = false := by
  rw [emitted_of_append s0 _ _ (by rw [cbExceptionRest_events, hP, List.append_assoc]),
    skipAtWait_append_untouched P _ hU]
  have hline : skipAtWait (exceptionLogLine e a s :: ([] : List Event)) = [] := by
    unfold exceptionLogLine
    split <;> split <;> rfl
  intro b hb
  rw [← List.singleton_append, skipAtWait_append_untouched [exceptionLogLine e a s] _ (by
    unfold exceptionLogLine
    split <;> split <;> rfl)] at hb
  split at hb
  · simp [skipAtWait] at hb
  · simpa [skipAtWait, exceptionPauseCalls] using hb

/-- The skip flag is false at every block of `cbException`. -/
theorem cbException_skipAtWait (e : EXCEPTION_DEBUG_INFO) (s : Dbg) :
    ∀ b ∈ skipAtWait (emitted s (cbException e s)), b = false := by
  by_cases hbp : e.ExceptionCode = EXCEPTION_BREAKPOINT
  · cases hd : s.isDetachedByUser
    · cases hp : s.isPausedByUser
      · rw [cbException_trap e s hbp hd hp]
        exact cbExceptionRest_skipAtWait e _ s _
          [.call "GuiSetLastException" [.num e.ExceptionCode]]
          (by simp [SetContextDataEx, emit]) (by rfl)
      · rw [cbException_userPause_events e s hbp hd hp]
        simp [skipAtWait]
    · rw [cbException_detach_events e s hbp hd]
      simp [skipAtWait]
  · by_cases hms : e.ExceptionCode = MS_VC_EXCEPTION
    · obtain ⟨P, hP, hU, -, -⟩ := cbExceptionThreadName_frame e
        (emit (.call "GuiSetLastException" [.num e.ExceptionCode])
          { s with hActiveThread := ThreadGetHandle s.dwThreadId s })
      rw [cbException_threadName e s hms]
      exact cbExceptionRest_skipAtWait e _ s _
        (.call "GuiSetLastException" [.num e.ExceptionCode] :: P)
        (by rw [hP]; simp [emit])
        (by simpa [runUntouched, Event.isLockRun, Event.isWaitRun] using hU)
    · rw [cbException_other e s hbp hms]
      exact cbExceptionRest_skipAtWait e _ s _
        [.call "GuiSetLastException" [.num e.ExceptionCode]] (by simp [emit]) (by rfl)

/-- Handler `cbCreateThread` leaves the skip flag alone: when the pause option is on it
blocks once, with the flag as it was on arrival. -/
theorem cbCreateThread_skipAtWait (CreateThread : CREATE_THREAD_DEBUG_INFO) (s : Dbg)
    (h : settingboolget "Events" "ThreadStart" s = true) :
    skipAtWait (emitted s (cbCreateThread CreateThread s)) = [s.bSkipExceptions] ∧
    (cbCreateThread CreateThread s).bSkipExceptions = s.bSkipExceptions := by
  simp only [settingboolget, decide_eq_true_eq] at h
  simp only [cbCreateThread, settingboolget, ThreadCreate, emitted, emit, plugincbcall, dprintf,
    cmddirectexec]
  by_cases h1 : ("Events", "ThreadEntry") ∈ s.settings <;>
  simp [h, h1, emit, plugincbcall, GuiSetDebugState, DebugUpdateGui, lock, wait, skipAtWait,
    dbggetprivateusage_eq]

/-- Handler `cbExitThread` leaves the skip flag alone: when the pause option is on it
blocks once, with the flag as it was on arrival. -/
theorem cbExitThread_skipAtWait (s : Dbg) (h : settingboolget "Events" "ThreadEnd" s = true) :
    skipAtWait (emitted s (cbExitThread s)) = [s.bSkipExceptions] ∧
    (cbExitThread s).bSkipExceptions = s.bSkipExceptions := by
  simp only [settingboolget, decide_eq_true_eq] at h
  simp [cbExitThread, settingboolget, ThreadExit, emitted, emit, plugincbcall, dprintf, h,
    GuiSetDebugState, DebugUpdateGui, lock, wait, skipAtWait]

/-- Handler `cbOutputDebugString` leaves the skip flag alone: when the pause option is
on it blocks once, with the flag as it was on arrival. -/
theorem cbOutputDebugString_skipAtWait (DebugString : OUTPUT_DEBUG_STRING_INFO) (s : Dbg)
    (h : settingboolget "Events" "DebugStrings" s = true) :
    skipAtWait (emitted s (cbOutputDebugString DebugString s)) = [s.bSkipExceptions] ∧
    (cbOutputDebugString DebugString s).bSkipExceptions = s.bSkipExceptions := by
  simp only [settingboolget, decide_eq_true_eq] at h
  simp only [cbOutputDebugString, settingboolget, emitted, emit, plugincbcall, dprintf, MemRead]
  by_cases hu : DebugString.fUnicode = 0
  · cases hr : (List.range DebugString.nDebugStringLength).mapM
        (fun i => s.memory.lookup (DebugString.lpDebugStringData + i)) with
    | none =>
      simp [hu, hr, h, emit, plugincbcall, GuiSetDebugState, DebugUpdateGui, lock, wait, skipAtWait]
    | some text =>
      dsimp only
      generalize cString text = str
      by_cases h2 : str = [10]
      · subst h2
        by_cases h1 : [10] = s.lastDebugText <;>
        simp [hu, hr, h, h1, emit, plugincbcall, GuiSetDebugState, DebugUpdateGui, lock, wait,
          skipAtWait]
      · by_cases h1 : str = s.lastDebugText <;>
        simp [hu, hr, h, h1, h2, emit, plugincbcall, GuiSetDebugState, DebugUpdateGui, lock, wait,
          skipAtWait]
  · simp [hu, h, emit, plugincbcall, GuiSetDebugState, DebugUpdateGui, lock, wait, skipAtWait]

/-- Removing the trap of one registry entry makes no call on gate `RUN` and
changes no session flag and no setting. -/
theorem cbRemoveModuleBreakpoints_frame (bp : BREAKPOINT) (s : Dbg) :
    ∃ P : List Event, (cbRemoveModuleBreakpoints bp s).2.events = s.events ++ P ∧
      runUntouched P = true ∧
      (cbRemoveModuleBreakpoints bp s).2.bSkipExceptions = s.bSkipExceptions ∧
      (cbRemoveModuleBreakpoints bp s).2.bBreakOnNextDll = s.bBreakOnNextDll ∧
      (cbRemoveModuleBreakpoints bp s).2.settings = s.settings := by
  refine ⟨emitted s (cbRemoveModuleBreakpoints bp s).2, ?_, ?_, ?_, ?_, ?_⟩ <;>
  simp only [cbRemoveModuleBreakpoints, emitted, DeleteBPX, RemoveMemoryBPX,
    DeleteHardwareBreakPoint, titanCall] <;>
  cases bp.enabled <;> cases bp.type <;>
  simp only [Bool.not_true, Bool.not_false, if_true, if_false, Bool.false_eq_true] <;>
  (try split_ifs) <;>
  simp [emit, dprintf, runUntouched, Event.isLockRun, Event.isWaitRun]

/-- Removing the traps of a module makes no call on gate `RUN` and changes no
session flag and no setting. -/
theorem BpEnumAll_remove_frame (Module : String) (s : Dbg) :
    ∃ P : List Event,
      (BpEnumAll cbRemoveModuleBreakpoints Module s).2.events = s.events ++ P ∧
      runUntouched P = true ∧
      (BpEnumAll cbRemoveModuleBreakpoints Module s).2.bSkipExceptions = s.bSkipExceptions ∧
      (BpEnumAll cbRemoveModuleBreakpoints Module s).2.bBreakOnNextDll = s.bBreakOnNextDll ∧
      (BpEnumAll cbRemoveModuleBreakpoints Module s).2.settings = s.settings := by
  unfold BpEnumAll
  generalize s.breakpoints.filter (fun b => b.mod = Module) = l
  have gen : ∀ (l : List BREAKPOINT) (acc : Bool × Dbg), ∃ P : List Event,
      (l.foldl (fun acc b => ((cbRemoveModuleBreakpoints b acc.2).1 && acc.1,
        (cbRemoveModuleBreakpoints b acc.2).2)) acc).2.events = acc.2.events ++ P ∧
      runUntouched P = true ∧
      (l.foldl (fun acc b => ((cbRemoveModuleBreakpoints b acc.2).1 && acc.1,
        (cbRemoveModuleBreakpoints b acc.2).2)) acc).2.bSkipExceptions = acc.2.bSkipExceptions ∧
      (l.foldl (fun acc b => ((cbRemoveModuleBreakpoints b acc.2).1 && acc.1,
        (cbRemoveModuleBreakpoints b acc.2).2)) acc).2.bBreakOnNextDll = acc.2.bBreakOnNextDll ∧
      (l.foldl (fun acc b => ((cbRemoveModuleBreakpoints b acc.2).1 && acc.1,
        (cbRemoveModuleBreakpoints b acc.2).2)) acc).2.settings = acc.2.settings := by
    intro l
    induction l with
    | nil => intro acc; exact ⟨[], by simp, rfl, rfl, rfl, rfl⟩
    | cons b l ih =>
      intro acc
      obtain ⟨P1, h1, u1, a1, b1, c1⟩ := cbRemoveModuleBreakpoints_frame b acc.2
      obtain ⟨P2, h2, u2, a2, b2, c2⟩ := ih ((cbRemoveModuleBreakpoints b acc.2).1 && acc.1,
        (cbRemoveModuleBreakpoints b acc.2).2)
      refine ⟨P1 ++ P2, ?_, ?_, ?_, ?_, ?_⟩
      · simp only [List.foldl_cons]
        rw [h2]
        simp only [h1, List.append_assoc]
      · simp only [runUntouched, List.all_append, Bool.and_eq_true] at u1 u2 ⊢
        exact ⟨u1, u2⟩
      · simp only [List.foldl_cons]
        rw [a2]; exact a1
      · simp only [List.foldl_cons]
        rw [b2]; exact b1
      · simp only [List.foldl_cons]
        rw [c2]; exact c1
  exact gen l (true, s)

theorem skipAtWait_untouched (P : List Event) (h : runUntouched P = true) : skipAtWait P = [] := by
  have := skipAtWait_append_untouched P [] h
  simpa [skipAtWait] using this

/-- Handler `cbUnloadDll` leaves the skip flag alone: when it pauses (a pending "break
on next module" request or the pause option) it blocks once, with the flag as
it was on arrival. -/
theorem cbUnloadDll_skipAtWait (lpBaseOfDll : Nat) (s : Dbg)
    (h : s.bBreakOnNextDll = true ∨ settingboolget "Events" "DllUnload" s = true) :
    skipAtWait (emitted s (cbUnloadDll lpBaseOfDll s)) = [s.bSkipExceptions] := by
  have mid : ∃ (t : Dbg) (P : List Event),
      t = (if (ModNameFromAddr lpBaseOfDll
              (plugincbcall .CB_UNLOADDLL none
                { s with hActiveThread := ThreadGetHandle s.dwThreadId s })).isSome = true then
            (BpEnumAll cbRemoveModuleBreakpoints
              ((ModNameFromAddr lpBaseOfDll
                (plugincbcall .CB_UNLOADDLL none
                  { s with hActiveThread := ThreadGetHandle s.dwThreadId s })).getD "???")
              (plugincbcall .CB_UNLOADDLL none
                { s with hActiveThread := ThreadGetHandle s.dwThreadId s })).2
          else (plugincbcall .CB_UNLOADDLL none
                { s with hActiveThread := ThreadGetHandle s.dwThreadId s })) ∧
      t.events = s.events ++ P ∧ runUntouched P = true ∧
      t.bSkipExceptions = s.bSkipExceptions ∧ t.bBreakOnNextDll = s.bBreakOnNextDll ∧
      t.settings = s.settings := by
    split_ifs
    · obtain ⟨P, hP, hU, a, b, c⟩ := BpEnumAll_remove_frame
        ((ModNameFromAddr lpBaseOfDll
          (plugincbcall .CB_UNLOADDLL none
            { s with hActiveThread := ThreadGetHandle s.dwThreadId s })).getD "???")
        (plugincbcall .CB_UNLOADDLL none
          { s with hActiveThread := ThreadGetHandle s.dwThreadId s })
      exact ⟨_, .plugincbcall .CB_UNLOADDLL none :: P, rfl, by rw [hP]; simp [plugincbcall, emit],
        by simpa [runUntouched, Event.isLockRun, Event.isWaitRun] using hU,
        by rw [a]; rfl, by rw [b]; rfl, by rw [c]; rfl⟩
    · exact ⟨_, [.plugincbcall .CB_UNLOADDLL none], rfl, by simp [plugincbcall, emit], by rfl,
        rfl, rfl, rfl⟩
  obtain ⟨t, P, ht, hP, hU, hsk, hbr, hset⟩ := mid
  have hcond : (t.bBreakOnNextDll = true ∨ ("Events", "DllUnload") ∈ t.settings) := by
    rw [hbr, hset]
    simpa [settingboolget] using h
  simp only [cbUnloadDll, ← ht]
  rw [emitted_of_append s _ (P ++ _) (by
    simp [emit, dprintf, settingboolget, hcond, GuiSetDebugState, DebugUpdateGui, lock, wait,
      plugincbcall, ModUnload, dbggetprivateusage_eq, hP]
    rfl)]
  rw [skipAtWait_append_untouched P _ hU]
  simp [skipAtWait, hsk]

/-- On the sample session `cbLoadDll` pauses with the skip flag still set. -/
theorem cbLoadDll_skipAtWait_sample :
    returned (cbLoadDll sampleLoadDll skippingSession) = true ∧
    pausesIn (emitted skippingSession (reached (cbLoadDll sampleLoadDll skippingSession)))
      = true ∧
    skipAtWait (emitted skippingSession (reached (cbLoadDll sampleLoadDll skippingSession)))
      = [true] ∧
    (reached (cbLoadDll sampleLoadDll skippingSession)).bSkipExceptions = true := by
  decide

/-- C4: evaluated on a session in which the skip flag is set and the pause
options of the notifications are on.  The thread-created, thread-exited,
module-unloaded and debug-string handlers each pause (lock `RUN`, block on
`wait(RUN)`) with `bSkipExceptions` still true at the block, and it is still
true after the handler; on the same session `cbStep` blocks with the flag
false. -/
theorem C4_skip_flag_not_cleared_by_event_pauses :
    skippingSession.bSkipExceptions = true ∧
    (pausesIn (emitted skippingSession
        (cbCreateThread sampleThread skippingSession)) = true ∧
      skipAtWait (emitted skippingSession
        (cbCreateThread sampleThread skippingSession))
        = [true] ∧
      (cbCreateThread sampleThread skippingSession).bSkipExceptions = true) ∧
    (pausesIn (emitted skippingSession (cbExitThread skippingSession)) = true ∧
      skipAtWait (emitted skippingSession (cbExitThread skippingSession)) = [true]) ∧
    (pausesIn (emitted skippingSession (cbUnloadDll 0x10000000 skippingSession)) = true ∧
      skipAtWait (emitted skippingSession (cbUnloadDll 0x10000000 skippingSession)) = [true]) ∧
    (pausesIn (emitted skippingSession
        (cbOutputDebugString sampleDebugString skippingSession)) = true ∧
      skipAtWait (emitted skippingSession
        (cbOutputDebugString sampleDebugString skippingSession)) = [true]) ∧
    skipAtWait (emitted skippingSession (cbStep skippingSession)) = [false] := by
  decide

/-- C5: a breakpoint trap received while an operator detach is pending makes
`cbException` call the plugin detach callback and `DetachDebuggerEx`, log the
outcome and return; gate `RUN` is neither locked nor waited on, whatever the
first-chance indicator and the operator-pause flag are, and the detach flag is
false afterwards. -/
theorem C5_detach_pending_trap_never_pauses (e : EXCEPTION_DEBUG_INFO) (s : Dbg)
    (hbp : e.ExceptionCode = EXCEPTION_BREAKPOINT) (hd : s.isDetachedByUser = true) :
    emitted s (cbException e s) =
      [.call "GuiSetLastException" [.num e.ExceptionCode],
       .plugincbcall .CB_DETACH none,
       .titan (.DetachDebuggerEx s.dwProcessId)
         (decide (TitanOp.DetachDebuggerEx s.dwProcessId ∉ s.titan.refused)),
       .dputs (if TitanOp.DetachDebuggerEx s.dwProcessId ∉ s.titan.refused then "Detached!"
         else "DetachDebuggerEx failed...")] ∧
    runUntouched (emitted s (cbException e s)) = true ∧
    pausesIn (emitted s (cbException e s)) = false ∧
    (cbException e s).isDetachedByUser = false := by
  refine ⟨cbException_detach_events e s hbp hd, ?_, ?_, ?_⟩
  · rw [cbException_detach_events e s hbp hd]
    rfl
  · rw [cbException_detach_events e s hbp hd]
    rfl
  · by_cases hr : TitanOp.DetachDebuggerEx s.dwProcessId ∈ s.titan.refused <;>
    simp [cbException, hbp, hd, emit, plugincbcall, DetachDebuggerEx, titanCall, dputs, hr]

/-- C5 (witness): a last-chance breakpoint trap with both an operator detach
and an operator pause pending. -/
theorem C5_detach_pending_trap_never_pauses_witness :
    (exceptionAt EXCEPTION_BREAKPOINT 0).ExceptionCode = EXCEPTION_BREAKPOINT ∧
    (dbgsetisdetachedbyuser true (dbgsetispausedbyuser true startup)).isDetachedByUser = true ∧
    runUntouched (emitted (dbgsetisdetachedbyuser true (dbgsetispausedbyuser true startup))
      (cbException (exceptionAt EXCEPTION_BREAKPOINT 0)
        (dbgsetisdetachedbyuser true (dbgsetispausedbyuser true startup)))) = true ∧
    (cbException (exceptionAt EXCEPTION_BREAKPOINT 0)
      (dbgsetisdetachedbyuser true (dbgsetispausedbyuser true startup))).isDetachedByUser
        = false :=
  ⟨rfl, rfl,
    (C5_detach_pending_trap_never_pauses (exceptionAt EXCEPTION_BREAKPOINT 0)
      (dbgsetisdetachedbyuser true (dbgsetispausedbyuser true startup)) rfl rfl).2.1,
    (C5_detach_pending_trap_never_pauses (exceptionAt EXCEPTION_BREAKPOINT 0)
      (dbgsetisdetachedbyuser true (dbgsetispausedbyuser true startup)) rfl rfl).2.2.2⟩

/-- C6: a breakpoint trap received while an operator pause is pending and no
detach is pending sets the continuation status to `DBG_CONTINUE` and pauses
the session, whatever the first-chance indicator, the skip flag and the
ignored ranges are. -/
theorem C6_pause_pending_trap_always_pauses (e : EXCEPTION_DEBUG_INFO) (s : Dbg)
    (hbp : e.ExceptionCode = EXCEPTION_BREAKPOINT) (hd : s.isDetachedByUser = false)
    (hp : s.isPausedByUser = true) :
    (cbException e s).titan.continueStatus = DBG_CONTINUE ∧
    pausesIn (emitted s (cbException e s)) = true := by
  constructor
  · simp [cbException, hbp, hd, hp, emit, plugincbcall, dputs, SetNextDbgContinueStatus,
      GuiSetDebugState, dbggetprivateusage_eq, DebugUpdateGui, lock, wait]
  · rw [cbException_userPause_events e s hbp hd hp]
    rfl

/-- C6 (witness): a first-chance breakpoint trap with the skip flag set and
the trap code inside an ignored range. -/
theorem C6_pause_pending_trap_always_pauses_witness :
    (exceptionAt EXCEPTION_BREAKPOINT 1).ExceptionCode = EXCEPTION_BREAKPOINT ∧
    (dbgsetispausedbyuser true (dbgsetskipexceptions true
      (withRange 0x80000000 0x80000010 startup))).isDetachedByUser = false ∧
    (dbgsetispausedbyuser true (dbgsetskipexceptions true
      (withRange 0x80000000 0x80000010 startup))).isPausedByUser = true ∧
    (cbException (exceptionAt EXCEPTION_BREAKPOINT 1)
      (dbgsetispausedbyuser true (dbgsetskipexceptions true
        (withRange 0x80000000 0x80000010 startup)))).titan.continueStatus = DBG_CONTINUE ∧
    pausesIn (emitted (dbgsetispausedbyuser true (dbgsetskipexceptions true
        (withRange 0x80000000 0x80000010 startup)))
      (cbException (exceptionAt EXCEPTION_BREAKPOINT 1)
        (dbgsetispausedbyuser true (dbgsetskipexceptions true
          (withRange 0x80000000 0x80000010 startup))))) = true :=
  ⟨rfl, rfl, rfl,
    C6_pause_pending_trap_always_pauses (exceptionAt EXCEPTION_BREAKPOINT 1)
      (dbgsetispausedbyuser true (dbgsetskipexceptions true
        (withRange 0x80000000 0x80000010 startup))) rfl rfl rfl⟩

/-- C7 (amended): the thread-naming signal is decoded and then treated like
any other exception: it pauses the session exactly when it is last-chance, or
first-chance with the skip flag clear and its code in no ignored range; it does
not pause when it is first-chance and the skip flag is set or its code is
ignored. -/
theorem C7_thread_name_signal_pause_policy (e : EXCEPTION_DEBUG_INFO) (s : Dbg)
    (hms : e.ExceptionCode = MS_VC_EXCEPTION) :
    (pausesIn (emitted s (cbException e s)) = true ↔
      (e.dwFirstChance = 0 ∨
        (s.bSkipExceptions = false ∧ dbgisignoredexception MS_VC_EXCEPTION s = false))) := by
  have hne : e.ExceptionCode ≠ EXCEPTION_BREAKPOINT := by
    rw [hms]; decide
  rw [cbException_pauses_generic e s (fun h => absurd h hne), hms]
  simp

/-- C7 (witness): a first-chance thread-naming signal with the skip flag
clear and no ignored range. -/
theorem C7_thread_name_signal_pause_policy_witness :
    (exceptionAt MS_VC_EXCEPTION 1).ExceptionCode = MS_VC_EXCEPTION ∧
    (pausesIn (emitted startup (cbException (exceptionAt MS_VC_EXCEPTION 1) startup)) = true ↔
      ((exceptionAt MS_VC_EXCEPTION 1).dwFirstChance = 0 ∨
        (startup.bSkipExceptions = false ∧
          dbgisignoredexception MS_VC_EXCEPTION startup = false))) :=
  ⟨rfl, C7_thread_name_signal_pause_policy (exceptionAt MS_VC_EXCEPTION 1) startup rfl⟩

/-- C7 (counterexample): a first-chance thread-naming signal, with the skip
flag clear and no ignored range, locks gate `RUN` and blocks on `wait(RUN)`;
so does a last-chance one even with the skip flag set. -/
theorem C7_counterexample :
    (exceptionAt MS_VC_EXCEPTION 1).ExceptionCode = MS_VC_EXCEPTION ∧
    pausesIn (emitted startup (cbException (exceptionAt MS_VC_EXCEPTION 1) startup)) = true ∧
    runUntouched (emitted startup (cbException (exceptionAt MS_VC_EXCEPTION 1) startup))
      = false ∧
    pausesIn (emitted (dbgsetskipexceptions true startup)
      (cbException (exceptionAt MS_VC_EXCEPTION 0) (dbgsetskipexceptions true startup))) = true := by
  decide

/-- C8: for a code that is neither the breakpoint trap nor the thread-naming
signal, a first-chance exception gets continuation status "not handled" and
pauses if and only if the skip flag is false and the code is in no ignored
range; a last-chance exception gets continuation status "handled" and
pauses. -/
theorem C8_other_exception_policy (e : EXCEPTION_DEBUG_INFO) (s : Dbg)
    (hbp : e.ExceptionCode ≠ EXCEPTION_BREAKPOINT) (hms : e.ExceptionCode ≠ MS_VC_EXCEPTION) :
    (e.dwFirstChance ≠ 0 →
      (cbException e s).titan.continueStatus = DBG_EXCEPTION_NOT_HANDLED ∧
      (pausesIn (emitted s (cbException e s)) = true ↔
        (s.bSkipExceptions = false ∧ dbgisignoredexception e.ExceptionCode s = false))) ∧
    (e.dwFirstChance = 0 →
      (cbException e s).titan.continueStatus = DBG_CONTINUE ∧
      pausesIn (emitted s (cbException e s)) = true) := by
  have _ := hms
  rw [cbException_pauses_generic e s (fun h => absurd h hbp),
    cbException_status_generic e s (fun h => absurd h hbp)]
  constructor
  · intro hf
    simp [hf]
  · intro hl
    simp [hl]

/-- C8 (witness): an access violation, `0xC0000005`. -/
theorem C8_other_exception_policy_witness :
    (exceptionAt 0xC0000005 1).ExceptionCode ≠ EXCEPTION_BREAKPOINT ∧
    (exceptionAt 0xC0000005 1).ExceptionCode ≠ MS_VC_EXCEPTION ∧
    ((exceptionAt 0xC0000005 1).dwFirstChance ≠ 0 →
      (cbException (exceptionAt 0xC0000005 1) startup).titan.continueStatus
        = DBG_EXCEPTION_NOT_HANDLED ∧
      (pausesIn (emitted startup (cbException (exceptionAt 0xC0000005 1) startup)) = true ↔
        (startup.bSkipExceptions = false ∧
          dbgisignoredexception (exceptionAt 0xC0000005 1).ExceptionCode startup = false))) :=
  ⟨by decide, by decide,
    (C8_other_exception_policy (exceptionAt 0xC0000005 1) startup (by decide) (by decide)).1⟩

/-! ## Breakpoint hit handlers: results -/

/-- The software hit handler deletes a resolved entry once if it is
single-shot, and deletes nothing otherwise. -/
theorem cbUserBreakpoint_deletions (uninit bp : BREAKPOINT) (s : Dbg)
    (h : BpGet (GetContextDataEx (ThreadGetHandle s.dwThreadId s) s) .BPNORMAL s = some bp) :
    deletions (emitted s (cbUserBreakpoint uninit s)) =
      if bp.singleshoot then [(bp.addr, .BPNORMAL)] else [] := by
  simp only [BpGet, GetContextDataEx, ThreadGetHandle] at h
  simp only [cbUserBreakpoint, BpGet, GetContextDataEx, ThreadGetHandle, h, emitted,
    SymGetSymbolicName]
  cases hsym : s.symbolicNames.lookup bp.addr <;>
  cases hss : bp.singleshoot <;>
  by_cases hname : bp.name = "" <;>
  simp [hname, emit, plugincbcall, dputs, dprintf, GuiSetDebugState, DebugUpdateGui, lock, wait,
    BpDelete, deletions, hsym, hss]

/-- The memory hit handler deletes a resolved entry once if it is single-shot,
and deletes nothing otherwise. -/
theorem cbMemoryBreakpoint_deletions (ExceptionAddress : Nat) (uninit bp : BREAKPOINT) (s : Dbg)
    (h : BpGet (MemFindBaseAddr ExceptionAddress s).1 .BPMEMORY s = some bp) :
    deletions (emitted s (cbMemoryBreakpoint ExceptionAddress uninit s)) =
      if bp.singleshoot then [(bp.addr, .BPMEMORY)] else [] := by
  simp only [BpGet, MemFindBaseAddr] at h
  simp only [cbMemoryBreakpoint, BpGet, MemFindBaseAddr, GetContextDataEx, ThreadGetHandle, h,
    emitted, SymGetSymbolicName]
  cases hsym : s.symbolicNames.lookup bp.addr <;>
  cases hss : bp.singleshoot <;>
  by_cases hname : bp.name = "" <;>
  simp [hname, emit, plugincbcall, dputs, dprintf, GuiSetDebugState, DebugUpdateGui, lock, wait,
    BpDelete, deletions, hsym, hss]

/-- The hardware hit handler never deletes from the registry: it makes no
`BpDelete` call and leaves the registry as it was, whether or not it resolves
the trap and whatever the single-shot flag of the entry is. -/
theorem cbHardwareBreakpoint_deletions (ExceptionAddress : Nat) (uninit : BREAKPOINT) (s : Dbg) :
    deletions (emitted s (cbHardwareBreakpoint ExceptionAddress uninit s)) = [] ∧
    (cbHardwareBreakpoint ExceptionAddress uninit s).breakpoints = s.breakpoints := by
  rcases Option.eq_none_or_eq_some (BpGet ExceptionAddress .BPHARDWARE s) with hget | ⟨bp, hget⟩
  · simp only [BpGet] at hget
    simp only [cbHardwareBreakpoint, BpGet, GetContextDataEx, ThreadGetHandle, emitted,
      SymGetSymbolicName, hget]
    simp [emit, plugincbcall, dputs, GuiSetDebugState, DebugUpdateGui, lock, wait, deletions]
  · simp only [BpGet] at hget
    simp only [cbHardwareBreakpoint, BpGet, GetContextDataEx, ThreadGetHandle, emitted,
      SymGetSymbolicName, hget]
    cases hsym : s.symbolicNames.lookup bp.addr <;>
    by_cases hname : bp.name = "" <;>
    simp [hname, emit, plugincbcall, dputs, dprintf, GuiSetDebugState, DebugUpdateGui, lock, wait,
      deletions, hsym]

/-- C9: evaluated on a registry holding one single-shot entry at the trap
address.  The software and the memory hit handlers resolve it, delete it
exactly once (one `BpDelete` for its address and kind) and leave the registry
empty; the hardware hit handler resolves it as well, makes no `BpDelete` call
and leaves the entry in the registry when it blocks on `wait(RUN)`. -/
theorem C9_hardware_single_shot_not_deleted :
    (BpGet 0x401000 .BPNORMAL (withEntry (entryAt .BPNORMAL true))
        = some (entryAt .BPNORMAL true) ∧
      deletions (emitted (withEntry (entryAt .BPNORMAL true))
        (cbUserBreakpoint (entryAt .BPNORMAL false) (withEntry (entryAt .BPNORMAL true))))
        = [(0x401000, .BPNORMAL)] ∧
      (cbUserBreakpoint (entryAt .BPNORMAL false)
        (withEntry (entryAt .BPNORMAL true))).breakpoints = []) ∧
    (BpGet 0x401000 .BPMEMORY (withEntry (entryAt .BPMEMORY true))
        = some (entryAt .BPMEMORY true) ∧
      deletions (emitted (withEntry (entryAt .BPMEMORY true))
        (cbMemoryBreakpoint 0x401234 (entryAt .BPMEMORY false)
          (withEntry (entryAt .BPMEMORY true))))
        = [(0x401000, .BPMEMORY)] ∧
      (cbMemoryBreakpoint 0x401234 (entryAt .BPMEMORY false)
        (withEntry (entryAt .BPMEMORY true))).breakpoints = []) ∧
    (BpGet 0x401000 .BPHARDWARE (withEntry (entryAt .BPHARDWARE true))
        = some (entryAt .BPHARDWARE true) ∧
      (entryAt .BPHARDWARE true).singleshoot = true ∧
      deletions (emitted (withEntry (entryAt .BPHARDWARE true))
        (cbHardwareBreakpoint 0x401000 (entryAt .BPHARDWARE false)
          (withEntry (entryAt .BPHARDWARE true)))) = [] ∧
      pausesIn (emitted (withEntry (entryAt .BPHARDWARE true))
        (cbHardwareBreakpoint 0x401000 (entryAt .BPHARDWARE false)
          (withEntry (entryAt .BPHARDWARE true)))) = true ∧
      (cbHardwareBreakpoint 0x401000 (entryAt .BPHARDWARE false)
        (withEntry (entryAt .BPHARDWARE true))).breakpoints = [entryAt .BPHARDWARE true]) := by
  decide

/-! ## Installing a hardware breakpoint with no free slot: results -/

/-- C10: when all four debug-register slots are in use,
`GetUnusedHardwareBreakPointRegister` reports none free and
`cbSetModuleBreakpoints` on an enabled hardware entry returns false; it makes
no engine call and no registry call (its only call logs the diagnostic), so
the four programmed slots, the rest of the engine state and every registry
entry, its encoding included, are as before. -/
theorem C10_fifth_hardware_install_fails (bp : BREAKPOINT) (s : Dbg)
    (hen : bp.enabled = true) (hty : bp.type = .BPHARDWARE)
    (h0 : s.titan.dr0.isSome = true) (h1 : s.titan.dr1.isSome = true)
    (h2 : s.titan.dr2.isSome = true) (h3 : s.titan.dr3.isSome = true) :
    GetUnusedHardwareBreakPointRegister s = none ∧
    (cbSetModuleBreakpoints bp s).1 = false ∧
    (cbSetModuleBreakpoints bp s).2.titan = s.titan ∧
    (cbSetModuleBreakpoints bp s).2.breakpoints = s.breakpoints ∧
    emitted s (cbSetModuleBreakpoints bp s).2 =
      [.dputs "You can only set 4 hardware breakpoints"] := by
  have hnone : GetUnusedHardwareBreakPointRegister s = none := by
    cases h0' : s.titan.dr0 <;> cases h1' : s.titan.dr1 <;> cases h2' : s.titan.dr2 <;>
    cases h3' : s.titan.dr3 <;>
    simp [GetUnusedHardwareBreakPointRegister, h0', h1', h2', h3'] at h0 h1 h2 h3 ⊢
  refine ⟨hnone, ?_, ?_, ?_, ?_⟩ <;>
  simp [cbSetModuleBreakpoints, hen, hty, hnone, dputs, emit, emitted]

/-- C10 (witness): four hardware breakpoints hold the four slots and a fifth
enabled hardware entry is installed. -/
theorem C10_fifth_hardware_install_fails_witness :
    (hardwareEntry 0x401040 0).enabled = true ∧
    (hardwareEntry 0x401040 0).type = .BPHARDWARE ∧
    (cbSetModuleBreakpoints (hardwareEntry 0x401040 0) fourSlotsTaken).1 = false ∧
    (cbSetModuleBreakpoints (hardwareEntry 0x401040 0) fourSlotsTaken).2.titan
      = fourSlotsTaken.titan ∧
    (cbSetModuleBreakpoints (hardwareEntry 0x401040 0) fourSlotsTaken).2.breakpoints
      = fourSlotsTaken.breakpoints :=
  ⟨rfl, rfl,
    (C10_fifth_hardware_install_fails (hardwareEntry 0x401040 0) fourSlotsTaken
      rfl rfl rfl rfl rfl rfl).2.1,
    (C10_fifth_hardware_install_fails (hardwareEntry 0x401040 0) fourSlotsTaken
      rfl rfl rfl rfl rfl rfl).2.2.1,
    (C10_fifth_hardware_install_fails (hardwareEntry 0x401040 0) fourSlotsTaken
      rfl rfl rfl rfl rfl rfl).2.2.2.1⟩

/-! ## A hardware install declined for want of a slot: results -/

/-- C11 (counterexample): with all four slots taken, `cbSetModuleBreakpoints`
declines the fifth hardware entry and the entry is still marked enabled in the
registry, although no trap is installed for it. -/
theorem C11_counterexample :
    GetUnusedHardwareBreakPointRegister fourSlotsTaken = none ∧
    (cbSetModuleBreakpoints (hardwareEntry 0x401040 0) fourSlotsTaken).1 = false ∧
    registryEnabled 0x401040 .BPHARDWARE
      (cbSetModuleBreakpoints (hardwareEntry 0x401040 0) fourSlotsTaken).2 = true ∧
    trapInstalled 0x401040 .BPHARDWARE
      (cbSetModuleBreakpoints (hardwareEntry 0x401040 0) fourSlotsTaken).2 = false := by
  decide

/-- C11 (amended): when no debug-register slot is free, both install paths
leave the registry as it was, so the entry still exists with its enabled flag
unchanged: still enabled after `cbSetModuleBreakpoints`, which only handles
enabled entries, and still disabled after `cbEnableAllHardwareBreakpoints`,
which only handles disabled ones.  Each path emits one diagnostic line and makes
no other call. -/
theorem C11_declined_install_keeps_entry_and_flag (bp : BREAKPOINT) (s : Dbg)
    (hty : bp.type = .BPHARDWARE)
    (hreg : BpGet bp.addr .BPHARDWARE s = some bp)
    (hfull : GetUnusedHardwareBreakPointRegister s = none) :
    (bp.enabled = true →
      (cbSetModuleBreakpoints bp s).1 = false ∧
      (cbSetModuleBreakpoints bp s).2.breakpoints = s.breakpoints ∧
      BpGet bp.addr .BPHARDWARE (cbSetModuleBreakpoints bp s).2 = some bp ∧
      registryEnabled bp.addr .BPHARDWARE (cbSetModuleBreakpoints bp s).2 = true ∧
      emitted s (cbSetModuleBreakpoints bp s).2 =
        [.dputs "You can only set 4 hardware breakpoints"]) ∧
    (bp.enabled = false →
      (cbEnableAllHardwareBreakpoints bp s).1 = true ∧
      (cbEnableAllHardwareBreakpoints bp s).2.breakpoints = s.breakpoints ∧
      BpGet bp.addr .BPHARDWARE (cbEnableAllHardwareBreakpoints bp s).2 = some bp ∧
      registryEnabled bp.addr .BPHARDWARE (cbEnableAllHardwareBreakpoints bp s).2 = false ∧
      emitted s (cbEnableAllHardwareBreakpoints bp s).2 =
        [.dprintf ("Did not enable hardware breakpoint " ++ fhex ++ " (all slots full)\n")
          [.num bp.addr]]) := by
  simp only [BpGet, Bool.decide_and] at hreg
  constructor <;> intro hen <;>
  simp [cbSetModuleBreakpoints, cbEnableAllHardwareBreakpoints, hen, hty, hfull, dputs, dprintf,
    emit, emitted, registryEnabled, BpGet, hreg]

/-- C11 (witness): the fifth hardware entry with all four slots taken. -/
theorem C11_declined_install_keeps_entry_and_flag_witness :
    (hardwareEntry 0x401040 0).type = .BPHARDWARE ∧
    BpGet 0x401040 .BPHARDWARE fourSlotsTaken = some (hardwareEntry 0x401040 0) ∧
    GetUnusedHardwareBreakPointRegister fourSlotsTaken = none ∧
    registryEnabled 0x401040 .BPHARDWARE
      (cbSetModuleBreakpoints (hardwareEntry 0x401040 0) fourSlotsTaken).2 = true :=
  ⟨rfl, by decide, by decide,
    ((C11_declined_install_keeps_entry_and_flag (hardwareEntry 0x401040 0) fourSlotsTaken
      rfl (by decide) (by decide)).1 rfl).2.2.2.1⟩

/-! ## Bulk enable and disable on an entry that needs nothing: results -/

/-- C14: each of the six bulk enable and disable callbacks, given an entry that
is already in the requested state or that is of another kind than the
callback's, returns true and hands back the state it was given: no registry
field changes and no call at all is made, so none on the target. -/
theorem C14_bulk_callbacks_skip_settled_and_foreign_entries (bp : BREAKPOINT) (s : Dbg) :
    (bp.type ≠ .BPNORMAL ∨ bp.enabled = true → cbEnableAllBreakpoints bp s = (true, s)) ∧
    (bp.type ≠ .BPNORMAL ∨ bp.enabled = false → cbDisableAllBreakpoints bp s = (true, s)) ∧
    (bp.type ≠ .BPHARDWARE ∨ bp.enabled = true →
      cbEnableAllHardwareBreakpoints bp s = (true, s)) ∧
    (bp.type ≠ .BPHARDWARE ∨ bp.enabled = false →
      cbDisableAllHardwareBreakpoints bp s = (true, s)) ∧
    (bp.type ≠ .BPMEMORY ∨ bp.enabled = true → cbEnableAllMemoryBreakpoints bp s = (true, s)) ∧
    (bp.type ≠ .BPMEMORY ∨ bp.enabled = false →
      cbDisableAllMemoryBreakpoints bp s = (true, s)) := by
  refine ⟨?_, ?_, ?_, ?_, ?_, ?_⟩ <;> intro h <;>
  simp [cbEnableAllBreakpoints, cbDisableAllBreakpoints, cbEnableAllHardwareBreakpoints,
    cbDisableAllHardwareBreakpoints, cbEnableAllMemoryBreakpoints, cbDisableAllMemoryBreakpoints,
    h]

/-- C14 (witness): the enabled software entry at `0x401000` is left alone by
the software enable callback, being enabled already, and by the hardware and
memory callbacks, being of another kind. -/
theorem C14_bulk_callbacks_skip_settled_and_foreign_entries_witness :
    cbEnableAllBreakpoints (entryAt .BPNORMAL false) (withEntry (entryAt .BPNORMAL false))
      = (true, withEntry (entryAt .BPNORMAL false)) ∧
    cbDisableAllHardwareBreakpoints (entryAt .BPNORMAL false)
      (withEntry (entryAt .BPNORMAL false)) = (true, withEntry (entryAt .BPNORMAL false)) ∧
    cbEnableAllMemoryBreakpoints (entryAt .BPNORMAL false)
      (withEntry (entryAt .BPNORMAL false)) = (true, withEntry (entryAt .BPNORMAL false)) :=
  ⟨(C14_bulk_callbacks_skip_settled_and_foreign_entries (entryAt .BPNORMAL false)
      (withEntry (entryAt .BPNORMAL false))).1 (Or.inr rfl),
   (C14_bulk_callbacks_skip_settled_and_foreign_entries (entryAt .BPNORMAL false)
      (withEntry (entryAt .BPNORMAL false))).2.2.2.1 (Or.inl (by decide)),
   (C14_bulk_callbacks_skip_settled_and_foreign_entries (entryAt .BPNORMAL false)
      (withEntry (entryAt .BPNORMAL false))).2.2.2.2.1 (Or.inl (by decide))⟩

/-! ## A refused engine call in a bulk callback: results -/

/-- Looking up the entries selected by `p` after updating exactly those
entries with `g`, when `g` keeps an entry selected. -/
theorem find_map_update (p : BREAKPOINT → Prop) [DecidablePred p] (g : BREAKPOINT → BREAKPOINT)
    (hg : ∀ b, p b → p (g b)) (l : List BREAKPOINT) :
    (l.map (fun b => if p b then g b else b)).find? (fun b => decide (p b)) =
      (l.find? (fun b => decide (p b))).map g := by
  induction l with
  | nil => rfl
  | cons b l ih =>
    by_cases h : p b
    · simp [List.find?_cons, h, hg b h]
    · simp [List.find?_cons, h, ih]

/-- After `BpEnable` the entry of that address and kind carries the new flag. -/
theorem BpGet_BpEnable (addr : Nat) (type : BP_TYPE) (enable : Bool) (s : Dbg) :
    BpGet addr type (BpEnable addr type enable s).2 =
      (BpGet addr type s).map (fun b => { b with enabled := enable }) := by
  simp only [BpGet, BpEnable, emit]
  exact find_map_update (fun b => b.addr = addr ∧ b.type = type)
    (fun b => { b with enabled := enable }) (fun b h => h) _

/-- After `BpSetTitanType` the entry of that address and kind carries the new
encoding. -/
theorem BpGet_BpSetTitanType (addr : Nat) (type : BP_TYPE) (titantype : Nat) (s : Dbg) :
    BpGet addr type (BpSetTitanType addr type titantype s).2 =
      (BpGet addr type s).map (fun b => { b with titantype := titantype }) := by
  simp only [BpGet, BpSetTitanType, emit]
  exact find_map_update (fun b => b.addr = addr ∧ b.type = type)
    (fun b => { b with titantype := titantype }) (fun b h => h) _

/-- After `BpDelete` the registry has no entry of that address and kind. -/
theorem BpGet_BpDelete (addr : Nat) (type : BP_TYPE) (s : Dbg) :
    BpGet addr type (BpDelete addr type s).2 = none := by
  simp only [BpGet, BpDelete, emit, List.find?_eq_none, List.mem_filter]
  rintro b ⟨-, hb⟩
  simp only [decide_not, Bool.not_eq_true', decide_eq_false_iff_not] at hb
  simpa using hb

/-- What `BpEnable` does besides the flag: it reports whether the entry exists,
leaves the engine alone and records its call. -/
theorem BpEnable_facts (addr : Nat) (type : BP_TYPE) (enable : Bool) (s : Dbg) :
    (BpEnable addr type enable s).1 = (BpGet addr type s).isSome ∧
    (BpEnable addr type enable s).2.titan = s.titan ∧
    (BpEnable addr type enable s).2.events = s.events ++ [.BpEnable addr type enable] := by
  simp [BpEnable, emit]

/-- What `BpDelete` does besides the deletion. -/
theorem BpDelete_facts (addr : Nat) (type : BP_TYPE) (s : Dbg) :
    (BpDelete addr type s).1 = (BpGet addr type s).isSome ∧
    (BpDelete addr type s).2.titan = s.titan ∧
    (BpDelete addr type s).2.events = s.events ++ [.BpDelete addr type] := by
  simp [BpDelete, emit]

/-- What `BpSetTitanType` does besides the encoding. -/
theorem BpSetTitanType_facts (addr : Nat) (type : BP_TYPE) (titantype : Nat) (s : Dbg) :
    (BpSetTitanType addr type titantype s).2.titan = s.titan ∧
    (BpSetTitanType addr type titantype s).2.events
      = s.events ++ [.BpSetTitanType addr type titantype] := by
  simp [BpSetTitanType, emit]

/-- Call `SetBPX` refused in `cbEnableAllBreakpoints`: the entry stays enabled. -/
theorem cbEnableAllBreakpoints_refused (bp : BREAKPOINT) (s : Dbg)
    (hreg : BpGet bp.addr bp.type s = some bp) (hty : bp.type = .BPNORMAL)
    (hen : bp.enabled = false) (href : TitanOp.SetBPX bp.addr bp.titantype ∈ s.titan.refused) :
    refusedOutcome (cbEnableAllBreakpoints bp s) s bp.addr .BPNORMAL (some true)
      ("Could not enable breakpoint " ++ fhex ++ " (SetBPX)\n") := by
  rw [hty] at hreg
  have hE := BpGet_BpEnable bp.addr .BPNORMAL true s
  obtain ⟨h1, h2, h3⟩ := BpEnable_facts bp.addr .BPNORMAL true s
  rw [hreg] at hE h1
  simp only [refusedOutcome, cbEnableAllBreakpoints]
  generalize BpEnable bp.addr .BPNORMAL true s = r at hE h1 h2 h3 ⊢
  simp only [BpGet, Bool.decide_and, Option.map_some'] at hE
  simp [hty, hen, h1, h2, SetBPX, titanCall, href, emit, dprintf, emitted, h3, BpGet, hE]

/-- Call `DeleteBPX` refused in `cbDisableAllBreakpoints`: the entry stays disabled. -/
theorem cbDisableAllBreakpoints_refused (bp : BREAKPOINT) (s : Dbg)
    (hreg : BpGet bp.addr bp.type s = some bp) (hty : bp.type = .BPNORMAL)
    (hen : bp.enabled = true) (href : TitanOp.DeleteBPX bp.addr ∈ s.titan.refused) :
    refusedOutcome (cbDisableAllBreakpoints bp s) s bp.addr .BPNORMAL (some false)
      ("Could not disable breakpoint " ++ fhex ++ " (DeleteBPX)\n") := by
  rw [hty] at hreg
  have hE := BpGet_BpEnable bp.addr .BPNORMAL false s
  obtain ⟨h1, h2, h3⟩ := BpEnable_facts bp.addr .BPNORMAL false s
  rw [hreg] at hE h1
  simp only [refusedOutcome, cbDisableAllBreakpoints]
  generalize BpEnable bp.addr .BPNORMAL false s = r at hE h1 h2 h3 ⊢
  simp only [BpGet, Bool.decide_and, Option.map_some'] at hE
  simp [hty, hen, h1, h2, DeleteBPX, titanCall, href, emit, dprintf, emitted, h3, BpGet, hE]

/-- Call `DeleteBPX` refused in `cbDeleteAllBreakpoints`: the entry stays deleted. -/
theorem cbDeleteAllBreakpoints_refused (bp : BREAKPOINT) (s : Dbg)
    (hreg : BpGet bp.addr bp.type s = some bp) (hty : bp.type = .BPNORMAL)
    (hen : bp.enabled = true) (href : TitanOp.DeleteBPX bp.addr ∈ s.titan.refused) :
    refusedOutcome (cbDeleteAllBreakpoints bp s) s bp.addr .BPNORMAL none
      ("Delete breakpoint failed (DeleteBPX): " ++ fhex ++ "\n") := by
  rw [hty] at hreg
  have hE := BpGet_BpDelete bp.addr .BPNORMAL s
  obtain ⟨h1, h2, h3⟩ := BpDelete_facts bp.addr .BPNORMAL s
  rw [hreg] at h1
  simp only [refusedOutcome, cbDeleteAllBreakpoints]
  generalize BpDelete bp.addr .BPNORMAL s = r at hE h1 h2 h3 ⊢
  simp only [BpGet, Bool.decide_and] at hE
  simp [hty, hen, h1, h2, DeleteBPX, titanCall, href, emit, dprintf, emitted, h3, BpGet, hE]

/-- Call `DeleteHardwareBreakPoint` refused in `cbDisableAllHardwareBreakpoints`: the entry
stays disabled. -/
theorem cbDisableAllHardwareBreakpoints_refused (bp : BREAKPOINT) (s : Dbg)
    (hreg : BpGet bp.addr bp.type s = some bp) (hty : bp.type = .BPHARDWARE)
    (hen : bp.enabled = true)
    (href : TitanOp.DeleteHardwareBreakPoint (TITANGETDRX bp.titantype) ∈ s.titan.refused) :
    refusedOutcome (cbDisableAllHardwareBreakpoints bp s) s bp.addr .BPHARDWARE (some false)
      ("Could not disable hardware breakpoint " ++ fhex ++ " (DeleteHardwareBreakPoint)\n") := by
  rw [hty] at hreg
  have hE := BpGet_BpEnable bp.addr .BPHARDWARE false s
  obtain ⟨h1, h2, h3⟩ := BpEnable_facts bp.addr .BPHARDWARE false s
  rw [hreg] at hE h1
  simp only [refusedOutcome, cbDisableAllHardwareBreakpoints]
  generalize BpEnable bp.addr .BPHARDWARE false s = r at hE h1 h2 h3 ⊢
  simp only [BpGet, Bool.decide_and, Option.map_some'] at hE
  simp [hty, hen, h1, h2, DeleteHardwareBreakPoint, titanCall, href, emit, dprintf, emitted, h3,
    BpGet, hE]

/-- Call `DeleteHardwareBreakPoint` refused in `cbDeleteAllHardwareBreakpoints`: the entry
stays deleted. -/
theorem cbDeleteAllHardwareBreakpoints_refused (bp : BREAKPOINT) (s : Dbg)
    (hreg : BpGet bp.addr bp.type s = some bp) (hty : bp.type = .BPHARDWARE)
    (hen : bp.enabled = true)
    (href : TitanOp.DeleteHardwareBreakPoint (TITANGETDRX bp.titantype) ∈ s.titan.refused) :
    refusedOutcome (cbDeleteAllHardwareBreakpoints bp s) s bp.addr .BPHARDWARE none
      ("Delete hardware breakpoint failed (DeleteHardwareBreakPoint): " ++ fhex ++ "\n") := by
  rw [hty] at hreg
  have hE := BpGet_BpDelete bp.addr .BPHARDWARE s
  obtain ⟨h1, h2, h3⟩ := BpDelete_facts bp.addr .BPHARDWARE s
  rw [hreg] at h1
  simp only [refusedOutcome, cbDeleteAllHardwareBreakpoints]
  generalize BpDelete bp.addr .BPHARDWARE s = r at hE h1 h2 h3 ⊢
  simp only [BpGet, Bool.decide_and] at hE
  simp [hty, hen, h1, h2, DeleteHardwareBreakPoint, titanCall, href, emit, dprintf, emitted, h3,
    BpGet, hE]

/-- Call `SetMemoryBPXEx` refused in `cbEnableAllMemoryBreakpoints`: the entry stays
enabled. -/
theorem cbEnableAllMemoryBreakpoints_refused (bp : BREAKPOINT) (s : Dbg)
    (hreg : BpGet bp.addr bp.type s = some bp) (hty : bp.type = .BPMEMORY)
    (hen : bp.enabled = false)
    (href : TitanOp.SetMemoryBPXEx bp.addr (MemFindBaseAddr bp.addr s).2 bp.titantype
      (!bp.singleshoot) ∈ s.titan.refused) :
    refusedOutcome (cbEnableAllMemoryBreakpoints bp s) s bp.addr .BPMEMORY (some true)
      ("Could not enable memory breakpoint " ++ fhex ++ " (SetMemoryBPXEx)\n") := by
  rw [hty] at hreg
  have hE := BpGet_BpEnable bp.addr .BPMEMORY true s
  obtain ⟨h1, h2, h3⟩ := BpEnable_facts bp.addr .BPMEMORY true s
  rw [hreg] at hE h1
  simp only [refusedOutcome, cbEnableAllMemoryBreakpoints]
  generalize BpEnable bp.addr .BPMEMORY true s = r at hE h1 h2 h3 ⊢
  generalize (MemFindBaseAddr bp.addr s).2 = size at href ⊢
  simp only [BpGet, Bool.decide_and, Option.map_some'] at hE
  simp [hty, hen, h1, h2, SetMemoryBPXEx, titanCall, href, emit, dprintf, emitted, h3, BpGet, hE]

/-- Call `RemoveMemoryBPX` refused in `cbDisableAllMemoryBreakpoints`: the entry stays
disabled. -/
theorem cbDisableAllMemoryBreakpoints_refused (bp : BREAKPOINT) (s : Dbg)
    (hreg : BpGet bp.addr bp.type s = some bp) (hty : bp.type = .BPMEMORY)
    (hen : bp.enabled = true) (href : TitanOp.RemoveMemoryBPX bp.addr 0 ∈ s.titan.refused) :
    refusedOutcome (cbDisableAllMemoryBreakpoints bp s) s bp.addr .BPMEMORY (some false)
      ("Could not disable memory breakpoint " ++ fhex ++ " (RemoveMemoryBPX)\n") := by
  rw [hty] at hreg
  have hE := BpGet_BpEnable bp.addr .BPMEMORY false s
  obtain ⟨h1, h2, h3⟩ := BpEnable_facts bp.addr .BPMEMORY false s
  rw [hreg] at hE h1
  simp only [refusedOutcome, cbDisableAllMemoryBreakpoints]
  generalize BpEnable bp.addr .BPMEMORY false s = r at hE h1 h2 h3 ⊢
  simp only [BpGet, Bool.decide_and, Option.map_some'] at hE
  simp [hty, hen, h1, h2, RemoveMemoryBPX, titanCall, href, emit, dprintf, emitted, h3, BpGet, hE]

/-- Call `RemoveMemoryBPX` refused in `cbDeleteAllMemoryBreakpoints`: the entry stays
deleted. -/
theorem cbDeleteAllMemoryBreakpoints_refused (uninit : Nat) (bp : BREAKPOINT) (s : Dbg)
    (hreg : BpGet bp.addr bp.type s = some bp) (hty : bp.type = .BPMEMORY)
    (hen : bp.enabled = true)
    (href : TitanOp.RemoveMemoryBPX bp.addr (MemFindBaseAddrInto bp.addr uninit s).2
      ∈ s.titan.refused) :
    refusedOutcome (cbDeleteAllMemoryBreakpoints uninit bp s) s bp.addr .BPMEMORY none
      ("Delete memory breakpoint failed (RemoveMemoryBPX): " ++ fhex ++ "\n") := by
  rw [hty] at hreg
  have hE := BpGet_BpDelete bp.addr .BPMEMORY s
  obtain ⟨h1, h2, h3⟩ := BpDelete_facts bp.addr .BPMEMORY s
  rw [hreg] at h1
  simp only [refusedOutcome, cbDeleteAllMemoryBreakpoints]
  generalize BpDelete bp.addr .BPMEMORY s = r at hE h1 h2 h3 ⊢
  generalize (MemFindBaseAddrInto bp.addr uninit s).2 = size at href ⊢
  simp only [BpGet, Bool.decide_and] at hE
  simp [hty, hen, h1, h2, RemoveMemoryBPX, titanCall, href, emit, dprintf, emitted, h3, BpGet, hE]

/-- Call `SetHardwareBreakPoint` refused in `cbEnableAllHardwareBreakpoints`: the entry
stays enabled. -/
theorem cbEnableAllHardwareBreakpoints_refused (bp : BREAKPOINT) (s : Dbg) (drx : Nat)
    (hreg : BpGet bp.addr bp.type s = some bp) (hty : bp.type = .BPHARDWARE)
    (hen : bp.enabled = false) (hslot : GetUnusedHardwareBreakPointRegister s = some drx)
    (href : TitanOp.SetHardwareBreakPoint bp.addr drx (TITANGETTYPE bp.titantype)
      (TITANGETSIZE bp.titantype) ∈ s.titan.refused) :
    refusedOutcome (cbEnableAllHardwareBreakpoints bp s) s bp.addr .BPHARDWARE (some true)
      ("Could not enable hardware breakpoint " ++ fhex ++ " (SetHardwareBreakPoint)\n") := by
  rw [hty] at hreg
  have hT := BpGet_BpSetTitanType bp.addr .BPHARDWARE (TITANSETDRX bp.titantype drx) s
  obtain ⟨t2, t3⟩ := BpSetTitanType_facts bp.addr .BPHARDWARE (TITANSETDRX bp.titantype drx) s
  rw [hreg] at hT
  simp only [refusedOutcome, cbEnableAllHardwareBreakpoints, hslot]
  generalize (BpSetTitanType bp.addr .BPHARDWARE (TITANSETDRX bp.titantype drx) s).2 = s1
    at hT t2 t3 ⊢
  have hE := BpGet_BpEnable bp.addr .BPHARDWARE true s1
  obtain ⟨h1, h2, h3⟩ := BpEnable_facts bp.addr .BPHARDWARE true s1
  rw [hT] at hE h1
  generalize BpEnable bp.addr .BPHARDWARE true s1 = r at hE h1 h2 h3 ⊢
  simp only [BpGet, Bool.decide_and, Option.map_some'] at hE
  simp [hty, hen, h1, h2, t2, t3, SetHardwareBreakPoint, titanCall, href, emit, dprintf, emitted,
    h3, BpGet, hE]

/-- C15 (counterexample): the engine refuses `SetBPX` while
`cbEnableAllBreakpoints` enables the disabled software entry at `0x401000`: the
callback returns false, the registry marks the entry enabled and no trap is
installed.  It refuses `DeleteBPX` while `cbDisableAllBreakpoints` disables the
installed entry: the registry marks it disabled and the trap is still
installed.  It refuses `DeleteBPX` in `cbDeleteAllBreakpoints`: the entry is gone
and the trap is still installed. -/
theorem C15_counterexample :
    (cbEnableAllBreakpoints (disabledEntryAt .BPNORMAL)
      (refusing [.SetBPX 0x401000 0x47] (withEntry (disabledEntryAt .BPNORMAL)))).1 = false ∧
    registryEnabled 0x401000 .BPNORMAL (cbEnableAllBreakpoints (disabledEntryAt .BPNORMAL)
      (refusing [.SetBPX 0x401000 0x47] (withEntry (disabledEntryAt .BPNORMAL)))).2 = true ∧
    trapInstalled 0x401000 .BPNORMAL (cbEnableAllBreakpoints (disabledEntryAt .BPNORMAL)
      (refusing [.SetBPX 0x401000 0x47] (withEntry (disabledEntryAt .BPNORMAL)))).2 = false ∧
    (cbDisableAllBreakpoints (entryAt .BPNORMAL false) softwareInstalled).1 = false ∧
    registryEnabled 0x401000 .BPNORMAL
      (cbDisableAllBreakpoints (entryAt .BPNORMAL false) softwareInstalled).2 = false ∧
    trapInstalled 0x401000 .BPNORMAL
      (cbDisableAllBreakpoints (entryAt .BPNORMAL false) softwareInstalled).2 = true ∧
    (cbDeleteAllBreakpoints (entryAt .BPNORMAL false) softwareInstalled).1 = false ∧
    BpGet 0x401000 .BPNORMAL
      (cbDeleteAllBreakpoints (entryAt .BPNORMAL false) softwareInstalled).2 = none ∧
    trapInstalled 0x401000 .BPNORMAL
      (cbDeleteAllBreakpoints (entryAt .BPNORMAL false) softwareInstalled).2 = true := by
  decide

/-- C15 (amended): when the engine refuses the install or remove call of a bulk
enable, disable or delete callback, the callback logs a diagnostic and returns
false, the engine state is as before the callback, and the registry change the
callback made before the engine call is kept: the entry is marked enabled
after a refused install, marked disabled after a refused remove in a disable
callback, and gone after a refused remove in a delete callback.  The registry
then disagrees with the target about this breakpoint. -/
theorem C15_refused_engine_call_keeps_registry_change (uninit drx : Nat) (bp : BREAKPOINT)
    (s : Dbg) (hreg : BpGet bp.addr bp.type s = some bp) :
    (bp.type = .BPNORMAL → bp.enabled = false →
      TitanOp.SetBPX bp.addr bp.titantype ∈ s.titan.refused →
      refusedOutcome (cbEnableAllBreakpoints bp s) s bp.addr .BPNORMAL (some true)
        ("Could not enable breakpoint " ++ fhex ++ " (SetBPX)\n")) ∧
    (bp.type = .BPNORMAL → bp.enabled = true → TitanOp.DeleteBPX bp.addr ∈ s.titan.refused →
      refusedOutcome (cbDisableAllBreakpoints bp s) s bp.addr .BPNORMAL (some false)
        ("Could not disable breakpoint " ++ fhex ++ " (DeleteBPX)\n")) ∧
    (bp.type = .BPNORMAL → bp.enabled = true → TitanOp.DeleteBPX bp.addr ∈ s.titan.refused →
      refusedOutcome (cbDeleteAllBreakpoints bp s) s bp.addr .BPNORMAL none
        ("Delete breakpoint failed (DeleteBPX): " ++ fhex ++ "\n")) ∧
    (bp.type = .BPHARDWARE → bp.enabled = false →
      GetUnusedHardwareBreakPointRegister s = some drx →
      TitanOp.SetHardwareBreakPoint bp.addr drx (TITANGETTYPE bp.titantype)
        (TITANGETSIZE bp.titantype) ∈ s.titan.refused →
      refusedOutcome (cbEnableAllHardwareBreakpoints bp s) s bp.addr .BPHARDWARE (some true)
        ("Could not enable hardware breakpoint " ++ fhex ++ " (SetHardwareBreakPoint)\n")) ∧
    (bp.type = .BPHARDWARE → bp.enabled = true →
      TitanOp.DeleteHardwareBreakPoint (TITANGETDRX bp.titantype) ∈ s.titan.refused →
      refusedOutcome (cbDisableAllHardwareBreakpoints bp s) s bp.addr .BPHARDWARE (some false)
        ("Could not disable hardware breakpoint " ++ fhex ++ " (DeleteHardwareBreakPoint)\n")) ∧
    (bp.type = .BPHARDWARE → bp.enabled = true →
      TitanOp.DeleteHardwareBreakPoint (TITANGETDRX bp.titantype) ∈ s.titan.refused →
      refusedOutcome (cbDeleteAllHardwareBreakpoints bp s) s bp.addr .BPHARDWARE none
        ("Delete hardware breakpoint failed (DeleteHardwareBreakPoint): " ++ fhex ++ "\n")) ∧
    (bp.type = .BPMEMORY → bp.enabled = false →
      TitanOp.SetMemoryBPXEx bp.addr (MemFindBaseAddr bp.addr s).2 bp.titantype
        (!bp.singleshoot) ∈ s.titan.refused →
      refusedOutcome (cbEnableAllMemoryBreakpoints bp s) s bp.addr .BPMEMORY (some true)
        ("Could not enable memory breakpoint " ++ fhex ++ " (SetMemoryBPXEx)\n")) ∧
    (bp.type = .BPMEMORY → bp.enabled = true →
      TitanOp.RemoveMemoryBPX bp.addr 0 ∈ s.titan.refused →
      refusedOutcome (cbDisableAllMemoryBreakpoints bp s) s bp.addr .BPMEMORY (some false)
        ("Could not disable memory breakpoint " ++ fhex ++ " (RemoveMemoryBPX)\n")) ∧
    (bp.type = .BPMEMORY → bp.enabled = true →
      TitanOp.RemoveMemoryBPX bp.addr (MemFindBaseAddrInto bp.addr uninit s).2
        ∈ s.titan.refused →
      refusedOutcome (cbDeleteAllMemoryBreakpoints uninit bp s) s bp.addr .BPMEMORY none
        ("Delete memory breakpoint failed (RemoveMemoryBPX): " ++ fhex ++ "\n")) :=
  ⟨cbEnableAllBreakpoints_refused bp s hreg,
   cbDisableAllBreakpoints_refused bp s hreg,
   cbDeleteAllBreakpoints_refused bp s hreg,
   cbEnableAllHardwareBreakpoints_refused bp s drx hreg,
   cbDisableAllHardwareBreakpoints_refused bp s hreg,
   cbDeleteAllHardwareBreakpoints_refused bp s hreg,
   cbEnableAllMemoryBreakpoints_refused bp s hreg,
   cbDisableAllMemoryBreakpoints_refused bp s hreg,
   cbDeleteAllMemoryBreakpoints_refused uninit bp s hreg⟩

/-- C15 (witness): the installed software entry at `0x401000` while the engine
refuses `DeleteBPX`, in the disable and in the delete callback. -/
theorem C15_refused_engine_call_keeps_registry_change_witness :
    BpGet 0x401000 .BPNORMAL softwareInstalled = some (entryAt .BPNORMAL false) ∧
    refusedOutcome (cbDisableAllBreakpoints (entryAt .BPNORMAL false) softwareInstalled)
      softwareInstalled 0x401000 .BPNORMAL (some false)
      ("Could not disable breakpoint " ++ fhex ++ " (DeleteBPX)\n") ∧
    refusedOutcome (cbDeleteAllBreakpoints (entryAt .BPNORMAL false) softwareInstalled)
      softwareInstalled 0x401000 .BPNORMAL none
      ("Delete breakpoint failed (DeleteBPX): " ++ fhex ++ "\n") :=
  ⟨by decide,
   (C15_refused_engine_call_keeps_registry_change 0 0 (entryAt .BPNORMAL false)
      softwareInstalled (by decide)).2.1 rfl rfl (by decide),
   (C15_refused_engine_call_keeps_registry_change 0 0 (entryAt .BPNORMAL false)
      softwareInstalled (by decide)).2.2.1 rfl rfl (by decide)⟩

/-! ## Installing a breakpoint and removing it again: results -/

/-- The slot `GetUnusedHardwareBreakPointRegister` hands out is one of the four
and is free: programming it and releasing it again gives back the engine state. -/
theorem unused_slot_round_trip (s : Dbg) (drx : Nat) (v : Option (Nat × Nat × Nat))
    (h : GetUnusedHardwareBreakPointRegister s = some drx) :
    drx < 4 ∧ (s.titan.setSlot drx v).setSlot drx none = s.titan := by
  unfold GetUnusedHardwareBreakPointRegister at h
  generalize s.titan = t at h ⊢
  obtain ⟨d0, d1, d2, d3, bpx, membpx, cs, det, refused⟩ := t
  simp only at h
  split_ifs at h with h0 h1 h2 h3 <;> simp only [Option.some.injEq] at h <;> subst h <;>
  simp only [Option.isNone_iff_eq_none] at * <;> simp_all [Titan.setSlot]

/-- A property of the state that every call of the callback keeps is kept by
the enumeration. -/
theorem BpEnumAll_preserves {α : Type} (f : Dbg → α) (cb : BREAKPOINT → Dbg → Bool × Dbg)
    (h : ∀ b s, f (cb b s).2 = f s) (Module : String) (s : Dbg) :
    f (BpEnumAll cb Module s).2 = f s := by
  unfold BpEnumAll
  generalize s.breakpoints.filter (fun b => b.mod = Module) = l
  have gen : ∀ (l : List BREAKPOINT) (acc : Bool × Dbg),
      f (l.foldl (fun acc b => ((cb b acc.2).1 && acc.1, (cb b acc.2).2)) acc).2 = f acc.2 := by
    intro l
    induction l with
    | nil => intro acc; rfl
    | cons b l ih =>
      intro acc
      simp only [List.foldl_cons]
      rw [ih]
      exact h b acc.2
  exact gen l (true, s)

/-- Removing the trap of an entry leaves the registry as it is. -/
theorem cbRemoveModuleBreakpoints_registry (bp : BREAKPOINT) (s : Dbg) :
    (cbRemoveModuleBreakpoints bp s).2.breakpoints = s.breakpoints := by
  simp only [cbRemoveModuleBreakpoints, DeleteBPX, RemoveMemoryBPX, DeleteHardwareBreakPoint,
    titanCall]
  cases bp.enabled <;> cases bp.type <;>
  simp only [Bool.not_true, Bool.not_false, if_true, if_false, Bool.false_eq_true] <;>
  (try split_ifs) <;> simp [emit, dprintf]

/-- Installing the trap of an entry changes no registry field other than the
engine encoding. -/
theorem cbSetModuleBreakpoints_registry (bp : BREAKPOINT) (s : Dbg) :
    (cbSetModuleBreakpoints bp s).2.breakpoints.map BREAKPOINT.identity
      = s.breakpoints.map BREAKPOINT.identity := by
  have hmap : ∀ (t : Nat), (s.breakpoints.map (fun b =>
      if b.addr = bp.addr ∧ b.type = .BPHARDWARE then { b with titantype := t } else b)).map
        BREAKPOINT.identity = s.breakpoints.map BREAKPOINT.identity := by
    intro t
    rw [List.map_map]
    apply List.map_congr_left
    intro b _
    simp only [Function.comp]
    split_ifs <;> rfl
  simp only [cbSetModuleBreakpoints, SetBPX, SetMemoryBPXEx, SetHardwareBreakPoint, titanCall,
    BpSetTitanType]
  cases bp.enabled <;> cases bp.type <;>
  simp only [Bool.not_true, Bool.not_false, if_true, if_false, Bool.false_eq_true] <;>
  (try cases GetUnusedHardwareBreakPointRegister s) <;>
  (try dsimp only) <;> (try split_ifs) <;> simp [emit, dprintf, dputs, hmap]

/-- C13 (counterexample): an enabled entry for which no trap is installed on
reload.  Module `main.exe` owns five enabled hardware entries; reloading it
programs the four slots and declines the fifth entry, which stays enabled
without a trap; at the callback, the fifth entry makes no engine call at all.
And when the engine refuses `SetBPX`, the enabled software entry has no trap
either. -/
theorem C13_counterexample :
    (BpEnumAll cbSetModuleBreakpoints "main.exe" fiveHardwareEntries).1 = false ∧
    registryEnabled 0x401040 .BPHARDWARE
      (BpEnumAll cbSetModuleBreakpoints "main.exe" fiveHardwareEntries).2 = true ∧
    trapInstalled 0x401040 .BPHARDWARE
      (BpEnumAll cbSetModuleBreakpoints "main.exe" fiveHardwareEntries).2 = false ∧
    (hardwareEntry 0x401040 0).enabled = true ∧
    engineCalls (emitted fourSlotsTaken
      (cbSetModuleBreakpoints (hardwareEntry 0x401040 0) fourSlotsTaken).2) = [] ∧
    trapInstalled 0x401000 .BPNORMAL
      (cbSetModuleBreakpoints (entryAt .BPNORMAL false)
        (refusing [.SetBPX 0x401000 0x47] (withEntry (entryAt .BPNORMAL false)))).2 = false := by
  decide

/-- C13 (amended): `cbRemoveModuleBreakpoints`, and so the unload of a module,
leaves the whole registry as it is.  `cbSetModuleBreakpoints` does nothing and
returns true for a disabled entry; for an enabled entry it makes exactly the
engine call that installs the trap of its kind, except that a hardware entry
gets no call when no debug-register slot is free, and the trap is installed
when that call succeeds.  Neither it nor the reload of a module, nor unload
followed by reload, changes the address, kind, enabled flag, single-shot flag,
name or module of any registry entry. -/
theorem C13_unload_and_reload_keep_registry (bp : BREAKPOINT) (Module : String) (s : Dbg) :
    (cbRemoveModuleBreakpoints bp s).2.breakpoints = s.breakpoints ∧
    (BpEnumAll cbRemoveModuleBreakpoints Module s).2.breakpoints = s.breakpoints ∧
    (bp.enabled = false → cbSetModuleBreakpoints bp s = (true, s)) ∧
    (bp.enabled = true →
      (engineCalls (emitted s (cbSetModuleBreakpoints bp s).2)).map Prod.fst
        = (installRequest bp s).toList) ∧
    (bp.enabled = true →
      (engineCalls (emitted s (cbSetModuleBreakpoints bp s).2)).map Prod.snd = [true] →
      trapInstalled bp.addr bp.type (cbSetModuleBreakpoints bp s).2 = true) ∧
    (cbSetModuleBreakpoints bp s).2.breakpoints.map BREAKPOINT.identity
      = s.breakpoints.map BREAKPOINT.identity ∧
    (BpEnumAll cbSetModuleBreakpoints Module s).2.breakpoints.map BREAKPOINT.identity
      = s.breakpoints.map BREAKPOINT.identity ∧
    (BpEnumAll cbSetModuleBreakpoints Module
      (BpEnumAll cbRemoveModuleBreakpoints Module s).2).2.breakpoints.map BREAKPOINT.identity
      = s.breakpoints.map BREAKPOINT.identity := by
  have hrem := BpEnumAll_preserves (fun t => t.breakpoints) cbRemoveModuleBreakpoints
    cbRemoveModuleBreakpoints_registry
  have hset := BpEnumAll_preserves (fun t => t.breakpoints.map BREAKPOINT.identity)
    cbSetModuleBreakpoints cbSetModuleBreakpoints_registry
  refine ⟨cbRemoveModuleBreakpoints_registry bp s, hrem Module s, ?_, ?_, ?_,
    cbSetModuleBreakpoints_registry bp s, hset Module s, ?_⟩
  · intro hen
    simp [cbSetModuleBreakpoints, hen]
  · intro hen
    cases hty : bp.type
    · by_cases h1 : TitanOp.SetBPX bp.addr bp.titantype ∈ s.titan.refused <;>
      simp [cbSetModuleBreakpoints, installRequest, hen, hty, SetBPX, titanCall, h1, emit,
        dprintf, emitted, engineCalls]
    · rcases Option.eq_none_or_eq_some (GetUnusedHardwareBreakPointRegister s) with
        hslot | ⟨drx, hslot⟩
      · simp [cbSetModuleBreakpoints, installRequest, hen, hty, hslot, dputs, emit, emitted,
          engineCalls]
      · by_cases h1 : TitanOp.SetHardwareBreakPoint bp.addr drx (TITANGETTYPE bp.titantype)
            (TITANGETSIZE bp.titantype) ∈ s.titan.refused <;>
        simp [cbSetModuleBreakpoints, installRequest, hen, hty, hslot, SetHardwareBreakPoint,
          BpSetTitanType, titanCall, h1, emit, dprintf, emitted, engineCalls]
    · by_cases h1 : TitanOp.SetMemoryBPXEx bp.addr (MemFindBaseAddr bp.addr s).2 bp.titantype
          (!bp.singleshoot) ∈ s.titan.refused <;>
      simp [cbSetModuleBreakpoints, installRequest, hen, hty, SetMemoryBPXEx, titanCall, h1,
        emit, dprintf, emitted, engineCalls]
  · intro hen hok
    cases hty : bp.type
    · by_cases h1 : TitanOp.SetBPX bp.addr bp.titantype ∈ s.titan.refused
      · simp [cbSetModuleBreakpoints, hen, hty, SetBPX, titanCall, h1, emit, dprintf, emitted,
          engineCalls] at hok
      · simp [cbSetModuleBreakpoints, hen, hty, SetBPX, titanCall, h1, emit, trapInstalled]
    · rcases Option.eq_none_or_eq_some (GetUnusedHardwareBreakPointRegister s) with
        hslot | ⟨drx, hslot⟩
      · simp [cbSetModuleBreakpoints, hen, hty, hslot, dputs, emit, emitted, engineCalls] at hok
      · by_cases h1 : TitanOp.SetHardwareBreakPoint bp.addr drx (TITANGETTYPE bp.titantype)
            (TITANGETSIZE bp.titantype) ∈ s.titan.refused
        · simp [cbSetModuleBreakpoints, hen, hty, hslot, SetHardwareBreakPoint, BpSetTitanType,
            titanCall, h1, emit, dprintf, emitted, engineCalls] at hok
        · have hlt := (unused_slot_round_trip s drx none hslot).1
          interval_cases drx <;>
          simp [cbSetModuleBreakpoints, hen, hty, hslot, SetHardwareBreakPoint, BpSetTitanType,
            titanCall, h1, emit, trapInstalled, Titan.setSlot]
    · by_cases h1 : TitanOp.SetMemoryBPXEx bp.addr (MemFindBaseAddr bp.addr s).2 bp.titantype
          (!bp.singleshoot) ∈ s.titan.refused
      · simp [cbSetModuleBreakpoints, hen, hty, SetMemoryBPXEx, titanCall, h1, emit, dprintf,
          emitted, engineCalls] at hok
      · simp [cbSetModuleBreakpoints, hen, hty, SetMemoryBPXEx, titanCall, h1, emit,
          trapInstalled]
  · have h1 := hset Module (BpEnumAll cbRemoveModuleBreakpoints Module s).2
    have h2 := hrem Module s
    simp only at h1 h2
    rw [h1, h2]

/-- C13 (witness): the enabled software entry at `0x401000`: reloading makes
the one call `SetBPX` for it and the trap is installed; the disabled entry makes
no call. -/
theorem C13_unload_and_reload_keep_registry_witness :
    (entryAt .BPNORMAL false).enabled = true ∧
    (engineCalls (emitted (withEntry (entryAt .BPNORMAL false))
      (cbSetModuleBreakpoints (entryAt .BPNORMAL false)
        (withEntry (entryAt .BPNORMAL false))).2)).map Prod.fst = [.SetBPX 0x401000 0x47] ∧
    trapInstalled 0x401000 .BPNORMAL
      (cbSetModuleBreakpoints (entryAt .BPNORMAL false)
        (withEntry (entryAt .BPNORMAL false))).2 = true ∧
    (disabledEntryAt .BPNORMAL).enabled = false ∧
    cbSetModuleBreakpoints (disabledEntryAt .BPNORMAL) (withEntry (disabledEntryAt .BPNORMAL))
      = (true, withEntry (disabledEntryAt .BPNORMAL)) :=
  ⟨rfl,
   (C13_unload_and_reload_keep_registry (entryAt .BPNORMAL false) "main.exe"
      (withEntry (entryAt .BPNORMAL false))).2.2.2.1 rfl,
   (C13_unload_and_reload_keep_registry (entryAt .BPNORMAL false) "main.exe"
      (withEntry (entryAt .BPNORMAL false))).2.2.2.2.1 rfl (by decide),
   rfl,
   (C13_unload_and_reload_keep_registry (disabledEntryAt .BPNORMAL) "main.exe"
      (withEntry (disabledEntryAt .BPNORMAL))).2.2.1 rfl⟩

/-! ## Two identical debug strings in a row: results -/

/-- The count of "DebugString" lines is additive over runs of calls. -/
theorem debugStringLines_append (P L : List Event) :
    debugStringLines (P ++ L) = debugStringLines P + debugStringLines L := by
  induction P with
  | nil => simp [debugStringLines]
  | cons e P ih => cases e <;> simp [debugStringLines, ih, Nat.add_assoc]

/-- One ASCII debug-string notification whose payload is readable: the handler
logs the "DebugString" line when the text differs from the remembered one and
is not a lone newline, then remembers the text, or forgets the remembered text
when the two are equal.  Target memory is not touched. -/
theorem cbOutputDebugString_step (D : OUTPUT_DEBUG_STRING_INFO) (s : Dbg) (text : List Nat)
    (hascii : D.fUnicode = 0)
    (hread : MemRead D.lpDebugStringData D.nDebugStringLength s = some text) :
    ∃ P : List Event, (cbOutputDebugString D s).events = s.events ++ P ∧
      debugStringLines P
        = (if cString text ≠ s.lastDebugText ∧ cString text ≠ [10] then 1 else 0) ∧
      (cbOutputDebugString D s).lastDebugText
        = (if cString text ≠ s.lastDebugText then cString text else []) ∧
      (cbOutputDebugString D s).memory = s.memory := by
  simp only [MemRead] at hread
  have key : ∀ str : List Nat, cString text = str →
      ∃ P : List Event, (cbOutputDebugString D s).events = s.events ++ P ∧
      debugStringLines P = (if str ≠ s.lastDebugText ∧ str ≠ [10] then 1 else 0) ∧
      (cbOutputDebugString D s).lastDebugText = (if str ≠ s.lastDebugText then str else []) ∧
      (cbOutputDebugString D s).memory = s.memory := by
    intro str hstr
    refine ⟨emitted s (cbOutputDebugString D s), ?_, ?_, ?_, ?_⟩ <;>
    simp only [cbOutputDebugString, settingboolget, emitted, emit, plugincbcall, dprintf,
      MemRead] <;>
    rw [hread] <;> dsimp only <;> rw [hstr] <;>
    by_cases hp : ("Events", "DebugStrings") ∈ s.settings <;>
    by_cases h2 : str = [10]
    all_goals first
      | (subst h2
         by_cases h1 : [10] = s.lastDebugText <;>
         simp [hascii, hp, h1, emit, plugincbcall, GuiSetDebugState, DebugUpdateGui, lock, wait,
           debugStringLines])
      | (by_cases h1 : str = s.lastDebugText <;>
         simp [hascii, hp, h1, h2, emit, plugincbcall, GuiSetDebugState, DebugUpdateGui, lock,
           wait, debugStringLines])
  exact key _ rfl

/-- C16 (counterexample): the empty ASCII payload (its terminator alone) sent
twice while nothing is remembered, as at program start: both calls find the
text equal to the remembered one, so no "DebugString" line is logged at all. -/
theorem C16_counterexample :
    MemRead emptyDebugString.lpDebugStringData emptyDebugString.nDebugStringLength startup
      = some [0] ∧
    cString [0] = [] ∧ cString [0] ≠ [10] ∧ startup.lastDebugText = [] ∧
    debugStringLines (emitted startup
      (cbOutputDebugString emptyDebugString (cbOutputDebugString emptyDebugString startup)))
      = 0 := by
  decide

/-- C16 (amended): two identical consecutive ASCII debug-string events log
exactly one "DebugString" line, for every readable payload other than a lone
newline and whatever string was remembered before, except when the payload is
empty and nothing is remembered either. -/
theorem C16_identical_debug_strings_log_once (D : OUTPUT_DEBUG_STRING_INFO) (s : Dbg)
    (text : List Nat) (hascii : D.fUnicode = 0)
    (hread : MemRead D.lpDebugStringData D.nDebugStringLength s = some text)
    (hnl : cString text ≠ [10])
    (hne : ¬ (cString text = [] ∧ s.lastDebugText = [])) :
    debugStringLines (emitted s (cbOutputDebugString D (cbOutputDebugString D s))) = 1 := by
  obtain ⟨P, hP, hl, hlast, hmem⟩ := cbOutputDebugString_step D s text hascii hread
  have hread2 : MemRead D.lpDebugStringData D.nDebugStringLength (cbOutputDebugString D s)
      = some text := by
    simp only [MemRead, hmem] at hread ⊢
    exact hread
  obtain ⟨Q, hQ, hl2, -, -⟩ :=
    cbOutputDebugString_step D (cbOutputDebugString D s) text hascii hread2
  rw [emitted_of_append s _ (P ++ Q) (by rw [hQ, hP, List.append_assoc]),
    debugStringLines_append, hl, hl2, hlast]
  by_cases h1 : cString text = s.lastDebugText
  · have h3 : ¬ cString text = [] := fun h => hne ⟨h, by rw [← h1, h]⟩
    simp [h1, hnl, h3]
    exact ⟨fun h => h3 (h1.trans h), fun h => hnl (h1.trans h)⟩
  · simp [h1, hnl]

/-- C16 (witness): the payload `"hello\n"` sent twice from program start logs
one line. -/
theorem C16_identical_debug_strings_log_once_witness :
    debugStringLines (emitted startup
      (cbOutputDebugString sampleDebugString (cbOutputDebugString sampleDebugString startup)))
      = 1 :=
  C16_identical_debug_strings_log_once sampleDebugString startup
    [104, 101, 108, 108, 111, 10, 0] rfl (by decide) (by decide) (by decide)

/-! ## The session threads: results -/

/-- The part of `threadDebugLoop` before the debug loop leaves the ignored
ranges, the registry and the three base fields but `pDebuggedEntry` alone. -/
theorem threadDebugLoopInit_frame (init : INIT_STRUCT) (os : SessionAnswers) (s : Dbg) :
    (threadDebugLoopInit init os s).2.ignoredExceptionRange = s.ignoredExceptionRange ∧
    (threadDebugLoopInit init os s).2.breakpoints = s.breakpoints ∧
    (threadDebugLoopInit init os s).2.titan = s.titan ∧
    (threadDebugLoopInit init os s).2.pDebuggedBase = s.pDebuggedBase ∧
    (threadDebugLoopInit init os s).2.pCreateProcessBase = s.pCreateProcessBase := by
  simp only [threadDebugLoopInit]
  rcases os with ⟨dll, _ | pi, _ | w, _ | m⟩ <;> cases dll <;> (try cases w) <;> (try cases m) <;>
  simp [lock, unlock, emit, dputs, varset, customHandlers, SetCustomHandler, GuiSetDebugState,
    plugincbcall]

/-- The part of `threadAttachLoop` before the engine attaches leaves the ignored
ranges, the registry, the engine and the three base fields alone. -/
theorem threadAttachLoopInit_frame (fileIsDll : Bool) (s : Dbg) :
    (threadAttachLoopInit fileIsDll s).ignoredExceptionRange = s.ignoredExceptionRange ∧
    (threadAttachLoopInit fileIsDll s).breakpoints = s.breakpoints ∧
    (threadAttachLoopInit fileIsDll s).titan = s.titan ∧
    (threadAttachLoopInit fileIsDll s).pDebuggedBase = s.pDebuggedBase ∧
    (threadAttachLoopInit fileIsDll s).pCreateProcessBase = s.pCreateProcessBase ∧
    (threadAttachLoopInit fileIsDll s).pDebuggedEntry = s.pDebuggedEntry := by
  simp [threadAttachLoopInit, lock, emit, customHandlers, SetCustomHandler, GuiSetDebugState,
    plugincbcall]

/-- C17 (counterexample): a range `[0xC0000005, 0xC0000005]` added before the
session is still in force when `threadDebugLoop` reaches its debug loop, and
when `threadAttachLoop` reaches the attach: `dbgisignoredexception` returns true
for `0xC0000005` although no range was added in the new session. -/
theorem C17_counterexample :
    dbgisignoredexception 0xC0000005 afterEarlierSession = true ∧
    (threadDebugLoopInit sampleInit launchOk afterEarlierSession).1 = true ∧
    dbgisignoredexception 0xC0000005
      (threadDebugLoopInit sampleInit launchOk afterEarlierSession).2 = true ∧
    dbgisignoredexception 0xC0000005 (threadAttachLoopInit false afterEarlierSession) = true := by
  decide

/-- C17 (amended): starting a session does not touch the set of ignored
exception ranges.  When `threadDebugLoop` reaches its debug loop (or returns
early) and when `threadAttachLoop` reaches the attach, the set is the one from
before the session and `dbgisignoredexception` answers for every code as it did
then; it returns false for every code after `dbgclearignoredexceptions`. -/
theorem C17_session_start_keeps_ignored_ranges (init : INIT_STRUCT) (os : SessionAnswers)
    (fileIsDll : Bool) (s : Dbg) (code : Nat) :
    (threadDebugLoopInit init os s).2.ignoredExceptionRange = s.ignoredExceptionRange ∧
    dbgisignoredexception code (threadDebugLoopInit init os s).2
      = dbgisignoredexception code s ∧
    (threadAttachLoopInit fileIsDll s).ignoredExceptionRange = s.ignoredExceptionRange ∧
    dbgisignoredexception code (threadAttachLoopInit fileIsDll s)
      = dbgisignoredexception code s ∧
    dbgisignoredexception code (dbgclearignoredexceptions s) = false := by
  have h1 := (threadDebugLoopInit_frame init os s).1
  have h2 := (threadAttachLoopInit_frame fileIsDll s).1
  refine ⟨h1, ?_, h2, ?_, ?_⟩
  · simp only [dbgisignoredexception, h1]
  · simp only [dbgisignoredexception, h2]
  · simp [dbgisignoredexception, dbgclearignoredexceptions, ignoredLoop]

/-- The teardown of `threadDebugLoop` ends by zeroing the three base fields. -/
theorem threadDebugLoopExit_bases (s : Dbg) :
    (threadDebugLoopExit s).pDebuggedBase = 0 ∧ (threadDebugLoopExit s).pCreateProcessBase = 0 ∧
    (threadDebugLoopExit s).pDebuggedEntry = 0 := by
  simp [threadDebugLoopExit]

/-- The teardown of `threadAttachLoop` leaves the three base fields as the
engine loop left them. -/
theorem threadAttachLoopExit_bases (s : Dbg) :
    (threadAttachLoopExit s).pDebuggedBase = s.pDebuggedBase ∧
    (threadAttachLoopExit s).pCreateProcessBase = s.pCreateProcessBase ∧
    (threadAttachLoopExit s).pDebuggedEntry = s.pDebuggedEntry := by
  simp [threadAttachLoopExit, plugincbcall, emit, RemoveAllBreakPoints, DBClose, ModClear,
    ThreadClear, GuiSetDebugState, dputs, varset, unlock]

/-- A launched session whose debug loop has ended returns with the three base
fields zero, whatever the loop did. -/
theorem threadDebugLoop_bases (init : INIT_STRUCT) (os : SessionAnswers) (DebugLoop : Dbg → Dbg)
    (s : Dbg) (h : (threadDebugLoopInit init os s).1 = true) :
    (threadDebugLoop init os DebugLoop s).pDebuggedBase = 0 ∧
    (threadDebugLoop init os DebugLoop s).pCreateProcessBase = 0 ∧
    (threadDebugLoop init os DebugLoop s).pDebuggedEntry = 0 := by
  simp only [threadDebugLoop, h, if_true]
  exact threadDebugLoopExit_bases _

/-- An attached session returns with the three base fields as the engine loop
left them. -/
theorem threadAttachLoop_bases (pid : Nat) (fileIsDll : Bool) (AttachDebugger : Dbg → Dbg)
    (s : Dbg) :
    (threadAttachLoop pid fileIsDll AttachDebugger s).pDebuggedBase
      = (AttachDebugger (emit (.call "AttachDebugger" [.num pid])
          (threadAttachLoopInit fileIsDll s))).pDebuggedBase ∧
    (threadAttachLoop pid fileIsDll AttachDebugger s).pCreateProcessBase
      = (AttachDebugger (emit (.call "AttachDebugger" [.num pid])
          (threadAttachLoopInit fileIsDll s))).pCreateProcessBase ∧
    (threadAttachLoop pid fileIsDll AttachDebugger s).pDebuggedEntry
      = (AttachDebugger (emit (.call "AttachDebugger" [.num pid])
          (threadAttachLoopInit fileIsDll s))).pDebuggedEntry := by
  simp only [threadAttachLoop]
  exact threadAttachLoopExit_bases _

/-- C18: evaluated on an attached session from program start in which the
process-created notification for the image at `0x400000` arrives and the
process then exits.  When `threadAttachLoop` returns, `pCreateProcessBase` is
still `0x400000`; `pDebuggedBase` and `pDebuggedEntry` are 0 only because an
attached session never writes them.  The same notifications in a launched
session leave all three fields 0 when `threadDebugLoop` returns. -/
theorem C18_attach_teardown_keeps_create_process_base :
    startup.pCreateProcessBase = 0 ∧
    (threadAttachLoop 0x7d0 false sampleLoop startup).pCreateProcessBase = 0x400000 ∧
    (threadAttachLoop 0x7d0 false sampleLoop startup).pDebuggedBase = 0 ∧
    (threadAttachLoop 0x7d0 false sampleLoop startup).pDebuggedEntry = 0 ∧
    stopTrace (emitted startup (threadAttachLoop 0x7d0 false sampleLoop startup))
      = [true, false] ∧
    (threadDebugLoop sampleInit launchOk sampleLoop startup).pCreateProcessBase = 0 ∧
    (threadDebugLoop sampleInit launchOk sampleLoop startup).pDebuggedBase = 0 ∧
    (threadDebugLoop sampleInit launchOk sampleLoop startup).pDebuggedEntry = 0 := by
  decide

/-- The calls on gate `STOP` of two runs of calls, one after the other. -/
theorem stopTrace_append (P L : List Event) :
    stopTrace (P ++ L) = stopTrace P ++ stopTrace L := by
  induction P with
  | nil => rfl
  | cons e P ih =>
    cases e with
    | lock id => cases id <;> simp [stopTrace, ih]
    | unlock id => cases id <;> simp [stopTrace, ih]
    | _ => simp [stopTrace, ih]

/-- The calls of `threadDebugLoop` up to the debug loop: `lock(WAITID_STOP)`
first, then no call on gate `STOP` when the debug loop is reached, and the one
`unlock(WAITID_STOP)` of the failure path when it is not. -/
theorem threadDebugLoopInit_events (init : INIT_STRUCT) (os : SessionAnswers) (s : Dbg) :
    ∃ P : List Event,
      (threadDebugLoopInit init os s).2.events = s.events ++ .lock .WAITID_STOP :: P ∧
      stopTrace P = (if (threadDebugLoopInit init os s).1 then [] else [false]) ∧
      ((threadDebugLoopInit init os s).1 = false →
        (threadDebugLoopInit init os s).2.stopLocked = false) := by
  refine ⟨(emitted s (threadDebugLoopInit init os s).2).drop 1, ?_, ?_, ?_⟩ <;>
  simp only [threadDebugLoopInit, emitted] <;>
  rcases os with ⟨dll, _ | pi, _ | w, _ | m⟩ <;> cases dll <;> (try cases w) <;> (try cases m) <;>
  simp [lock, unlock, emit, dputs, varset, customHandlers, SetCustomHandler, GuiSetDebugState,
    plugincbcall, stopTrace]

/-- The calls of the teardown of `threadDebugLoop`: one `unlock(WAITID_STOP)`,
and gate `STOP` is unlocked at the return. -/
theorem threadDebugLoopExit_events (s : Dbg) :
    ∃ Q : List Event, (threadDebugLoopExit s).events = s.events ++ Q ∧
      stopTrace Q = [false] ∧ (threadDebugLoopExit s).stopLocked = false := by
  refine ⟨emitted s (threadDebugLoopExit s), ?_, ?_, ?_⟩ <;>
  simp [threadDebugLoopExit, emitted, plugincbcall, emit, RemoveAllBreakPoints, DBClose,
    ModClear, ThreadClear, GuiSetDebugState, dputs, varset, unlock, stopTrace]

/-- The calls of `threadAttachLoop` up to the attach: `lock(WAITID_STOP)` first,
then no call on gate `STOP`. -/
theorem threadAttachLoopInit_events (fileIsDll : Bool) (s : Dbg) :
    ∃ P : List Event,
      (threadAttachLoopInit fileIsDll s).events = s.events ++ .lock .WAITID_STOP :: P ∧
      stopTrace P = [] := by
  refine ⟨(emitted s (threadAttachLoopInit fileIsDll s)).drop 1, ?_, ?_⟩ <;>
  simp [threadAttachLoopInit, emitted, lock, emit, customHandlers, SetCustomHandler,
    GuiSetDebugState, plugincbcall, stopTrace]

/-- The calls of the teardown of `threadAttachLoop`: one `unlock(WAITID_STOP)`,
and gate `STOP` is unlocked at the return. -/
theorem threadAttachLoopExit_events (s : Dbg) :
    ∃ Q : List Event, (threadAttachLoopExit s).events = s.events ++ Q ∧
      stopTrace Q = [false] ∧ (threadAttachLoopExit s).stopLocked = false := by
  refine ⟨emitted s (threadAttachLoopExit s), ?_, ?_, ?_⟩ <;>
  simp [threadAttachLoopExit, emitted, plugincbcall, emit, RemoveAllBreakPoints, DBClose,
    ModClear, ThreadClear, GuiSetDebugState, dputs, varset, unlock, stopTrace]

/-- The sample loop `exitLoop` makes no call on gate `STOP`. -/
theorem exitLoop_events (t : Dbg) :
    ∃ P : List Event, (exitLoop t).events = t.events ++ P ∧ stopTrace P = [] := by
  refine ⟨emitted t (exitLoop t), ?_, ?_⟩ <;>
  simp [exitLoop, cbExitProcess, cbDebugEvent, emitted, plugincbcall, dprintf, emit, stopTrace]

/-- C19: `threadDebugLoop` and `threadAttachLoop` lock gate `STOP` as their
first call, and on every return path (failed launch, failed `IsWow64Process`,
other bitness, and the normal end after the debug loop) the calls that follow
contain exactly one call on gate `STOP`, an unlock, and the gate is unlocked
at the return.  The debug loop of the engine is any loop that itself makes no
call on gate `STOP`. -/
theorem C19_stop_gate_locked_for_the_session (init : INIT_STRUCT) (os : SessionAnswers)
    (pid : Nat) (fileIsDll : Bool) (DebugLoop AttachDebugger : Dbg → Dbg) (s : Dbg)
    (hD : ∀ t, ∃ P : List Event, (DebugLoop t).events = t.events ++ P ∧ stopTrace P = [])
    (hA : ∀ t, ∃ P : List Event, (AttachDebugger t).events = t.events ++ P ∧ stopTrace P = []) :
    (∃ rest : List Event,
      emitted s (threadDebugLoop init os DebugLoop s) = .lock .WAITID_STOP :: rest ∧
      stopTrace rest = [false]) ∧
    (threadDebugLoop init os DebugLoop s).stopLocked = false ∧
    (∃ rest : List Event,
      emitted s (threadAttachLoop pid fileIsDll AttachDebugger s) = .lock .WAITID_STOP :: rest ∧
      stopTrace rest = [false]) ∧
    (threadAttachLoop pid fileIsDll AttachDebugger s).stopLocked = false := by
  obtain ⟨P, hP, hPt, hPl⟩ := threadDebugLoopInit_events init os s
  obtain ⟨A, hA1, hAt⟩ := threadAttachLoopInit_events fileIsDll s
  refine ⟨?_, ?_, ?_, ?_⟩
  · by_cases h : (threadDebugLoopInit init os s).1 = true
    · obtain ⟨L, hL, hLt⟩ := hD (emit (.call "DebugLoop" []) (threadDebugLoopInit init os s).2)
      obtain ⟨Q, hQ, hQt, -⟩ := threadDebugLoopExit_events
        (DebugLoop (emit (.call "DebugLoop" []) (threadDebugLoopInit init os s).2))
      refine ⟨P ++ [.call "DebugLoop" []] ++ L ++ Q, ?_, ?_⟩
      · apply emitted_of_append
        simp only [threadDebugLoop, h, if_true]
        rw [hQ, hL]
        simp [emit, hP]
      · simp [stopTrace_append, hPt, h, hLt, hQt, stopTrace]
    · simp only [Bool.not_eq_true] at h
      refine ⟨P, ?_, ?_⟩
      · apply emitted_of_append
        simp [threadDebugLoop, h, hP]
      · simp [hPt, h]
  · by_cases h : (threadDebugLoopInit init os s).1 = true
    · simp only [threadDebugLoop, h, if_true]
      obtain ⟨-, -, -, hQl⟩ := threadDebugLoopExit_events
        (DebugLoop (emit (.call "DebugLoop" []) (threadDebugLoopInit init os s).2))
      exact hQl
    · simp only [Bool.not_eq_true] at h
      simp [threadDebugLoop, h, hPl h]
  · obtain ⟨L, hL, hLt⟩ :=
      hA (emit (.call "AttachDebugger" [.num pid]) (threadAttachLoopInit fileIsDll s))
    obtain ⟨Q, hQ, hQt, -⟩ := threadAttachLoopExit_events
      (AttachDebugger (emit (.call "AttachDebugger" [.num pid])
        (threadAttachLoopInit fileIsDll s)))
    refine ⟨A ++ [.call "AttachDebugger" [.num pid]] ++ L ++ Q, ?_, ?_⟩
    · apply emitted_of_append
      simp only [threadAttachLoop]
      rw [hQ, hL]
      simp [emit, hA1]
    · simp [stopTrace_append, hAt, hLt, hQt, stopTrace]
  · simp only [threadAttachLoop]
    obtain ⟨-, -, -, hQl⟩ := threadAttachLoopExit_events
      (AttachDebugger (emit (.call "AttachDebugger" [.num pid])
        (threadAttachLoopInit fileIsDll s)))
    exact hQl

/-- C19 (witness): a launch that succeeds and an attach, each from program
start, with a debug loop in which the process exits at once. -/
theorem C19_stop_gate_locked_for_the_session_witness :
    (∃ rest : List Event,
      emitted startup (threadDebugLoop sampleInit launchOk exitLoop startup)
        = .lock .WAITID_STOP :: rest ∧
      stopTrace rest = [false]) ∧
    (threadDebugLoop sampleInit launchOk exitLoop startup).stopLocked = false ∧
    (∃ rest : List Event,
      emitted startup (threadAttachLoop 0x7d0 false exitLoop startup)
        = .lock .WAITID_STOP :: rest ∧
      stopTrace rest = [false]) ∧
    (threadAttachLoop 0x7d0 false exitLoop startup).stopLocked = false :=
  C19_stop_gate_locked_for_the_session sampleInit launchOk 0x7d0 false exitLoop exitLoop startup
    exitLoop_events exitLoop_events

/-- C20: when the target process cannot be created, or its bitness differs
from the debugger's, `threadDebugLoop` makes four calls and returns:
`lock(WAITID_STOP)`, the launch call, one diagnostic line and
`unlock(WAITID_STOP)`.  No handler is registered, the debug loop is not
entered (the result does not depend on it), the GUI is not told that the
session is initialized, no registry, engine or command call is made and gate
`RUN` is not touched; the registry and the engine state are as before. -/
theorem C20_failed_launch_aborts_before_the_session (init : INIT_STRUCT) (os : SessionAnswers)
    (DebugLoop : Dbg → Dbg) (s : Dbg) :
    (os.process = none →
      emitted s (threadDebugLoop init os DebugLoop s) =
        [.lock .WAITID_STOP, launchCall init os,
         .dputs "Error starting process (invalid pe?)!", .unlock .WAITID_STOP]) ∧
    (∀ wow64 mewow64 : Bool, os.process.isSome = true → os.wow64 = some wow64 →
      os.mewow64 = some mewow64 → wow64 ≠ mewow64 →
      emitted s (threadDebugLoop init os DebugLoop s) =
        [.lock .WAITID_STOP, launchCall init os,
         .dputs "Use x32dbg to debug this process!", .unlock .WAITID_STOP]) ∧
    ((os.process = none ∨ (os.process.isSome = true ∧ ∃ wow64 mewow64 : Bool,
        os.wow64 = some wow64 ∧ os.mewow64 = some mewow64 ∧ wow64 ≠ mewow64)) →
      sessionNeverRan (emitted s (threadDebugLoop init os DebugLoop s)) = true ∧
      pausesIn (emitted s (threadDebugLoop init os DebugLoop s)) = false ∧
      (threadDebugLoop init os DebugLoop s).breakpoints = s.breakpoints ∧
      (threadDebugLoop init os DebugLoop s).titan = s.titan ∧
      (threadDebugLoop init os DebugLoop s).stopLocked = false) := by
  refine ⟨?_, ?_, ?_⟩
  · intro h
    rcases os with ⟨dll, pr, w, m⟩
    simp only at h
    subst h
    cases dll <;>
    simp [threadDebugLoop, threadDebugLoopInit, launchCall, emitted, lock, unlock, emit, dputs]
  · intro wow64 mewow64 hp hw hm hne
    rcases os with ⟨dll, _ | pi, w, m⟩
    · simp at hp
    · simp only at hw hm
      subst hw hm
      cases dll <;> cases wow64 <;> cases mewow64 <;>
      simp [threadDebugLoop, threadDebugLoopInit, launchCall, emitted, lock, unlock, emit,
        dputs] at hne ⊢
  · intro h
    rcases os with ⟨dll, _ | pi, w, m⟩
    · cases dll <;>
      simp [threadDebugLoop, threadDebugLoopInit, emitted, lock, unlock, emit, dputs,
        sessionNeverRan, pausesIn, Event.isLockRun, Event.isWaitRun]
    · rcases h with h | ⟨-, wow64, mewow64, hw, hm, hne⟩
      · simp at h
      · simp only at hw hm
        subst hw hm
        cases dll <;> cases wow64 <;> cases mewow64 <;>
        simp [threadDebugLoop, threadDebugLoopInit, emitted, lock, unlock, emit, dputs,
          sessionNeverRan, pausesIn, Event.isLockRun, Event.isWaitRun] at hne ⊢

/-- C20 (witness): from program start, a launch in which the process cannot be
created and a launch of a 32-bit target. -/
theorem C20_failed_launch_aborts_before_the_session_witness :
    emitted startup (threadDebugLoop sampleInit launchFails sampleLoop startup) =
      [.lock .WAITID_STOP, .call "InitDebugW" [.str "C:\\work\\main.exe", .str "", .str "C:\\work"],
       .dputs "Error starting process (invalid pe?)!", .unlock .WAITID_STOP] ∧
    emitted startup (threadDebugLoop sampleInit launchOtherBitness sampleLoop startup) =
      [.lock .WAITID_STOP, .call "InitDebugW" [.str "C:\\work\\main.exe", .str "", .str "C:\\work"],
       .dputs "Use x32dbg to debug this process!", .unlock .WAITID_STOP] ∧
    sessionNeverRan
      (emitted startup (threadDebugLoop sampleInit launchFails sampleLoop startup)) = true ∧
    sessionNeverRan
      (emitted startup (threadDebugLoop sampleInit launchOk sampleLoop startup)) = false :=
  ⟨(C20_failed_launch_aborts_before_the_session sampleInit launchFails sampleLoop startup).1 rfl,
   (C20_failed_launch_aborts_before_the_session sampleInit launchOtherBitness sampleLoop
      startup).2.1 true false rfl rfl rfl (by decide),
   ((C20_failed_launch_aborts_before_the_session sampleInit launchFails sampleLoop startup).2.2
      (Or.inl rfl)).1,
   by decide⟩

/-! ## The system breakpoint: results -/

/-- C21: `cbSystemBreakpoint` logs exactly one line, "Attach breakpoint
reached!" in an attached session and "System breakpoint reached!" otherwise,
and after the plugin callback it runs the pause sequence if and only if the
option of the session kind is set (`Events/AttachBreakpoint` when attached,
`Events/SystemBreakpoint` when launched).  The calls it makes are the same in
two sessions that differ only in their settings and agree on that option, so
the other option has no effect. -/
theorem C21_system_breakpoint_logs_once_and_pauses_on_its_option (s : Dbg) :
    emitted s (cbSystemBreakpoint s) =
      [.call "GuiDumpAt"
          [.num (MemFindBaseAddr (GetContextDataEx (ThreadGetHandle s.dwThreadId s) s) s).1],
        .dputs (if s.bIsAttached then "Attach breakpoint reached!"
          else "System breakpoint reached!"),
        .plugincbcall .CB_SYSTEMBREAKPOINT none] ++
      (if entryPauseOption s then
        [.GuiSetDebugState .paused,
         .DebugUpdateGui (GetContextDataEx (ThreadGetHandle s.dwThreadId s) s) true,
         .lock .WAITID_RUN, .call "SetForegroundWindow" [], .plugincbcall .CB_PAUSEDEBUG none,
         .wait .WAITID_RUN false]
       else []) ∧
    logged (emitted s (cbSystemBreakpoint s)) =
      [.dputs (if s.bIsAttached then "Attach breakpoint reached!"
        else "System breakpoint reached!")] ∧
    pausesIn (emitted s (cbSystemBreakpoint s)) = entryPauseOption s ∧
    (∀ settings : List (String × String),
      entryPauseOption { s with settings := settings } = entryPauseOption s →
      emitted { s with settings := settings } (cbSystemBreakpoint { s with settings := settings })
        = emitted s (cbSystemBreakpoint s)) := by
  have key : ∀ t : Dbg, emitted t (cbSystemBreakpoint t) =
      [.call "GuiDumpAt"
          [.num (MemFindBaseAddr (GetContextDataEx (ThreadGetHandle t.dwThreadId t) t) t).1],
        .dputs (if t.bIsAttached then "Attach breakpoint reached!"
          else "System breakpoint reached!"),
        .plugincbcall .CB_SYSTEMBREAKPOINT none] ++
      (if entryPauseOption t then
        [.GuiSetDebugState .paused,
         .DebugUpdateGui (GetContextDataEx (ThreadGetHandle t.dwThreadId t) t) true,
         .lock .WAITID_RUN, .call "SetForegroundWindow" [], .plugincbcall .CB_PAUSEDEBUG none,
         .wait .WAITID_RUN false]
       else []) := by
    intro t
    apply emitted_of_append
    simp only [cbSystemBreakpoint, entryPauseOption, settingboolget, GetContextDataEx,
      ThreadGetHandle, MemFindBaseAddr]
    cases ha : t.bIsAttached <;>
    by_cases h1 : ("Events", "AttachBreakpoint") ∈ t.settings <;>
    by_cases h2 : ("Events", "SystemBreakpoint") ∈ t.settings <;>
    simp [ha, h1, h2, emit, dputs, plugincbcall, GuiSetDebugState, DebugUpdateGui, lock, wait]
  refine ⟨key s, ?_, ?_, ?_⟩
  · rw [key s]
    cases s.bIsAttached <;> cases entryPauseOption s <;> rfl
  · rw [key s]
    cases entryPauseOption s <;> rfl
  · intro settings h
    rw [key s, key, h]
    simp [GetContextDataEx, ThreadGetHandle, MemFindBaseAddr]

/-- C21 (witness): a launched session with only `Events/AttachBreakpoint`
switched on does not pause and makes the calls of the session with no option
on; with `Events/SystemBreakpoint` on it pauses.  An attached session with only
`Events/SystemBreakpoint` on logs the attach line and does not pause. -/
theorem C21_system_breakpoint_logs_once_and_pauses_on_its_option_witness :
    pausesIn (emitted { startup with settings := [("Events", "AttachBreakpoint")] }
      (cbSystemBreakpoint { startup with settings := [("Events", "AttachBreakpoint")] }))
      = false ∧
    emitted { startup with settings := [("Events", "AttachBreakpoint")] }
      (cbSystemBreakpoint { startup with settings := [("Events", "AttachBreakpoint")] })
      = emitted startup (cbSystemBreakpoint startup) ∧
    logged (emitted startup (cbSystemBreakpoint startup))
      = [.dputs "System breakpoint reached!"] ∧
    pausesIn (emitted { startup with settings := [("Events", "SystemBreakpoint")] }
      (cbSystemBreakpoint { startup with settings := [("Events", "SystemBreakpoint")] }))
      = true ∧
    logged (emitted (attachedWith [("Events", "SystemBreakpoint")])
      (cbSystemBreakpoint (attachedWith [("Events", "SystemBreakpoint")])))
      = [.dputs "Attach breakpoint reached!"] ∧
    pausesIn (emitted (attachedWith [("Events", "SystemBreakpoint")])
      (cbSystemBreakpoint (attachedWith [("Events", "SystemBreakpoint")]))) = false :=
  ⟨by decide,
   (C21_system_breakpoint_logs_once_and_pauses_on_its_option startup).2.2.2
      [("Events", "AttachBreakpoint")] (by decide),
   (C21_system_breakpoint_logs_once_and_pauses_on_its_option startup).2.1,
   by decide,
   (C21_system_breakpoint_logs_once_and_pauses_on_its_option
      (attachedWith [("Events", "SystemBreakpoint")])).2.1,
   by decide⟩

/-! ## A trap that matches no registry entry: results -/

/-- The hardware hit handler on a trap that matches no registry entry: it logs
the diagnostic and nothing else, deletes nothing, hands the plugin callback a
null breakpoint and pauses, whatever its local record holds. -/
theorem cbHardwareBreakpoint_unresolved (ExceptionAddress : Nat) (uninit : BREAKPOINT) (s : Dbg)
    (h : BpGet ExceptionAddress .BPHARDWARE s = none) :
    logged (emitted s (cbHardwareBreakpoint ExceptionAddress uninit s))
      = [.dputs "Hardware breakpoint reached not in list!"] ∧
    deletions (emitted s (cbHardwareBreakpoint ExceptionAddress uninit s)) = [] ∧
    (cbHardwareBreakpoint ExceptionAddress uninit s).breakpoints = s.breakpoints ∧
    pluginBreakpoints (emitted s (cbHardwareBreakpoint ExceptionAddress uninit s)) = [none] ∧
    pausesIn (emitted s (cbHardwareBreakpoint ExceptionAddress uninit s)) = true := by
  simp only [BpGet] at h
  simp only [cbHardwareBreakpoint, BpGet, GetContextDataEx, ThreadGetHandle, emitted, h]
  simp [emit, plugincbcall, dputs, GuiSetDebugState, DebugUpdateGui, lock, wait, deletions,
    logged, pluginBreakpoints, pausesIn, Event.isLockRun, Event.isWaitRun]

/-- The software hit handler on a trap that matches no registry entry, when the
`enabled` field of its unfilled local record happens to be true: it logs the
diagnostic and nothing else, deletes nothing, hands the plugin callback a null
breakpoint and pauses. -/
theorem cbUserBreakpoint_unresolved (uninit : BREAKPOINT) (s : Dbg)
    (h : BpGet (GetContextDataEx (ThreadGetHandle s.dwThreadId s) s) .BPNORMAL s = none)
    (hen : uninit.enabled = true) :
    logged (emitted s (cbUserBreakpoint uninit s)) = [.dputs "Breakpoint reached not in list!"] ∧
    deletions (emitted s (cbUserBreakpoint uninit s)) = [] ∧
    (cbUserBreakpoint uninit s).breakpoints = s.breakpoints ∧
    pluginBreakpoints (emitted s (cbUserBreakpoint uninit s)) = [none] ∧
    pausesIn (emitted s (cbUserBreakpoint uninit s)) = true := by
  simp only [BpGet, GetContextDataEx, ThreadGetHandle] at h
  simp only [cbUserBreakpoint, BpGet, GetContextDataEx, ThreadGetHandle, emitted, h]
  simp [hen, emit, plugincbcall, dputs, GuiSetDebugState, DebugUpdateGui, lock, wait, deletions,
    logged, pluginBreakpoints, pausesIn, Event.isLockRun, Event.isWaitRun]

/-- The memory hit handler on a trap that matches no registry entry, when the
`singleshoot` field of its unfilled local record happens to be false: it logs
the diagnostic and nothing else, deletes nothing, hands the plugin callback a
null breakpoint and pauses. -/
theorem cbMemoryBreakpoint_unresolved (ExceptionAddress : Nat) (uninit : BREAKPOINT) (s : Dbg)
    (h : BpGet (MemFindBaseAddr ExceptionAddress s).1 .BPMEMORY s = none)
    (hss : uninit.singleshoot = false) :
    logged (emitted s (cbMemoryBreakpoint ExceptionAddress uninit s))
      = [.dputs "Memory breakpoint reached not in list!"] ∧
    deletions (emitted s (cbMemoryBreakpoint ExceptionAddress uninit s)) = [] ∧
    (cbMemoryBreakpoint ExceptionAddress uninit s).breakpoints = s.breakpoints ∧
    pluginBreakpoints (emitted s (cbMemoryBreakpoint ExceptionAddress uninit s)) = [none] ∧
    pausesIn (emitted s (cbMemoryBreakpoint ExceptionAddress uninit s)) = true := by
  simp only [BpGet, MemFindBaseAddr] at h
  simp only [cbMemoryBreakpoint, BpGet, MemFindBaseAddr, GetContextDataEx, ThreadGetHandle,
    emitted, h]
  simp [hss, emit, plugincbcall, dputs, GuiSetDebugState, DebugUpdateGui, lock, wait, deletions,
    logged, pluginBreakpoints, pausesIn, Event.isLockRun, Event.isWaitRun]

/-- C22: evaluated on a trap at `0x401000` that matches no registry entry, while
the registry holds an entry at `0x402000` and the unfilled local record of the
handler holds the fields of a disabled single-shot entry at `0x402000`.  The
software hit handler logs no "not in list" diagnostic but a breakpoint line for
`0x402000`, deletes the software entry at `0x402000` and hands the plugin
callback the local record; the memory hit handler logs the diagnostic and hands
over a null breakpoint, but deletes the memory entry at `0x402000`; the
hardware hit handler does what the claim says.  All three pause. -/
theorem C22_unresolved_trap_reads_unfilled_local :
    (BpGet (GetContextDataEx (ThreadGetHandle (entryElsewhere .BPNORMAL).dwThreadId
        (entryElsewhere .BPNORMAL)) (entryElsewhere .BPNORMAL)) .BPNORMAL
        (entryElsewhere .BPNORMAL) = none ∧
      logged (emitted (entryElsewhere .BPNORMAL)
        (cbUserBreakpoint (staleLocal .BPNORMAL) (entryElsewhere .BPNORMAL)))
        = [.dprintf ("%s breakpoint at " ++ fhex ++ "!\n") [.str "INT3", .num 0x402000]] ∧
      deletions (emitted (entryElsewhere .BPNORMAL)
        (cbUserBreakpoint (staleLocal .BPNORMAL) (entryElsewhere .BPNORMAL)))
        = [(0x402000, .BPNORMAL)] ∧
      (entryElsewhere .BPNORMAL).breakpoints.length = 1 ∧
      (cbUserBreakpoint (staleLocal .BPNORMAL) (entryElsewhere .BPNORMAL)).breakpoints = [] ∧
      pluginBreakpoints (emitted (entryElsewhere .BPNORMAL)
        (cbUserBreakpoint (staleLocal .BPNORMAL) (entryElsewhere .BPNORMAL)))
        = [some (staleLocal .BPNORMAL)] ∧
      pausesIn (emitted (entryElsewhere .BPNORMAL)
        (cbUserBreakpoint (staleLocal .BPNORMAL) (entryElsewhere .BPNORMAL))) = true) ∧
    (BpGet (MemFindBaseAddr 0x401234 (entryElsewhere .BPMEMORY)).1 .BPMEMORY
        (entryElsewhere .BPMEMORY) = none ∧
      logged (emitted (entryElsewhere .BPMEMORY)
        (cbMemoryBreakpoint 0x401234 (staleLocal .BPMEMORY) (entryElsewhere .BPMEMORY)))
        = [.dputs "Memory breakpoint reached not in list!"] ∧
      deletions (emitted (entryElsewhere .BPMEMORY)
        (cbMemoryBreakpoint 0x401234 (staleLocal .BPMEMORY) (entryElsewhere .BPMEMORY)))
        = [(0x402000, .BPMEMORY)] ∧
      (entryElsewhere .BPMEMORY).breakpoints.length = 1 ∧
      (cbMemoryBreakpoint 0x401234 (staleLocal .BPMEMORY)
        (entryElsewhere .BPMEMORY)).breakpoints = [] ∧
      pluginBreakpoints (emitted (entryElsewhere .BPMEMORY)
        (cbMemoryBreakpoint 0x401234 (staleLocal .BPMEMORY) (entryElsewhere .BPMEMORY)))
        = [none] ∧
      pausesIn (emitted (entryElsewhere .BPMEMORY)
        (cbMemoryBreakpoint 0x401234 (staleLocal .BPMEMORY) (entryElsewhere .BPMEMORY)))
        = true) ∧
    (BpGet 0x401000 .BPHARDWARE (entryElsewhere .BPHARDWARE) = none ∧
      logged (emitted (entryElsewhere .BPHARDWARE)
        (cbHardwareBreakpoint 0x401000 (staleLocal .BPHARDWARE) (entryElsewhere .BPHARDWARE)))
        = [.dputs "Hardware breakpoint reached not in list!"] ∧
      deletions (emitted (entryElsewhere .BPHARDWARE)
        (cbHardwareBreakpoint 0x401000 (staleLocal .BPHARDWARE) (entryElsewhere .BPHARDWARE)))
        = [] ∧
      (cbHardwareBreakpoint 0x401000 (staleLocal .BPHARDWARE)
        (entryElsewhere .BPHARDWARE)).breakpoints = (entryElsewhere .BPHARDWARE).breakpoints ∧
      pluginBreakpoints (emitted (entryElsewhere .BPHARDWARE)
        (cbHardwareBreakpoint 0x401000 (staleLocal .BPHARDWARE) (entryElsewhere .BPHARDWARE)))
        = [none] ∧
      pausesIn (emitted (entryElsewhere .BPHARDWARE)
        (cbHardwareBreakpoint 0x401000 (staleLocal .BPHARDWARE) (entryElsewhere .BPHARDWARE)))
        = true) := by
  decide

/-! ## The continuation status of an unowned trap: results -/

/-- C23 (counterexample): a first-chance breakpoint trap with no operator
detach or pause pending leaves the continuation status "not handled"
(`DBG_EXCEPTION_NOT_HANDLED`), not "handled". -/
theorem C23_counterexample :
    (exceptionAt EXCEPTION_BREAKPOINT 1).ExceptionCode = EXCEPTION_BREAKPOINT ∧
    startup.isDetachedByUser = false ∧ startup.isPausedByUser = false ∧
    startup.titan.continueStatus = DBG_CONTINUE ∧
    (cbException (exceptionAt EXCEPTION_BREAKPOINT 1) startup).titan.continueStatus
      = DBG_EXCEPTION_NOT_HANDLED ∧
    DBG_EXCEPTION_NOT_HANDLED ≠ DBG_CONTINUE := by
  decide

/-- C23 (amended): for a breakpoint trap that reaches `cbException` with no
operator detach or pause pending, the continuation status the handler sets is
"not handled" (`DBG_EXCEPTION_NOT_HANDLED`) on first-chance delivery and
"handled" (`DBG_CONTINUE`) on last-chance delivery, whatever the status was
before and whatever the registry holds. -/
theorem C23_unowned_trap_status_by_chance (e : EXCEPTION_DEBUG_INFO) (s : Dbg)
    (hbp : e.ExceptionCode = EXCEPTION_BREAKPOINT) (hd : s.isDetachedByUser = false)
    (hp : s.isPausedByUser = false) :
    (e.dwFirstChance ≠ 0 →
      (cbException e s).titan.continueStatus = DBG_EXCEPTION_NOT_HANDLED) ∧
    (e.dwFirstChance = 0 → (cbException e s).titan.continueStatus = DBG_CONTINUE) := by
  have _ := hbp
  have h := cbException_status_generic e s (fun _ => ⟨hd, hp⟩)
  constructor
  · intro hf
    rw [h, if_pos hf]
  · intro hf
    rw [h, if_neg (by simpa using hf)]

/-- C23 (witness): the breakpoint trap at program start, delivered first-chance
and then last-chance. -/
theorem C23_unowned_trap_status_by_chance_witness :
    (cbException (exceptionAt EXCEPTION_BREAKPOINT 1) startup).titan.continueStatus
      = DBG_EXCEPTION_NOT_HANDLED ∧
    (cbException (exceptionAt EXCEPTION_BREAKPOINT 0) startup).titan.continueStatus
      = DBG_CONTINUE :=
  ⟨(C23_unowned_trap_status_by_chance (exceptionAt EXCEPTION_BREAKPOINT 1) startup rfl rfl
      rfl).1 (by decide),
   (C23_unowned_trap_status_by_chance (exceptionAt EXCEPTION_BREAKPOINT 0) startup rfl rfl
      rfl).2 rfl⟩

/-! ## Calls that leave the session flags alone: results -/

theorem framed_refl (ok : Event → Bool) (s : Dbg) : framed ok s s :=
  ⟨[], by simp, rfl, rfl, rfl, rfl, rfl⟩

theorem framed_trans (ok : Event → Bool) (s t u : Dbg) (h1 : framed ok s t)
    (h2 : framed ok t u) : framed ok s u := by
  obtain ⟨P, hP, oP, a1, b1, c1, d1⟩ := h1
  obtain ⟨Q, hQ, oQ, a2, b2, c2, d2⟩ := h2
  exact ⟨P ++ Q, by rw [hQ, hP, List.append_assoc], by simp [List.all_append, oP, oQ],
    a2.trans a1, b2.trans b1, c2.trans c1, d2.trans d1⟩

theorem framed_emit (ok : Event → Bool) (e : Event) (s : Dbg) (h : ok e = true) :
    framed ok s (emit e s) :=
  ⟨[e], rfl, by simp [h], rfl, rfl, rfl, rfl⟩

/-- A state that differs from `s` in none of the framed fields and has the same
record of calls. -/
theorem framed_of_same (ok : Event → Bool) (s t : Dbg) (he : t.events = s.events)
    (h1 : t.bBreakOnNextDll = s.bBreakOnNextDll) (h2 : t.settings = s.settings)
    (h3 : t.bFileIsDll = s.bFileIsDll) (h4 : t.bIsAttached = s.bIsAttached) :
    framed ok s t :=
  ⟨[], by simp [he], rfl, h1, h2, h3, h4⟩

theorem framed_dbggetprivateusage (ok : Event → Bool) (update : Bool) (s : Dbg) :
    framed ok s (dbggetprivateusage update s).2 := by
  rw [dbggetprivateusage_eq]
  exact framed_of_same ok _ _ rfl rfl rfl rfl rfl

/-- Installing the trap of one entry makes only install calls and leaves the
framed fields alone. -/
theorem cbSetModuleBreakpoints_framed (ok : Event → Bool)
    (hok : ∀ e : Event, e.isInstallCall = true → ok e = true) (bp : BREAKPOINT) (s : Dbg) :
    framed ok s (cbSetModuleBreakpoints bp s).2 := by
  have h1 : ∀ f a, ok (.dprintf f a) = true := fun f a => hok _ rfl
  have h2 : ∀ t, ok (.dputs t) = true := fun t => hok _ rfl
  have h3 : ∀ o r, ok (.titan o r) = true := fun o r => hok _ rfl
  have h4 : ∀ a t x, ok (.BpSetTitanType a t x) = true := fun a t x => hok _ rfl
  refine ⟨emitted s (cbSetModuleBreakpoints bp s).2, ?_, ?_, ?_, ?_, ?_, ?_⟩ <;>
  simp only [cbSetModuleBreakpoints, SetBPX, SetMemoryBPXEx, SetHardwareBreakPoint, titanCall,
    BpSetTitanType, emitted] <;>
  cases bp.enabled <;> cases bp.type <;>
  simp only [Bool.not_true, Bool.not_false, if_true, if_false, Bool.false_eq_true] <;>
  (try cases GetUnusedHardwareBreakPointRegister s) <;>
  (try dsimp only) <;> (try split_ifs) <;> simp [emit, dprintf, dputs, h1, h2, h3, h4]

/-- The enumeration stays within the frame when each call of the callback
does. -/
theorem BpEnumAll_framed (ok : Event → Bool) (cb : BREAKPOINT → Dbg → Bool × Dbg)
    (h : ∀ b s, framed ok s (cb b s).2) (Module : String) (s : Dbg) :
    framed ok s (BpEnumAll cb Module s).2 := by
  unfold BpEnumAll
  generalize s.breakpoints.filter (fun b => b.mod = Module) = l
  have gen : ∀ (l : List BREAKPOINT) (acc : Bool × Dbg),
      framed ok acc.2
        (l.foldl (fun acc b => ((cb b acc.2).1 && acc.1, (cb b acc.2).2)) acc).2 := by
    intro l
    induction l with
    | nil => intro acc; exact framed_refl ok _
    | cons b l ih =>
      intro acc
      simp only [List.foldl_cons]
      exact framed_trans ok _ _ _ (h b acc.2) (ih _)
  exact gen l (true, s)

/-- The loop over the TLS callbacks makes only `bp` commands for TLS callbacks
and leaves the framed fields alone. -/
theorem tlsCallbackLoop_framed (ok : Event → Bool)
    (hok : ∀ a, ok (.cmddirectexec ("bp " ++ fhex ++ ",\"TLS Callback %d\",ss") a) = true ∧
      ok (.cmddirectexec ("bp " ++ fhex ++ ",\"TLS Callback %d (%s)\",ss") a) = true)
    (bIsDebuggingThis : Bool) (modname : String) (ImageBase base : Nat) (l : List Nat) :
    ∀ (i : Nat) (acc : Dbg × Nat),
      framed ok acc.1 (tlsCallbackLoop bIsDebuggingThis modname ImageBase base i l acc).1 := by
  induction l with
  | nil => intro i acc; exact framed_refl ok _
  | cons c l ih =>
    intro i acc
    obtain ⟨s, n⟩ := acc
    simp only [tlsCallbackLoop]
    split_ifs
    · exact framed_trans ok _ _ _ (framed_emit ok _ s (hok _).1) (ih _ _)
    · exact framed_trans ok _ _ _ (framed_emit ok _ s (hok _).2) (ih _ _)
    · exact ih _ _

/-- Recording a module makes one call and leaves the framed fields alone. -/
theorem framed_ModLoad (ok : Event → Bool) (hok : ∀ n a, ok (.call n a) = true)
    (base size : Nat) (name : String) (s : Dbg) : framed ok s (ModLoad base size name s) :=
  ⟨[.call "ModLoad" [.num base, .num size, .str name]], rfl, by simp [hok], rfl, rfl, rfl, rfl⟩

theorem entryBreakpoints_append (P L : List Event) :
    entryBreakpoints (P ++ L) = entryBreakpoints P ++ entryBreakpoints L := by
  simp [entryBreakpoints, List.filterMap_append]

theorem entryBreakpoints_of_none (P : List Event) (h : P.all Event.noEntryBreakpoint = true) :
    entryBreakpoints P = [] := by
  induction P with
  | nil => rfl
  | cons e P ih =>
    simp only [List.all_cons, Bool.and_eq_true] at h
    have h1 := h.1
    cases e <;>
    simp_all [entryBreakpoints, Event.noEntryBreakpoint, Event.isEntryBreakpointCommand]

/-- The "entry breakpoint" commands of `cbCreateProcess`: one, for the start
address of the notification, in a launched session of an executable with the
option on; none otherwise.  The calls before it and after it (module
bookkeeping, installing the traps of the module, the TLS callback commands)
are no "entry breakpoint" commands. -/
theorem cbCreateProcess_entry (info : CREATE_PROCESS_DEBUG_INFO) (s : Dbg) :
    entryBreakpoints (emitted s (cbCreateProcess info s)) =
      (if !s.bFileIsDll && !s.bIsAttached && settingboolget "Events" "EntryBreakpoint" s then
        [[.num info.lpStartAddress]] else []) := by
  unfold cbCreateProcess
  lift_lets
  extract_lets base name s1 s2 s3 s4 s5 sqlitedb s6 s7 s8 s9 s10 s11 s12 s13 found modname s14
    s15 s16 s17 count sT ImageBase s18 s19 s20 s21
  have hcall : ∀ n a, Event.noEntryBreakpoint (.call n a) = true := fun _ _ => rfl
  have htls : ∀ a,
      Event.noEntryBreakpoint (.cmddirectexec ("bp " ++ fhex ++ ",\"TLS Callback %d\",ss") a)
        = true ∧
      Event.noEntryBreakpoint
        (.cmddirectexec ("bp " ++ fhex ++ ",\"TLS Callback %d (%s)\",ss") a) = true := by
    intro a
    constructor <;>
    simp only [Event.noEntryBreakpoint, Event.isEntryBreakpointCommand] <;> decide
  have g1 : framed Event.noEntryBreakpoint s s1 := framed_emit _ (.dprintf _ _) s rfl
  have g2 : framed Event.noEntryBreakpoint s1 s2 := framed_dbggetprivateusage _ _ _
  have g3 : framed Event.noEntryBreakpoint s2 s3 := framed_emit _ _ _ rfl
  have g4 : framed Event.noEntryBreakpoint s3 s4 := framed_emit _ _ _ rfl
  have g5 : framed Event.noEntryBreakpoint s4 s5 := framed_emit _ _ _ rfl
  have g6 : framed Event.noEntryBreakpoint s5 s6 := by
    simp only [s6]
    split_ifs
    · exact framed_emit _ _ _ rfl
    · exact framed_emit _ _ _ rfl
  have g7 : framed Event.noEntryBreakpoint s6 s7 := framed_emit _ _ _ rfl
  have g8 : framed Event.noEntryBreakpoint s7 s8 := framed_emit _ _ _ rfl
  have g9 : framed Event.noEntryBreakpoint s8 s9 := framed_emit _ _ _ rfl
  have g10 : framed Event.noEntryBreakpoint s9 s10 := framed_emit _ _ _ rfl
  have g11 : framed Event.noEntryBreakpoint s10 s11 := framed_emit _ _ _ rfl
  have g12 : framed Event.noEntryBreakpoint s11 s12 := framed_emit _ _ _ rfl
  have g13 : framed Event.noEntryBreakpoint s12 s13 := by
    simp only [s13]
    cases SafeSymGetModuleInfo64 base s12
    · exact framed_refl _ _
    · exact framed_ModLoad _ hcall _ _ _ _
  have g14 : framed Event.noEntryBreakpoint s13 s14 := by
    simp only [s14]
    split_ifs
    · exact BpEnumAll_framed _ _
        (cbSetModuleBreakpoints_framed _ (fun e he => by
          cases e <;> simp_all [Event.isInstallCall, Event.noEntryBreakpoint,
            Event.isEntryBreakpointCommand])) _ _
    · exact framed_refl _ _
  have g15 : framed Event.noEntryBreakpoint s14 s15 := framed_emit _ _ _ rfl
  have g16 : framed Event.noEntryBreakpoint s15 s16 := framed_of_same _ _ _ rfl rfl rfl rfl rfl
  have g17 : framed Event.noEntryBreakpoint s16 s17 := framed_of_same _ _ _ rfl rfl rfl rfl rfl
  have gT : framed Event.noEntryBreakpoint s17 sT :=
    framed_emit _ (.dprintf "TLS Callbacks: %d\n" [.num count]) s17 rfl
  have g18 : framed Event.noEntryBreakpoint s17 s18 := by
    simp only [s18]
    split_ifs
    · cases TLSGrabCallBackDataW name sT with
      | none =>
        exact framed_trans _ _ sT _ gT
          (framed_emit _ (.dputs "Failed to get TLS callback addresses!") sT rfl)
      | some cbs =>
        have fl := tlsCallbackLoop_framed Event.noEntryBreakpoint htls true "" ImageBase
          s17.pDebuggedBase cbs 0 (sT, 0)
        dsimp only
        split_ifs
        · exact framed_trans _ _ sT _ gT (framed_trans _ _ _ _ fl
            (framed_emit _ (.dprintf _ _) _ rfl))
        · exact framed_trans _ _ sT _ gT fl
    · exact framed_refl _ _
    · exact framed_refl _ _
  have h16 : framed Event.noEntryBreakpoint s s16 :=
    framed_trans _ _ _ _ g1 (framed_trans _ _ _ _ g2 (framed_trans _ _ _ _ g3
      (framed_trans _ _ _ _ g4 (framed_trans _ _ _ _ g5 (framed_trans _ _ _ _ g6
      (framed_trans _ _ _ _ g7 (framed_trans _ _ _ _ g8 (framed_trans _ _ _ _ g9
      (framed_trans _ _ _ _ g10 (framed_trans _ _ _ _ g11 (framed_trans _ _ _ _ g12
      (framed_trans _ _ _ _ g13 (framed_trans _ _ _ _ g14 (framed_trans _ _ _ _ g15
        g16))))))))))))))
  have h18 : framed Event.noEntryBreakpoint s s18 :=
    framed_trans _ _ _ _ h16 (framed_trans _ _ _ _ g17 g18)
  obtain ⟨P16, e16, o16, -, st16, dll16, att16⟩ := h16
  obtain ⟨P18, e18, o18, -, st18, -, -⟩ := h18
  have n16 := entryBreakpoints_of_none P16 o16
  have n18 := entryBreakpoints_of_none P18 o18
  clear_value s18 s16
  simp only [s21, s20, s19, ThreadCreate, plugincbcall, cmddirectexec, emit, emitted,
    settingboolget, dll16, att16, st18]
  cases s.bFileIsDll <;> cases s.bIsAttached <;>
  by_cases hopt : ("Events", "EntryBreakpoint") ∈ s.settings <;>
  simp only [hopt, e16, e18, List.append_assoc, List.drop_left, entryBreakpoints_append,
    n16, n18, Bool.not_false, Bool.not_true, Bool.and_self, Bool.and_false, Bool.false_and,
    Bool.and_true, decide_True, decide_False, if_true, if_false, Bool.false_eq_true,
    List.nil_append, List.cons_append] <;>
  simp [entryBreakpoints]

/-- Claim C24 as stated fails: in a launched session of an executable with the
entry-breakpoint option on and the entry point of the file at offset `0x1000`,
the notification for the image at `0x400000` whose main thread starts at
`0x401500` gets its one "entry breakpoint" command at `0x401500`, not at
base + entry offset = `0x401000`. -/
theorem C24_counterexample :
    entryOptionOn.bFileIsDll = false ∧ entryOptionOn.bIsAttached = false ∧
    settingboolget "Events" "EntryBreakpoint" entryOptionOn = true ∧
    entryBreakpoints (emitted entryOptionOn (cbCreateProcess lateStart entryOptionOn))
      = [[.num 0x401500]] ∧
    duintAdd (cbCreateProcess lateStart entryOptionOn).pCreateProcessBase
      (cbCreateProcess lateStart entryOptionOn).pDebuggedEntry = 0x401000 ∧
    entryBreakpoints (emitted entryOptionOn (cbCreateProcess lateStart entryOptionOn))
      ≠ [[.num (duintAdd (cbCreateProcess lateStart entryOptionOn).pCreateProcessBase
          (cbCreateProcess lateStart entryOptionOn).pDebuggedEntry)]] := by
  decide

/-- Claim C24, amended: in a launched session of an executable with the
entry-breakpoint option on, `cbCreateProcess` issues exactly one command
`bp <address>,"entry breakpoint",ss`, and its address is the start address
reported by the notification (`lpStartAddress`); it issues none when the session
is attached, when the debuggee is a DLL, or when the option is off. -/
theorem C24_entry_breakpoint_at_reported_start_address
    (info : CREATE_PROCESS_DEBUG_INFO) (s : Dbg) :
    (s.bFileIsDll = false → s.bIsAttached = false →
      settingboolget "Events" "EntryBreakpoint" s = true →
      entryBreakpoints (emitted s (cbCreateProcess info s)) = [[.num info.lpStartAddress]] ∧
      .cmddirectexec ("bp " ++ fhex ++ ",\"entry breakpoint\",ss") [.num info.lpStartAddress]
        ∈ emitted s (cbCreateProcess info s)) ∧
    (s.bIsAttached = true ∨ s.bFileIsDll = true ∨
      settingboolget "Events" "EntryBreakpoint" s = false →
      entryBreakpoints (emitted s (cbCreateProcess info s)) = []) := by
  have key := cbCreateProcess_entry info s
  constructor
  · intro hdll hatt hopt
    rw [hdll, hatt, hopt] at key
    simp only [Bool.not_false, Bool.and_self, if_true] at key
    refine ⟨key, ?_⟩
    have hmem : [Arg.num info.lpStartAddress]
        ∈ entryBreakpoints (emitted s (cbCreateProcess info s)) := by
      rw [key]; exact List.mem_singleton.mpr rfl
    simp only [entryBreakpoints, List.mem_filterMap] at hmem
    obtain ⟨e, he, hargs⟩ := hmem
    cases e <;> simp at hargs
    obtain ⟨hf, ha⟩ := hargs
    subst hf; subst ha
    exact he
  · intro h
    rw [key]
    rcases h with h | h | h <;> simp [h]

/-- The amended claim C24 at work: the notification `lateStart` in the launched
session `entryOptionOn` gets one command at `0x401500`; the same notification
in an attached session with the option on gets none. -/
theorem C24_entry_breakpoint_at_reported_start_address_witness :
    (entryBreakpoints (emitted entryOptionOn (cbCreateProcess lateStart entryOptionOn))
        = [[.num 0x401500]] ∧
      .cmddirectexec ("bp " ++ fhex ++ ",\"entry breakpoint\",ss") [.num 0x401500]
        ∈ emitted entryOptionOn (cbCreateProcess lateStart entryOptionOn)) ∧
    entryBreakpoints (emitted (attachedWith [("Events", "EntryBreakpoint")])
      (cbCreateProcess lateStart (attachedWith [("Events", "EntryBreakpoint")]))) = [] :=
  ⟨(C24_entry_breakpoint_at_reported_start_address lateStart entryOptionOn).1
      (by decide) (by decide) (by decide),
    (C24_entry_breakpoint_at_reported_start_address lateStart
      (attachedWith [("Events", "EntryBreakpoint")])).2 (Or.inl (by decide))⟩

/-! ## Pausing on module load and unload: results -/

/-- C25: evaluated on a module load with the "break on next module" flag set
and the option `Events/DllLoad` off, in a session with the option
`Events/TlsCallbacks` on where the module has a TLS callback at an unreadable
address.  `cbLoadDll` counts the callback as invalid and faults at line 935:
its last logged line is "TLS Callbacks: 1", it does not pause, and the flag is
still set.  `cbCreateProcess`, whose line 727 has `%d`, logs the count for the
executable of the same session and carries on.  With no TLS callback to
report, as at program start, the same request pauses the module load and the
flag is false afterwards. -/
theorem C25_module_load_faults_before_the_pause :
    (cbLibrarianBreakpoint unreadableTls).bBreakOnNextDll = true ∧
    settingboolget "Events" "DllLoad" (cbLibrarianBreakpoint unreadableTls) = false ∧
    returned (cbLoadDll sampleLoadDll (cbLibrarianBreakpoint unreadableTls)) = false ∧
    logged (emitted (cbLibrarianBreakpoint unreadableTls)
      (reached (cbLoadDll sampleLoadDll (cbLibrarianBreakpoint unreadableTls))))
      = [.dprintf "TLS Callbacks: %d\n" [.num 1]] ∧
    pausesIn (emitted (cbLibrarianBreakpoint unreadableTls)
      (reached (cbLoadDll sampleLoadDll (cbLibrarianBreakpoint unreadableTls)))) = false ∧
    (reached (cbLoadDll sampleLoadDll (cbLibrarianBreakpoint unreadableTls))).bBreakOnNextDll
      = true ∧
    Event.dprintf "%d invalid TLS callback addresses...\n" [.num 1]
      ∈ logged (emitted unreadableTls (cbCreateProcess sampleProcess unreadableTls)) ∧
    returned (cbLoadDll sampleLoadDll (cbLibrarianBreakpoint startup)) = true ∧
    pausesIn (emitted (cbLibrarianBreakpoint startup)
      (reached (cbLoadDll sampleLoadDll (cbLibrarianBreakpoint startup)))) = true ∧
    (reached (cbLoadDll sampleLoadDll (cbLibrarianBreakpoint startup))).bBreakOnNextDll
      = false := by
  decide

/-! ## Repeated debug strings: results -/

/-- The same readable ASCII payload, neither empty nor a lone newline, sent `n`
times in a row: the handler logs `n / 2` lines when the text is the remembered
one at the start and `(n + 1) / 2` lines otherwise; afterwards the text is
remembered exactly when the last notification was logged. -/
theorem debugString_repeated (D : OUTPUT_DEBUG_STRING_INFO) (text : List Nat)
    (hascii : D.fUnicode = 0) (hne : cString text ≠ []) (hnl : cString text ≠ [10]) :
    ∀ (n : Nat) (s : Dbg),
      MemRead D.lpDebugStringData D.nDebugStringLength s = some text →
      ∃ P : List Event, ((cbOutputDebugString D)^[n] s).events = s.events ++ P ∧
        debugStringLines P
          = (if s.lastDebugText = cString text then n / 2 else (n + 1) / 2) ∧
        ((cbOutputDebugString D)^[n] s).lastDebugText
          = (if n = 0 then s.lastDebugText
             else if (s.lastDebugText = cString text) = (n % 2 = 1) then [] else cString text) ∧
        ((cbOutputDebugString D)^[n] s).memory = s.memory := by
  intro n
  induction n with
  | zero =>
    intro s _
    refine ⟨[], by simp, ?_, by simp, by simp⟩
    split_ifs <;> simp [debugStringLines]
  | succ n ih =>
    intro s hread
    obtain ⟨P1, e1, l1, r1, m1⟩ := cbOutputDebugString_step D s text hascii hread
    have hread2 : MemRead D.lpDebugStringData D.nDebugStringLength (cbOutputDebugString D s)
        = some text := by
      simpa only [MemRead, m1] using hread
    obtain ⟨P2, e2, l2, r2, m2⟩ := ih (cbOutputDebugString D s) hread2
    rw [Function.iterate_succ_apply]
    refine ⟨P1 ++ P2, by rw [e2, e1, List.append_assoc], ?_, ?_, by rw [m2, m1]⟩
    · rw [debugStringLines_append, l1, l2, r1]
      by_cases hs : s.lastDebugText = cString text
      · rw [hs]
        simp [Ne.symm hne]
      · have hs2 : cString text ≠ s.lastDebugText := fun h => hs h.symm
        simp only [hs2, hnl, ne_eq, not_false_eq_true, and_self, if_true, hs, if_false]
        omega
    · rw [r2, r1]
      by_cases hs : s.lastDebugText = cString text
      · rw [hs]
        rcases Nat.mod_two_eq_zero_or_one n with h | h <;>
        by_cases h0 : n = 0 <;> simp [h, h0, Nat.add_mod, hne, Ne.symm hne]
      · have hs2 : cString text ≠ s.lastDebugText := fun h => hs h.symm
        simp only [hs2, ne_eq, not_false_eq_true, if_true, hs, Nat.succ_ne_zero, if_false]
        rcases Nat.mod_two_eq_zero_or_one n with h | h <;>
        by_cases h0 : n = 0 <;> simp [h, h0, Nat.add_mod, hne, Ne.symm hne]

/-- C26: starting from a remembered string different from the payload, `n`
consecutive ASCII debug-string notifications with the same readable payload,
neither empty nor a lone newline, log exactly ceil(n/2) = `(n + 1) / 2`
"DebugString" lines; the remembered string is the payload after an odd number
of them and empty after an even number (a suppressed duplicate clears it), so
the third identical notification is logged again. -/
theorem C26_repeated_debug_string_logs_every_other (D : OUTPUT_DEBUG_STRING_INFO) (s : Dbg)
    (text : List Nat) (n : Nat)
    (hascii : D.fUnicode = 0)
    (hread : MemRead D.lpDebugStringData D.nDebugStringLength s = some text)
    (hne : cString text ≠ []) (hnl : cString text ≠ [10])
    (hprev : s.lastDebugText ≠ cString text) :
    debugStringLines (emitted s ((cbOutputDebugString D)^[n] s)) = (n + 1) / 2 ∧
    (n % 2 = 1 → ((cbOutputDebugString D)^[n] s).lastDebugText = cString text) ∧
    (0 < n → n % 2 = 0 → ((cbOutputDebugString D)^[n] s).lastDebugText = []) ∧
    debugStringLines (emitted ((cbOutputDebugString D)^[2] s) ((cbOutputDebugString D)^[3] s))
      = 1 := by
  obtain ⟨P, e, l, r, -⟩ := debugString_repeated D text hascii hne hnl n s hread
  obtain ⟨P2, e2, l2, r2, m2⟩ := debugString_repeated D text hascii hne hnl 2 s hread
  have hread2 : MemRead D.lpDebugStringData D.nDebugStringLength ((cbOutputDebugString D)^[2] s)
      = some text := by
    simpa only [MemRead, m2] using hread
  obtain ⟨P3, e3, l3, -, -⟩ :=
    debugString_repeated D text hascii hne hnl 1 ((cbOutputDebugString D)^[2] s) hread2
  refine ⟨?_, ?_, ?_, ?_⟩
  · rw [emitted_of_append s _ P e, l, if_neg hprev]
  · intro hodd
    have h0 : n ≠ 0 := by omega
    rw [r]
    simp [h0, hprev, hodd]
  · intro hpos heven
    have h0 : n ≠ 0 := by omega
    rw [r]
    simp [h0, hprev, heven]
  · have h32 : (cbOutputDebugString D)^[3] s
        = (cbOutputDebugString D)^[1] ((cbOutputDebugString D)^[2] s) := rfl
    rw [h32, emitted_of_append _ _ P3 e3, l3, r2]
    simp [hprev, Ne.symm hne]

/-- C26 at work: the string `"hello\n"` sent three times at program start,
where nothing is remembered, is logged twice, and five times, three times. -/
theorem C26_repeated_debug_string_logs_every_other_witness :
    debugStringLines (emitted startup ((cbOutputDebugString sampleDebugString)^[3] startup))
      = 2 ∧
    debugStringLines (emitted startup ((cbOutputDebugString sampleDebugString)^[5] startup))
      = 3 :=
  ⟨(C26_repeated_debug_string_logs_every_other sampleDebugString startup
      [104, 101, 108, 108, 111, 10, 0] 3 (by decide) (by decide) (by decide) (by decide)
      (by decide)).1,
    (C26_repeated_debug_string_logs_every_other sampleDebugString startup
      [104, 101, 108, 108, 111, 10, 0] 5 (by decide) (by decide) (by decide) (by decide)
      (by decide)).1⟩

/-! ## The operator-pause flag across exceptions: results -/

/-- The pause sequence of `cbException` leaves the two operator flags alone. -/
theorem cbExceptionPause_flags (s : Dbg) :
    (cbExceptionPause s).isPausedByUser = s.isPausedByUser ∧
    (cbExceptionPause s).isDetachedByUser = s.isDetachedByUser := by
  simp [cbExceptionPause, emit, plugincbcall, GuiSetDebugState, DebugUpdateGui, lock, wait]

/-- The code of `cbException` after its `if` / `else if` leaves the two operator
flags alone. -/
theorem cbExceptionRest_flags (e : EXCEPTION_DEBUG_INFO) (a : Nat) (s : Dbg) :
    (cbExceptionRest e a s).isPausedByUser = s.isPausedByUser ∧
    (cbExceptionRest e a s).isDetachedByUser = s.isDetachedByUser := by
  unfold cbExceptionRest
  by_cases hf : e.dwFirstChance ≠ 0
  · simp only [if_pos hf]
    split
    · cases ExceptionCodeToName e.ExceptionCode s <;>
        simp [SetNextDbgContinueStatus, dprintf, emit]
    · rw [(cbExceptionPause_flags _).1, (cbExceptionPause_flags _).2]
      cases ExceptionCodeToName e.ExceptionCode s <;>
        simp [SetNextDbgContinueStatus, dprintf, emit]
  · simp only [if_neg hf]
    rw [(cbExceptionPause_flags _).1, (cbExceptionPause_flags _).2]
    cases ExceptionCodeToName e.ExceptionCode s <;>
      simp [SetNextDbgContinueStatus, dprintf, emit]

/-- Decoding a thread name leaves the two operator flags alone. -/
theorem cbExceptionThreadName_flags (e : EXCEPTION_DEBUG_INFO) (s : Dbg) :
    (cbExceptionThreadName e s).isPausedByUser = s.isPausedByUser ∧
    (cbExceptionThreadName e s).isDetachedByUser = s.isDetachedByUser := by
  constructor <;>
  simp only [cbExceptionThreadName] <;>
  split_ifs <;>
  (try cases MemRead e.ExceptionInformation.szName (MAX_THREAD_NAME_SIZE - 1) s) <;>
  simp [emit, dprintf]

/-- On every path `cbException` returns with `isPausedByUser` as it found it. -/
theorem cbException_isPausedByUser (e : EXCEPTION_DEBUG_INFO) (s : Dbg) :
    (cbException e s).isPausedByUser = s.isPausedByUser := by
  by_cases hbp : e.ExceptionCode = EXCEPTION_BREAKPOINT
  · cases hd : s.isDetachedByUser
    · cases hp : s.isPausedByUser
      · rw [cbException_trap e s hbp hd hp, (cbExceptionRest_flags _ _ _).1]
        simp [SetContextDataEx, emit, hp]
      · simp [cbException, hbp, hd, hp, emit, plugincbcall, dputs, SetNextDbgContinueStatus,
          GuiSetDebugState, dbggetprivateusage_eq, DebugUpdateGui, lock, wait]
    · by_cases hr : TitanOp.DetachDebuggerEx s.dwProcessId ∈ s.titan.refused <;>
      simp [cbException, hbp, hd, emit, plugincbcall, DetachDebuggerEx, titanCall, dputs, hr]
  · by_cases hms : e.ExceptionCode = MS_VC_EXCEPTION
    · rw [cbException_threadName e s hms, (cbExceptionRest_flags _ _ _).1,
        (cbExceptionThreadName_flags _ _).1]
      simp [emit]
    · rw [cbException_other e s hbp hms, (cbExceptionRest_flags _ _ _).1]
      simp [emit]

/-- On the operator-pause path `cbException` leaves `isDetachedByUser` alone. -/
theorem cbException_userPause_detach (e : EXCEPTION_DEBUG_INFO) (s : Dbg)
    (hbp : e.ExceptionCode = EXCEPTION_BREAKPOINT) (hd : s.isDetachedByUser = false)
    (hp : s.isPausedByUser = true) :
    (cbException e s).isDetachedByUser = false := by
  simp [cbException, hbp, hd, hp, emit, plugincbcall, dputs, SetNextDbgContinueStatus,
    GuiSetDebugState, dbggetprivateusage_eq, DebugUpdateGui, lock, wait]

/-- C27: `cbException` returns with `isPausedByUser` as it found it, on every
path (first conjunct: every exception, every state).  So with the flag set and
no detach pending, a breakpoint trap takes the operator-pause path (it logs
"paused!" and pauses whatever the first-chance indicator, the skip flag and the
ignored ranges are), the flag is still set and no detach is pending
afterwards, and a later breakpoint trap takes the same path again. -/
theorem C27_operator_pause_flag_survives_exceptions (e later : EXCEPTION_DEBUG_INFO) (s : Dbg) :
    (cbException e s).isPausedByUser = s.isPausedByUser ∧
    (e.ExceptionCode = EXCEPTION_BREAKPOINT → later.ExceptionCode = EXCEPTION_BREAKPOINT →
      s.isPausedByUser = true → s.isDetachedByUser = false →
      logged (emitted s (cbException e s)) = [.dputs "paused!"] ∧
      pausesIn (emitted s (cbException e s)) = true ∧
      (cbException e s).isPausedByUser = true ∧
      (cbException e s).isDetachedByUser = false ∧
      logged (emitted (cbException e s) (cbException later (cbException e s)))
        = [.dputs "paused!"] ∧
      pausesIn (emitted (cbException e s) (cbException later (cbException e s))) = true ∧
      (cbException later (cbException e s)).isPausedByUser = true) := by
  refine ⟨cbException_isPausedByUser e s, ?_⟩
  intro hbp hbl hp hd
  have h1 : (cbException e s).isPausedByUser = true := by
    rw [cbException_isPausedByUser, hp]
  have h2 := cbException_userPause_detach e s hbp hd hp
  refine ⟨?_, ?_, h1, h2, ?_, ?_, ?_⟩
  · rw [cbException_userPause_events e s hbp hd hp]; rfl
  · rw [cbException_userPause_events e s hbp hd hp]; rfl
  · rw [cbException_userPause_events later _ hbl h2 h1]; rfl
  · rw [cbException_userPause_events later _ hbl h2 h1]; rfl
  · rw [cbException_isPausedByUser, h1]

/-- C27 (witness): two first-chance breakpoint traps in a session with the
operator-pause flag set and the skip flag set. -/
theorem C27_operator_pause_flag_survives_exceptions_witness :
    (cbException (exceptionAt EXCEPTION_BREAKPOINT 1)
      (dbgsetispausedbyuser true skippingSession)).isPausedByUser = true ∧
    pausesIn (emitted
      (cbException (exceptionAt EXCEPTION_BREAKPOINT 1)
        (dbgsetispausedbyuser true skippingSession))
      (cbException (exceptionAt EXCEPTION_BREAKPOINT 1)
        (cbException (exceptionAt EXCEPTION_BREAKPOINT 1)
          (dbgsetispausedbyuser true skippingSession)))) = true :=
  ⟨((C27_operator_pause_flag_survives_exceptions (exceptionAt EXCEPTION_BREAKPOINT 1)
      (exceptionAt EXCEPTION_BREAKPOINT 1) (dbgsetispausedbyuser true skippingSession)).2
      rfl rfl rfl rfl).2.2.1,
   ((C27_operator_pause_flag_survives_exceptions (exceptionAt EXCEPTION_BREAKPOINT 1)
      (exceptionAt EXCEPTION_BREAKPOINT 1) (dbgsetispausedbyuser true skippingSession)).2
      rfl rfl rfl rfl).2.2.2.2.2.1⟩

/-! ## A module unload and the "break on next module" request: results -/

/-- C29: on a disabled breakpoint `cbDeleteAllMemoryBreakpoints` and
`cbDeleteAllHardwareBreakpoints` return true and hand back the state they were
given, so the registry entry stays.  `cbDeleteAllBreakpoints` makes its one
`BpDelete(addr, BPNORMAL)` call whether or not the breakpoint is enabled, after
which the registry has no software entry at the address; it makes no engine
call for a disabled breakpoint, and for an enabled one whose software entry
existed it makes the one call `DeleteBPX`.  None of the three reads the kind of
the breakpoint: the result is the same for every kind. -/
theorem C29_delete_all_callbacks_and_disabled_entries (uninit : Nat) (bp : BREAKPOINT)
    (type : BP_TYPE) (s : Dbg) :
    (bp.enabled = false →
      cbDeleteAllMemoryBreakpoints uninit bp s = (true, s) ∧
      cbDeleteAllHardwareBreakpoints bp s = (true, s)) ∧
    BpGet bp.addr .BPNORMAL (cbDeleteAllBreakpoints bp s).2 = none ∧
    deletions (emitted s (cbDeleteAllBreakpoints bp s).2) = [(bp.addr, .BPNORMAL)] ∧
    (bp.enabled = false → engineCalls (emitted s (cbDeleteAllBreakpoints bp s).2) = []) ∧
    (bp.enabled = false → (BpGet bp.addr .BPNORMAL s).isSome = true →
      (cbDeleteAllBreakpoints bp s).1 = true) ∧
    (bp.enabled = true → (BpGet bp.addr .BPNORMAL s).isSome = true →
      (engineCalls (emitted s (cbDeleteAllBreakpoints bp s).2)).map Prod.fst
        = [.DeleteBPX bp.addr]) ∧
    cbDeleteAllBreakpoints { bp with type := type } s = cbDeleteAllBreakpoints bp s ∧
    cbDeleteAllMemoryBreakpoints uninit { bp with type := type } s
      = cbDeleteAllMemoryBreakpoints uninit bp s ∧
    cbDeleteAllHardwareBreakpoints { bp with type := type } s
      = cbDeleteAllHardwareBreakpoints bp s := by
  have hE := BpGet_BpDelete bp.addr .BPNORMAL s
  obtain ⟨h1, h2, h3⟩ := BpDelete_facts bp.addr .BPNORMAL s
  refine ⟨?_, ?_, ?_, ?_, ?_, ?_, rfl, rfl, rfl⟩
  · intro hen
    simp [cbDeleteAllMemoryBreakpoints, cbDeleteAllHardwareBreakpoints, hen]
  all_goals
    simp only [cbDeleteAllBreakpoints]
    generalize BpDelete bp.addr .BPNORMAL s = r at hE h1 h2 h3 ⊢
    generalize (BpGet bp.addr .BPNORMAL s).isSome = found at h1 ⊢
    simp only [BpGet, Bool.decide_and] at hE
    cases found <;> cases hen : bp.enabled <;>
    by_cases href : TitanOp.DeleteBPX bp.addr ∈ s.titan.refused <;>
    simp [h1, h2, h3, hen, href, DeleteBPX, titanCall, emit, dprintf, emitted, BpGet, hE,
      deletions, engineCalls]

/-- C29 (witness): the disabled memory entry, the disabled hardware-kind
entry and the disabled software entry at `0x401000`, each alone in the
registry. -/
theorem C29_delete_all_callbacks_and_disabled_entries_witness :
    cbDeleteAllMemoryBreakpoints 0 (disabledEntryAt .BPMEMORY)
        (withEntry (disabledEntryAt .BPMEMORY))
      = (true, withEntry (disabledEntryAt .BPMEMORY)) ∧
    cbDeleteAllHardwareBreakpoints (disabledEntryAt .BPMEMORY)
        (withEntry (disabledEntryAt .BPMEMORY))
      = (true, withEntry (disabledEntryAt .BPMEMORY)) ∧
    (cbDeleteAllBreakpoints (disabledEntryAt .BPNORMAL)
      (withEntry (disabledEntryAt .BPNORMAL))).1 = true ∧
    (cbDeleteAllBreakpoints (disabledEntryAt .BPNORMAL)
      (withEntry (disabledEntryAt .BPNORMAL))).2.breakpoints = [] ∧
    (engineCalls (emitted (withEntry (entryAt .BPNORMAL false))
      (cbDeleteAllBreakpoints (entryAt .BPNORMAL false)
        (withEntry (entryAt .BPNORMAL false))).2)).map Prod.fst = [.DeleteBPX 0x401000] :=
  ⟨((C29_delete_all_callbacks_and_disabled_entries 0 (disabledEntryAt .BPMEMORY) .BPMEMORY
      (withEntry (disabledEntryAt .BPMEMORY))).1 rfl).1,
   ((C29_delete_all_callbacks_and_disabled_entries 0 (disabledEntryAt .BPMEMORY) .BPMEMORY
      (withEntry (disabledEntryAt .BPMEMORY))).1 rfl).2,
   (C29_delete_all_callbacks_and_disabled_entries 0 (disabledEntryAt .BPNORMAL) .BPNORMAL
      (withEntry (disabledEntryAt .BPNORMAL))).2.2.2.2.1 rfl (by decide),
   by decide,
   (C29_delete_all_callbacks_and_disabled_entries 0 (entryAt .BPNORMAL false) .BPNORMAL
      (withEntry (entryAt .BPNORMAL false))).2.2.2.2.2.1 rfl (by decide)⟩

/-! ## Run to return: results -/

/-- C30: `cbRtrStep` reads the byte at the instruction pointer of the active
thread (`getCIPch`).  When it is `0xC3` or `0xC2` the handler is `cbRtrFinalStep`,
which runs the pause sequence and schedules no step; otherwise its one call
is `StepOver` with `cbRtrStep` as callback and it does not pause.  So it pauses
if and only if the byte is `0xC3` or `0xC2`.  A byte that cannot be read counts
as `0x90`, and stepping continues. -/
theorem C30_run_to_return_stops_at_near_return (s : Dbg) :
    ((getCIPch s = 0xC3 ∨ getCIPch s = 0xC2) →
      cbRtrStep s = cbRtrFinalStep s ∧
      emitted s (cbRtrStep s) =
        [.GuiSetDebugState .paused,
         .DebugUpdateGui (GetContextDataEx (ThreadGetHandle s.dwThreadId s) s) true,
         .lock .WAITID_RUN, .call "SetForegroundWindow" [], .plugincbcall .CB_PAUSEDEBUG none,
         .wait .WAITID_RUN false]) ∧
    (¬ (getCIPch s = 0xC3 ∨ getCIPch s = 0xC2) →
      cbRtrStep s = StepOver "cbRtrStep" s ∧
      emitted s (cbRtrStep s) = [.call "StepOver" [.str "cbRtrStep"]]) ∧
    (pausesIn (emitted s (cbRtrStep s)) = true ↔ (getCIPch s = 0xC3 ∨ getCIPch s = 0xC2)) ∧
    (MemRead (GetContextDataEx s.hActiveThread s) 1 s = none →
      getCIPch s = 0x90 ∧ emitted s (cbRtrStep s) = [.call "StepOver" [.str "cbRtrStep"]]) ∧
    (∀ b : Nat, MemRead (GetContextDataEx s.hActiveThread s) 1 s = some [b] →
      getCIPch s = b % 2 ^ 8) := by
  have hfinal : emitted s (cbRtrFinalStep s) =
      [.GuiSetDebugState .paused,
       .DebugUpdateGui (GetContextDataEx (ThreadGetHandle s.dwThreadId s) s) true,
       .lock .WAITID_RUN, .call "SetForegroundWindow" [], .plugincbcall .CB_PAUSEDEBUG none,
       .wait .WAITID_RUN false] := by
    apply emitted_of_append
    simp [cbRtrFinalStep, emit, plugincbcall, GuiSetDebugState, DebugUpdateGui, lock, wait,
      GetContextDataEx]
  have hstep : emitted s (StepOver "cbRtrStep" s) = [.call "StepOver" [.str "cbRtrStep"]] := by
    apply emitted_of_append
    simp [StepOver, emit]
  have hyes : (getCIPch s = 0xC3 ∨ getCIPch s = 0xC2) → cbRtrStep s = cbRtrFinalStep s := by
    intro h
    simp only [cbRtrStep, if_pos h]
  have hno : ¬ (getCIPch s = 0xC3 ∨ getCIPch s = 0xC2) →
      cbRtrStep s = StepOver "cbRtrStep" s := by
    intro h
    simp only [cbRtrStep, if_neg h]
  have hnone : MemRead (GetContextDataEx s.hActiveThread s) 1 s = none → getCIPch s = 0x90 := by
    intro h
    simp only [getCIPch, h]
  refine ⟨fun h => ⟨hyes h, by rw [hyes h, hfinal]⟩, fun h => ⟨hno h, by rw [hno h, hstep]⟩,
    ?_, ?_, ?_⟩
  · by_cases h : getCIPch s = 0xC3 ∨ getCIPch s = 0xC2
    · rw [hyes h, hfinal]
      simp [h, pausesIn, Event.isLockRun, Event.isWaitRun]
    · rw [hno h, hstep]
      simp [h, pausesIn, Event.isLockRun, Event.isWaitRun]
  · intro h
    have h90 := hnone h
    refine ⟨h90, ?_⟩
    rw [hno (by rw [h90]; decide), hstep]
  · intro b h
    simp only [getCIPch, h, List.headD_cons]

/-- C30 at work: with the byte `0xC3` at the instruction pointer the handler
runs the final pause; at program start, where no thread is active and the byte
cannot be read, the byte counts as `0x90` and the handler schedules the next
step. -/
theorem C30_run_to_return_stops_at_near_return_witness :
    getCIPch atReturn = 0xC3 ∧
    (cbRtrStep atReturn = cbRtrFinalStep atReturn ∧
      emitted atReturn (cbRtrStep atReturn) =
        [.GuiSetDebugState .paused,
         .DebugUpdateGui
           (GetContextDataEx (ThreadGetHandle atReturn.dwThreadId atReturn) atReturn) true,
         .lock .WAITID_RUN, .call "SetForegroundWindow" [], .plugincbcall .CB_PAUSEDEBUG none,
         .wait .WAITID_RUN false]) ∧
    MemRead (GetContextDataEx startup.hActiveThread startup) 1 startup = none ∧
    (getCIPch startup = 0x90 ∧
      emitted startup (cbRtrStep startup) = [.call "StepOver" [.str "cbRtrStep"]]) :=
  ⟨by decide,
    (C30_run_to_return_stops_at_near_return atReturn).1 (Or.inl (by decide)),
    by decide,
    (C30_run_to_return_stops_at_near_return startup).2.2.2.1 (by decide)⟩

end X64Dbg
